import Mathlib

/-!
# Antidote (IEEE 11073-20601 manager): configuring module and MDS mirror

A shallow embedding of `src/communication/configuring.c` and `src/dim/mds.c`.

* Machine integers (`intu16`, `intu32`, `int`) are natural numbers; the C test
  `x & FLAG` is `x &&& FLAG ≠ 0`.
* The C functions of the configuring module return `void` and act through calls
  to other modules (`communication_fire_evt`, `communication_reset_timeout`,
  `mds_configure_operating`, ...).  A function is embedded as the list of these
  calls, in program order (`List Call`).  All calls of one activation are made
  on the activation's own `Context *ctx`, which is therefore not repeated in
  the record.  Memory management (`free`, `del_*`, stream allocation) is not
  part of the record.
* Functions of other translation units that are only queried
  (`std_configurations_is_supported_standard`, the decoders, ...) are the
  fields of `Env`.
* A field of a C struct that the source leaves unassigned is `none` / `unset`.
-/

namespace Antidote

/-! ## Constants of the absent headers -/

/-- Modelled from the spec: APDU choice AARQ of the absent `asn1/phd_types.h` (spec section 6, AARQ=0xE200). -/
def AARQ_CHOSEN : Nat := 0xE200
/-- Modelled from the spec: APDU choice AARE of the absent `asn1/phd_types.h` (spec section 6, AARE=0xE300). -/
def AARE_CHOSEN : Nat := 0xE300
/-- Modelled from the spec: APDU choice RLRQ of the absent `asn1/phd_types.h` (spec section 6, RLRQ=0xE400). -/
def RLRQ_CHOSEN : Nat := 0xE400
/-- Modelled from the spec: APDU choice RLRE of the absent `asn1/phd_types.h` (spec section 6, RLRE=0xE500). -/
def RLRE_CHOSEN : Nat := 0xE500
/-- Modelled from the spec: APDU choice ABRT of the absent `asn1/phd_types.h` (spec section 6, ABRT=0xE600). -/
def ABRT_CHOSEN : Nat := 0xE600
/-- Modelled from the spec: APDU choice PRST of the absent `asn1/phd_types.h` (spec section 6, PRST=0xE700). -/
def PRST_CHOSEN : Nat := 0xE700

/-- Modelled from the spec: DATA-apdu choice ROIV confirmed event report of the absent
`asn1/phd_types.h`; value of IEEE 11073-20601. -/
def ROIV_CMIP_CONFIRMED_EVENT_REPORT_CHOSEN : Nat := 0x0101
/-- Modelled from the spec: DATA-apdu choice ROIV get of the absent `asn1/phd_types.h`;
value of IEEE 11073-20601. -/
def ROIV_CMIP_GET_CHOSEN : Nat := 0x0103
/-- Modelled from the spec: DATA-apdu choice ROIV confirmed action of the absent
`asn1/phd_types.h`; value of IEEE 11073-20601. -/
def ROIV_CMIP_CONFIRMED_ACTION_CHOSEN : Nat := 0x0107
/-- Modelled from the spec: DATA-apdu choice RORS confirmed event report of the absent
`asn1/phd_types.h`; value of IEEE 11073-20601. -/
def RORS_CMIP_CONFIRMED_EVENT_REPORT_CHOSEN : Nat := 0x0201
/-- Modelled from the spec: DATA-apdu choice RORS get of the absent `asn1/phd_types.h`;
value of IEEE 11073-20601. -/
def RORS_CMIP_GET_CHOSEN : Nat := 0x0203
/-- Modelled from the spec: DATA-apdu choice RORS confirmed set of the absent
`asn1/phd_types.h`; value of IEEE 11073-20601. -/
def RORS_CMIP_CONFIRMED_SET_CHOSEN : Nat := 0x0205
/-- Modelled from the spec: DATA-apdu choice RORS confirmed action of the absent
`asn1/phd_types.h`; value of IEEE 11073-20601. -/
def RORS_CMIP_CONFIRMED_ACTION_CHOSEN : Nat := 0x0207

/-- Modelled from the spec: ConfigResult `ACCEPTED_CONFIG` of the absent `asn1/phd_types.h`;
value of IEEE 11073-20601. -/
def ACCEPTED_CONFIG : Nat := 0x0000
/-- Modelled from the spec: ConfigResult `UNSUPPORTED_CONFIG` of the absent `asn1/phd_types.h`;
value of IEEE 11073-20601. -/
def UNSUPPORTED_CONFIG : Nat := 0x0001
/-- Modelled from the spec: ConfigResult `STANDARD_CONFIG_UNKNOWN` of the absent
`asn1/phd_types.h`; value of IEEE 11073-20601. -/
def STANDARD_CONFIG_UNKNOWN : Nat := 0x0002

/-- Modelled from the spec: ROER error value `NO_SUCH_OBJECT_INSTANCE` of the absent
`asn1/phd_types.h`; value of IEEE 11073-20601. -/
def NO_SUCH_OBJECT_INSTANCE : Nat := 1
/-- Modelled from the spec: ROER error value `NO_SUCH_ACTION` of the absent `asn1/phd_types.h`;
value of IEEE 11073-20601. -/
def NO_SUCH_ACTION : Nat := 9

/-- Modelled from the spec: event type `MDC_NOTI_CONFIG` of the absent `dim/nomenclature.h`;
value of IEEE 11073-20601. -/
def MDC_NOTI_CONFIG : Nat := 0x0D1C
/-- Modelled from the spec: event type `MDC_NOTI_SCAN_REPORT_FIXED` of the absent
`dim/nomenclature.h`, a measurement (non-configuration) notification; value of IEEE 11073-20601. -/
def MDC_NOTI_SCAN_REPORT_FIXED : Nat := 0x0D1D
/-- Modelled from the spec: class code `MDC_MOC_VMS_MDS_SIMP` of the absent `dim/nomenclature.h`;
value of IEEE 11073-20601. -/
def MDC_MOC_VMS_MDS_SIMP : Nat := 37
/-- Modelled from the spec: `MDS_HANDLE` of the absent `dim/mds.h`, the handle reserved for the
MDS itself (spec section 3: handle 0). -/
def MDS_HANDLE : Nat := 0
/-- Modelled from the spec: `RELEASE_RESPONSE_REASON_NORMAL` of the absent `asn1/phd_types.h`;
value of IEEE 11073-20601. -/
def RELEASE_RESPONSE_REASON_NORMAL : Nat := 0

/-- Modelled from the spec: DataReqMode bit `DATA_REQ_START_STOP` of the absent
`asn1/phd_types.h`; value of IEEE 11073-20601. -/
def DATA_REQ_START_STOP : Nat := 0x8000
/-- Modelled from the spec: DataReqMode bit `DATA_REQ_CONTINUATION` of the absent
`asn1/phd_types.h`; value of IEEE 11073-20601. -/
def DATA_REQ_CONTINUATION : Nat := 0x4000
/-- Modelled from the spec: DataReqMode scope bit "all" of the absent `asn1/phd_types.h`;
value of IEEE 11073-20601. -/
def DATA_REQ_SCOPE_ALL : Nat := 0x0800
/-- Modelled from the spec: DataReqMode scope bit "class" of the absent `asn1/phd_types.h`;
value of IEEE 11073-20601. -/
def DATA_REQ_SCOPE_TYPE : Nat := 0x0400
/-- Modelled from the spec: DataReqMode scope bit "handle" of the absent `asn1/phd_types.h`;
value of IEEE 11073-20601. -/
def DATA_REQ_SCOPE_HANDLE : Nat := 0x0200
/-- Modelled from the spec: DataReqMode mode bit "single-response" of the absent
`asn1/phd_types.h`; value of IEEE 11073-20601. -/
def DATA_REQ_MODE_SINGLE_RSP : Nat := 0x0080
/-- Modelled from the spec: DataReqMode mode bit "time-period" of the absent
`asn1/phd_types.h`; value of IEEE 11073-20601. -/
def DATA_REQ_MODE_TIME_PERIOD : Nat := 0x0040
/-- Modelled from the spec: DataReqMode mode bit "no-limit" of the absent `asn1/phd_types.h`;
value of IEEE 11073-20601. -/
def DATA_REQ_MODE_TIME_NO_LIMIT : Nat := 0x0020
/-- Modelled from the spec: DataReqMode bit "person-id" of the absent `asn1/phd_types.h`;
value of IEEE 11073-20601. -/
def DATA_REQ_MODE_DATA_REQ_PERSON_ID : Nat := 0x0010

/-- Modelled from the spec: capability flag `DATA_REQ_SUPP_STOP` of the absent
`asn1/phd_types.h`; value of IEEE 11073-20601. -/
def DATA_REQ_SUPP_STOP : Nat := 0x8000
/-- Modelled from the spec: capability flag for scope "all" of the absent `asn1/phd_types.h`;
value of IEEE 11073-20601. -/
def DATA_REQ_SUPP_SCOPE_ALL : Nat := 0x0800
/-- Modelled from the spec: capability flag for scope "class" of the absent `asn1/phd_types.h`;
value of IEEE 11073-20601. -/
def DATA_REQ_SUPP_SCOPE_CLASS : Nat := 0x0400
/-- Modelled from the spec: capability flag for scope "handle" of the absent
`asn1/phd_types.h`; value of IEEE 11073-20601. -/
def DATA_REQ_SUPP_SCOPE_HANDLE : Nat := 0x0200
/-- Modelled from the spec: capability flag for mode "single-response" of the absent
`asn1/phd_types.h`; value of IEEE 11073-20601. -/
def DATA_REQ_SUPP_MODE_SINGLE_RSP : Nat := 0x0080
/-- Modelled from the spec: capability flag for mode "time-period" of the absent
`asn1/phd_types.h`; value of IEEE 11073-20601. -/
def DATA_REQ_SUPP_MODE_TIME_PERIOD : Nat := 0x0040
/-- Modelled from the spec: capability flag for mode "no-limit" of the absent
`asn1/phd_types.h`; value of IEEE 11073-20601. -/
def DATA_REQ_SUPP_MODE_TIME_NO_LIMIT : Nat := 0x0020
/-- Modelled from the spec: capability flag for person-id of the absent `asn1/phd_types.h`;
value of IEEE 11073-20601. -/
def DATA_REQ_SUPP_PERSON_ID : Nat := 0x0010

/-- Modelled from the spec: `sizeof(intu16)`, two bytes. -/
def sizeof_intu16 : Nat := 2
/-- Modelled from the spec: `sizeof(HANDLE)`, a 16-bit handle (spec section 3). -/
def sizeof_HANDLE : Nat := 2
/-- Modelled from the spec: `sizeof(OID_Type)`, a 16-bit identifier. -/
def sizeof_OID_Type : Nat := 2
/-- Modelled from the spec: `sizeof(InvokeIDType)`, a 16-bit invoke-id (spec section 3). -/
def sizeof_InvokeIDType : Nat := 2
/-- Modelled from the spec: `sizeof(DATA_apdu_choice)`, a 16-bit inner choice (spec section 6). -/
def sizeof_DATA_apdu_choice : Nat := 2
/-- Modelled from the spec: `sizeof(RelativeTime)`, a 32-bit time. -/
def sizeof_RelativeTime : Nat := 4
/-- Modelled from the spec: `sizeof(ConfigReportRsp)`, a 16-bit `config_report_id` followed by a
16-bit `config_result`. -/
def sizeof_ConfigReportRsp : Nat := 4

/-! ## Data model (types of the absent headers, as far as the source touches them) -/

/-- Modelled from the spec: `octet_string` of the absent `asn1/phd_types.h`, a length and the
bytes. -/
structure octet_string where
  length : Nat
  value : List Nat
  deriving DecidableEq, Repr

/-- Modelled from the spec: `Any` of the absent `asn1/phd_types.h`, a length and the encoded
bytes. -/
structure Any where
  length : Nat
  value : List Nat
  deriving DecidableEq, Repr

/-- Modelled from the spec: `AVA_Type` of the absent `asn1/phd_types.h`, an
`(attribute_id, raw_bytes)` pair (spec section 3). -/
structure AVA_Type where
  attribute_id : Nat
  attribute_value : Any
  deriving DecidableEq, Repr

/-- Modelled from the spec: `AttributeList` of the absent `asn1/phd_types.h`. -/
structure AttributeList where
  count : Nat
  length : Nat
  value : List AVA_Type
  deriving DecidableEq, Repr

/-- Modelled from the spec: `ConfigObject` of the absent `asn1/phd_types.h`: `obj_class`,
`obj_handle` and the attribute list (spec section 3). -/
structure ConfigObject where
  obj_class : Nat
  obj_handle : Nat
  attributes : AttributeList
  deriving DecidableEq, Repr

/-- Modelled from the spec: `ConfigObjectList` of the absent `asn1/phd_types.h`: the `count`
field and the objects. -/
structure ConfigObjectList where
  count : Nat
  length : Nat
  value : List ConfigObject
  deriving DecidableEq, Repr

/-- Modelled from the spec: `ConfigReport` of the absent `asn1/phd_types.h`: `config_report_id`
and the ordered object list (spec section 3). -/
structure ConfigReport where
  config_report_id : Nat
  config_obj_list : ConfigObjectList
  deriving DecidableEq, Repr

/-- Modelled from the spec: `ConfigReportRsp` of the absent `asn1/phd_types.h` (spec section
4.5). -/
structure ConfigReportRsp where
  config_report_id : Nat
  config_result : Nat
  deriving DecidableEq, Repr

/-- Modelled from the spec: `EventReportArgumentSimple` of the absent `asn1/phd_types.h`, the
argument of a ROIV (confirmed) event report. -/
structure EventReportArgumentSimple where
  obj_handle : Nat
  event_time : Nat
  event_type : Nat
  event_info : Any
  deriving DecidableEq, Repr

/-- Modelled from the spec: `EventReportResultSimple` of the absent `asn1/phd_types.h`, the
result of a RORS confirmed event report. -/
structure EventReportResultSimple where
  obj_handle : Nat
  currentTime : Nat
  event_type : Nat
  event_reply_info : Any
  deriving DecidableEq, Repr

/-- Modelled from the spec: `ActionArgumentSimple` of the absent `asn1/phd_types.h`, the argument
of a ROIV (confirmed) action. -/
structure ActionArgumentSimple where
  obj_handle : Nat
  action_type : Nat
  action_info_args : Any
  deriving DecidableEq, Repr

/-- Modelled from the spec: the union `u` of `Data_apdu_message` in the absent
`asn1/phd_types.h`.  Each member that the source reads or writes is kept as a field of its
own; no function of the source reads a member after writing another one.  A member the source
does not assign holds zeros. -/
structure Data_apdu_message_u where
  roiv_cmipConfirmedEventReport : EventReportArgumentSimple := ⟨0, 0, 0, ⟨0, []⟩⟩
  roiv_cmipConfirmedAction : ActionArgumentSimple := ⟨0, 0, ⟨0, []⟩⟩
  rors_cmipConfirmedEventReport : EventReportResultSimple := ⟨0, 0, 0, ⟨0, []⟩⟩
  deriving DecidableEq, Repr

/-- Modelled from the spec: `Data_apdu_message` of the absent `asn1/phd_types.h`: the inner
choice, the length of the remainder and the union. -/
structure Data_apdu_message where
  choice : Nat
  length : Nat
  u : Data_apdu_message_u
  deriving DecidableEq, Repr

/-- Modelled from the spec: `DATA_apdu` of the absent `asn1/phd_types.h`: `invoke_id` followed
by the message (spec section 6). -/
structure DATA_apdu where
  invoke_id : Nat
  message : Data_apdu_message
  deriving DecidableEq, Repr

/-- Modelled from the spec: `PRST_apdu` of the absent `asn1/phd_types.h`: a length and the
wrapped DATA-apdu (spec section 4.2: PRST wraps a DATA-apdu). -/
structure PRST_apdu where
  length : Nat
  value : DATA_apdu
  deriving DecidableEq, Repr

/-- Modelled from the spec: the union `u` of `APDU` in the absent `asn1/phd_types.h`; the
source reads and writes the member `prst` only. -/
structure APDU_u where
  prst : PRST_apdu
  deriving DecidableEq, Repr

/-- Modelled from the spec: `APDU` of the absent `asn1/phd_types.h`: 16-bit choice, 16-bit
length of the remainder, body (spec section 6). -/
structure APDU where
  choice : Nat
  length : Nat
  u : APDU_u
  deriving DecidableEq, Repr

/-- Modelled from the spec: `encode_get_data_apdu` of the absent
`communication/parser/encoder_ASN1.c`: the DATA-apdu that the PRST wraps. -/
def encode_get_data_apdu (prst : PRST_apdu) : DATA_apdu :=
  prst.value

/-- Modelled from the spec: the enumeration `fsm_events` of the absent `communication/fsm.h`,
restricted to the events the configuring module fires (spec section 4.5). -/
inductive fsm_events where
  | fsm_evt_rx_aarq
  | fsm_evt_rx_aare
  | fsm_evt_rx_rlrq
  | fsm_evt_rx_rlre
  | fsm_evt_rx_abrt
  | fsm_evt_rx_roiv
  | fsm_evt_rx_roiv_event_report
  | fsm_evt_rx_roiv_confirmed_event_report
  | fsm_evt_rx_roiv_all_except_confirmed_event_report
  | fsm_evt_rx_rors
  | fsm_evt_rx_rors_confirmed_event_report_known
  | fsm_evt_rx_rors_confirmed_event_report_unknown
  | fsm_evt_rx_rors_get
  | fsm_evt_rx_rors_confirmed_action
  | fsm_evt_rx_rors_confirmed_set
  | fsm_evt_rx_roer
  | fsm_evt_rx_rorj
  | fsm_evt_req_agent_supplied_known_configuration
  | fsm_evt_req_agent_supplied_unknown_configuration
  deriving DecidableEq, Repr

/-- Modelled from the spec: the enumeration of `FSMEventData.choice` in the absent
`communication/fsm.h`, restricted to the values the configuring module assigns. -/
inductive FSMEventData_choice where
  | FSM_EVT_DATA_ERROR_RESULT
  | FSM_EVT_DATA_RELEASE_RESPONSE_REASON
  | FSM_EVT_DATA_CONFIGURATION_RESULT
  deriving DecidableEq, Repr

/-- Modelled from the spec: `ErrorResult` of the absent `asn1/phd_types.h`: the error value and
the parameter.  The source assigns `parameter.length` only, the bytes stay empty. -/
structure ErrorResult where
  error_value : Nat
  parameter : Any
  deriving DecidableEq, Repr

/-- Modelled from the spec: the union `u` of `FSMEventData` in the absent
`communication/fsm.h`; `unset` is a union the source has not assigned. -/
inductive FSMEventData_u where
  | unset
  | error_result (e : ErrorResult)
  | release_response_reason (r : Nat)
  | configuration_result (r : Nat)
  deriving DecidableEq, Repr

/-- Modelled from the spec: `FSMEventData` of the absent `communication/fsm.h`; a field the
source has not assigned is `none` / `unset`. -/
structure FSMEventData where
  received_apdu : Option APDU
  choice : Option FSMEventData_choice
  u : FSMEventData_u
  deriving DecidableEq, Repr

/-! ## The MDS mirror (`src/dim/mds.h`, absent; fields as `mds.c` uses them) -/

/-- Modelled from the spec: the enumeration of `MDS_object.choice` in the absent `dim/mds.h`
(spec section 3: a tagged variant). -/
inductive MDS_object_choice where
  | MDS_OBJ_METRIC
  | MDS_OBJ_PMSTORE
  | MDS_OBJ_SCANNER
  deriving DecidableEq, Repr

/-- Modelled from the spec: `struct Metric` of the absent `dim/metric.h`, the common part of the
metric classes, restricted to the field `mds.c` assigns (its handle). -/
structure Metric where
  handle : Nat
  deriving DecidableEq, Repr

/-- Modelled from the spec: `struct Numeric` of the absent `dim/numeric.h`: embeds a `Metric`
(spec section 3); the class-specific attributes are not touched by `mds.c`. -/
structure Numeric where
  metric : Metric
  deriving DecidableEq, Repr

/-- Modelled from the spec: `struct Enumeration` of the absent `dim/enumeration.h`: embeds a
`Metric` (spec section 3); the class-specific attributes are not touched by `mds.c`. -/
structure Enumeration where
  metric : Metric
  deriving DecidableEq, Repr

/-- Modelled from the spec: `struct PMStore` of the absent `dim/pmstore.h`, restricted to the
field `mds.c` assigns (its handle). -/
structure PMStore where
  handle : Nat
  deriving DecidableEq, Repr

/-- Modelled from the spec: `struct Scanner` of the absent `dim/scanner.h`, the common part of
the scanner classes: handle and operational state, the arguments of `scanner_instance`. -/
structure Scanner where
  handle : Nat
  operational_state : Nat
  deriving DecidableEq, Repr

/-- Modelled from the spec: `struct CfgScanner` of the absent `dim/cfg_scanner.h`: a `Scanner`
and the confirm mode, the arguments of `cfg_scanner_instance`. -/
structure CfgScanner where
  scanner : Scanner
  confirm_mode : Nat
  deriving DecidableEq, Repr

/-- Modelled from the spec: `struct EpiCfgScanner` of the absent `dim/epi_cfg_scanner.h`:
embeds a `CfgScanner` (spec section 3). -/
structure EpiCfgScanner where
  scanner : CfgScanner
  deriving DecidableEq, Repr

/-- Modelled from the spec: `struct PeriCfgScanner` of the absent `dim/peri_cfg_scanner.h`:
embeds a `CfgScanner` (spec section 3). -/
structure PeriCfgScanner where
  scanner : CfgScanner
  deriving DecidableEq, Repr

/-- Modelled from the spec: `os_disabled` of the absent `asn1/phd_types.h` (OperationalState);
value of IEEE 11073-20601. -/
def os_disabled : Nat := 0
/-- Modelled from the spec: `unconfirmed` of the absent `asn1/phd_types.h` (ConfirmMode);
value of IEEE 11073-20601. -/
def unconfirmed : Nat := 0

/-- Modelled from the spec: the enumeration of `Metric_object.choice` in the absent
`dim/mds.h`. -/
inductive Metric_object_choice where
  | METRIC_NUMERIC
  | METRIC_ENUM
  | METRIC_RTSA
  deriving DecidableEq, Repr

/-- Modelled from the spec: the union `u` of `struct Metric_object` in the absent `dim/mds.h`,
with the members `mds.c` assigns. -/
inductive Metric_object_u where
  | numeric (numeric : Numeric)
  | enumeration (enumeration : Enumeration)
  deriving DecidableEq, Repr

/-- Modelled from the spec: `struct Metric_object` of the absent `dim/mds.h`: tag and union. -/
structure Metric_object where
  choice : Metric_object_choice
  u : Metric_object_u
  deriving DecidableEq, Repr

/-- Modelled from the spec: the enumeration of `Scanner_object.choice` in the absent
`dim/mds.h`. -/
inductive Scanner_object_choice where
  | EPI_CFG_SCANNER
  | PERI_CFG_SCANNER
  deriving DecidableEq, Repr

/-- Modelled from the spec: the union `u` of `struct Scanner_object` in the absent
`dim/mds.h`. -/
inductive Scanner_object_u where
  | epi_cfg_scanner (epi_cfg_scanner : EpiCfgScanner)
  | peri_cfg_scanner (peri_cfg_scanner : PeriCfgScanner)
  deriving DecidableEq, Repr

/-- Modelled from the spec: `struct Scanner_object` of the absent `dim/mds.h`: tag and union. -/
structure Scanner_object where
  choice : Scanner_object_choice
  u : Scanner_object_u
  deriving DecidableEq, Repr

/-- Modelled from the spec: the union `u` of `struct MDS_object` in the absent `dim/mds.h`
(spec section 3: a tagged variant over the sub-object classes). -/
inductive MDS_object_u where
  | metric (metric : Metric_object)
  | pmstore (pmstore : PMStore)
  | scanner (scanner : Scanner_object)
  deriving DecidableEq, Repr

/-- Modelled from the spec: `struct MDS_object` of the absent `dim/mds.h`: the variant tag, the
16-bit handle of the sub-object and the variant (spec section 3). -/
structure MDS_object where
  choice : MDS_object_choice
  obj_handle : Nat
  u : MDS_object_u
  deriving DecidableEq, Repr

/-- Modelled from the spec: `TYPE` of the absent `asn1/phd_types.h`: nomenclature partition and
code. -/
structure TYPE where
  partition : Nat
  code : Nat
  deriving DecidableEq, Repr

/-- Modelled from the spec: `SystemModel` of the absent `asn1/phd_types.h`: manufacturer and
model number. -/
structure SystemModel where
  manufacturer : octet_string
  model_number : octet_string
  deriving DecidableEq, Repr

/-- Modelled from the spec: `AttrValMapEntry` of the absent `asn1/phd_types.h`. -/
structure AttrValMapEntry where
  attribute_id : Nat
  attribute_len : Nat
  deriving DecidableEq, Repr

/-- Modelled from the spec: `AttrValMap` of the absent `asn1/phd_types.h` (spec section 3:
attribute-value-map). -/
structure AttrValMap where
  count : Nat
  length : Nat
  value : List AttrValMapEntry
  deriving DecidableEq, Repr

/-- Modelled from the spec: `ProdSpecEntry` of the absent `asn1/phd_types.h`. -/
structure ProdSpecEntry where
  spec_type : Nat
  component_id : Nat
  prod_spec : octet_string
  deriving DecidableEq, Repr

/-- Modelled from the spec: `ProductionSpec` of the absent `asn1/phd_types.h` (spec section 3:
production-specification). -/
structure ProductionSpec where
  count : Nat
  length : Nat
  value : List ProdSpecEntry
  deriving DecidableEq, Repr

/-- Modelled from the spec: `MdsTimeInfo` of the absent `asn1/phd_types.h`. -/
structure MdsTimeInfo where
  mds_time_cap_state : Nat
  time_sync_protocol : Nat
  time_sync_accuracy : Nat
  time_resolution_abs_time : Nat
  time_resolution_rel_time : Nat
  time_resolution_high_res_time : Nat
  deriving DecidableEq, Repr

/-- Modelled from the spec: `AbsoluteTime` of the absent `asn1/phd_types.h`. -/
structure AbsoluteTime where
  century : Nat
  year : Nat
  month : Nat
  day : Nat
  hour : Nat
  minute : Nat
  second : Nat
  sec_fractions : Nat
  deriving DecidableEq, Repr

/-- Modelled from the spec: `HighResRelativeTime` of the absent `asn1/phd_types.h`, eight
bytes. -/
structure HighResRelativeTime where
  value : List Nat
  deriving DecidableEq, Repr

/-- Modelled from the spec: `AbsoluteTimeAdjust` of the absent `asn1/phd_types.h`, six
bytes. -/
structure AbsoluteTimeAdjust where
  value : List Nat
  deriving DecidableEq, Repr

/-- Modelled from the spec: `BatMeasure` of the absent `asn1/phd_types.h`: a value (the bits of
the FLOAT-Type) and its unit. -/
structure BatMeasure where
  value : Nat
  unit : Nat
  deriving DecidableEq, Repr

/-- Modelled from the spec: `RegCertData` of the absent `asn1/phd_types.h`. -/
structure RegCertData where
  auth_body : Nat
  auth_body_struc_type : Nat
  auth_body_data : Any
  deriving DecidableEq, Repr

/-- Modelled from the spec: `RegCertDataList` of the absent `asn1/phd_types.h`. -/
structure RegCertDataList where
  count : Nat
  length : Nat
  value : List RegCertData
  deriving DecidableEq, Repr

/-- Modelled from the spec: `TypeVer` of the absent `asn1/phd_types.h`. -/
structure TypeVer where
  type : Nat
  version : Nat
  deriving DecidableEq, Repr

/-- Modelled from the spec: `TypeVerList` of the absent `asn1/phd_types.h`. -/
structure TypeVerList where
  count : Nat
  length : Nat
  value : List TypeVer
  deriving DecidableEq, Repr

/-- Modelled from the spec: `DataReqModeCapab` of the absent `asn1/phd_types.h`, the
data-request capability flags of the Agent (spec section 3). -/
structure DataReqModeCapab where
  data_req_mode_flags : Nat
  data_req_init_agent_count : Nat
  data_req_init_manager_count : Nat
  deriving DecidableEq, Repr

/-- Modelled from the spec: `struct DIM` of the absent `dim/dim.h`, the class identification. -/
structure DIM where
  id : Nat
  deriving DecidableEq, Repr

/-- Modelled from the spec: `struct MDS` of the absent `dim/mds.h`, with the fields that
`mds.c` reads or writes: class id, own handle, the scalar attributes, the ordered sub-objects
with their count, and the data-request capability (spec section 3). -/
structure MDS where
  dim : DIM
  handle : Nat
  system_type : TYPE
  system_model : SystemModel
  system_id : octet_string
  dev_configuration_id : Nat
  attribute_value_map : AttrValMap
  production_specification : ProductionSpec
  mds_time_info : MdsTimeInfo
  date_and_time : AbsoluteTime
  relative_time : Nat
  hires_relative_time : HighResRelativeTime
  date_and_time_adjustment : AbsoluteTimeAdjust
  power_status : Nat
  battery_level : Nat
  remaining_battery_time : BatMeasure
  reg_cert_data_list : RegCertDataList
  system_type_spec_list : TypeVerList
  confirm_timeout : Nat
  objects_list : List MDS_object
  objects_list_count : Nat
  data_req_mode_capab : DataReqModeCapab
  deriving DecidableEq, Repr

/-- Modelled from the spec: `Context` of the absent `communication/context.h`, restricted to
its MDS pointer; `none` is the NULL pointer. -/
structure Context where
  mds : Option MDS
  deriving DecidableEq, Repr

/-- Source function `mds_get_nomenclature_code` (mds.c:108). -/
def mds_get_nomenclature_code : Nat :=
  MDC_MOC_VMS_MDS_SIMP

/-- Source function `mds_create` (mds.c:91): `calloc` zeroes every field, then the class id, the empty object
list and the reserved handle are assigned. -/
def mds_create : MDS :=
  { dim := { id := mds_get_nomenclature_code }
    handle := MDS_HANDLE
    system_type := { partition := 0, code := 0 }
    system_model :=
      { manufacturer := { length := 0, value := [] }, model_number := { length := 0, value := [] } }
    system_id := { length := 0, value := [] }
    dev_configuration_id := 0
    attribute_value_map := { count := 0, length := 0, value := [] }
    production_specification := { count := 0, length := 0, value := [] }
    mds_time_info :=
      { mds_time_cap_state := 0, time_sync_protocol := 0, time_sync_accuracy := 0
        time_resolution_abs_time := 0, time_resolution_rel_time := 0
        time_resolution_high_res_time := 0 }
    date_and_time :=
      { century := 0, year := 0, month := 0, day := 0, hour := 0, minute := 0, second := 0
        sec_fractions := 0 }
    relative_time := 0
    hires_relative_time := { value := [0, 0, 0, 0, 0, 0, 0, 0] }
    date_and_time_adjustment := { value := [0, 0, 0, 0, 0, 0] }
    power_status := 0
    battery_level := 0
    remaining_battery_time := { value := 0, unit := 0 }
    reg_cert_data_list := { count := 0, length := 0, value := [] }
    system_type_spec_list := { count := 0, length := 0, value := [] }
    confirm_timeout := 0
    objects_list := []
    objects_list_count := 0
    data_req_mode_capab :=
      { data_req_mode_flags := 0, data_req_init_agent_count := 0, data_req_init_manager_count := 0 } }

/-- Source function `mds_is_supported_data_request` (mds.c:232).  The four `int` locals hold the truth value
of their C expression; the returned `int` is 1 when the final conjunction holds, else 0. -/
def mds_is_supported_data_request (mds : MDS) (data_req_mode : Nat) : Nat :=
  let capab := mds.data_req_mode_capab.data_req_mode_flags
  let supportedReqType : Bool :=
    (data_req_mode &&& DATA_REQ_START_STOP != 0) ||
    (data_req_mode &&& DATA_REQ_CONTINUATION != 0) ||
    (capab &&& DATA_REQ_SUPP_STOP != 0)
  let supportedModeType : Bool :=
    ((data_req_mode &&& DATA_REQ_MODE_SINGLE_RSP != 0) && (capab &&& DATA_REQ_SUPP_MODE_SINGLE_RSP != 0)) ||
    ((data_req_mode &&& DATA_REQ_MODE_TIME_PERIOD != 0) && (capab &&& DATA_REQ_SUPP_MODE_TIME_PERIOD != 0)) ||
    ((data_req_mode &&& DATA_REQ_MODE_TIME_NO_LIMIT != 0) && (capab &&& DATA_REQ_SUPP_MODE_TIME_NO_LIMIT != 0))
  let supportedScopeType : Bool :=
    ((data_req_mode &&& DATA_REQ_SCOPE_ALL != 0) && (capab &&& DATA_REQ_SUPP_SCOPE_ALL != 0)) ||
    ((data_req_mode &&& DATA_REQ_SCOPE_TYPE != 0) && (capab &&& DATA_REQ_SUPP_SCOPE_CLASS != 0)) ||
    ((data_req_mode &&& DATA_REQ_SCOPE_HANDLE != 0) && (capab &&& DATA_REQ_SUPP_SCOPE_HANDLE != 0))
  let supportedPersonalId : Bool :=
    (!(data_req_mode &&& DATA_REQ_MODE_DATA_REQ_PERSON_ID != 0)) || (capab &&& DATA_REQ_SUPP_PERSON_ID != 0)
  if supportedReqType && supportedModeType && supportedScopeType && supportedPersonalId then 1 else 0

/-! ## The configuring module (`src/communication/configuring.c`) -/

/-- Source constant `CONFIGURING_TO` (configuring.c:63), seconds. -/
def CONFIGURING_TO : Nat := 10

/-- The functions of other translation units that the configuring module queries.  They are
absent from the sources at hand and are taken as parameters. -/
structure Env where
  /-- C function `std_configurations_is_supported_standard(config_report_id)` -/
  std_configurations_is_supported_standard : Nat → Bool
  /-- C function `std_configurations_get_configuration_attributes(config_report_id)` -/
  std_configurations_get_configuration_attributes : Nat → ConfigObjectList
  /-- C function `ext_configurations_is_supported_standard(system_id, config_report_id)` -/
  ext_configurations_is_supported_standard : Option octet_string → Nat → Bool
  /-- C function `ext_configurations_get_configuration_attributes(system_id, config_report_id)` -/
  ext_configurations_get_configuration_attributes : Option octet_string → Nat → ConfigObjectList
  /-- C function `decode_configreport` on a reader over the given bytes -/
  decode_configreport : Any → ConfigReport
  /-- C function `decode_configreportrsp` on a reader over the given bytes -/
  decode_configreportrsp : Any → ConfigReportRsp
  /-- C function `encode_configreportrsp`: the bytes written to the stream -/
  encode_configreportrsp : ConfigReportRsp → List Nat
  /-- C function `communication_is_roiv_type(data_apdu)` -/
  communication_is_roiv_type : DATA_apdu → Bool
  /-- C function `communication_is_rors_type(data_apdu)` -/
  communication_is_rors_type : DATA_apdu → Bool
  /-- C function `communication_is_roer_type(data_apdu)` -/
  communication_is_roer_type : DATA_apdu → Bool
  /-- C function `communication_is_rorj_type(data_apdu)` -/
  communication_is_rorj_type : DATA_apdu → Bool
  /-- C function `service_check_known_invoke_id(ctx, data_apdu)` -/
  service_check_known_invoke_id : Context → DATA_apdu → Bool

/-- Modelled from the spec: the expiry handlers that the configuring module hands to
`communication_count_timeout`; `communication_timeout` lives in the absent
`communication/communication.c`. -/
inductive timer_callback_function where
  | communication_timeout
  deriving DecidableEq, Repr

/-- One call made by a function of the configuring module to another module, with its
arguments (the context apart). -/
inductive Call where
  | communication_reset_timeout
  | communication_fire_evt (evt : fsm_events) (data : Option FSMEventData)
  | communication_count_timeout (func : timer_callback_function) (timeout : Nat)
  | communication_send_apdu (apdu : APDU)
  | communication_abort_undefined_reason_tx (evt : fsm_events) (event_data : Option FSMEventData)
  | communication_roer_tx (evt : fsm_events) (event_data : Option FSMEventData)
  | association_accept_config_tx (evt : fsm_events) (event_data : Option FSMEventData)
  | disassociating_release_request_tx (evt : fsm_events) (event_data : Option FSMEventData)
  | service_request_retired (data_apdu : DATA_apdu)
  | mds_configure_operating (config_obj_list : ConfigObjectList)
  | ext_configurations_register_conf (system_id : Option octet_string) (config_report_id : Nat)
      (object_list : ConfigObjectList)
  deriving DecidableEq, Repr

/-- Source function `configuring_waiting_state_process_apdu` (configuring.c:74). -/
def configuring_waiting_state_process_apdu (env : Env) (apdu : APDU) : List Call :=
  let evt : FSMEventData := { received_apdu := some apdu, choice := none, u := .unset }
  if apdu.choice = PRST_CHOSEN then
    let input_data_apdu := encode_get_data_apdu apdu.u.prst
    let message := input_data_apdu.message
    if input_data_apdu.message.choice = ROIV_CMIP_CONFIRMED_EVENT_REPORT_CHOSEN then
      let args := message.u.roiv_cmipConfirmedEventReport
      if args.event_type = MDC_NOTI_CONFIG then
        [Call.communication_reset_timeout,
         Call.communication_fire_evt .fsm_evt_rx_roiv_confirmed_event_report (some evt)]
      else
        []
    else if env.communication_is_roiv_type input_data_apdu then
      let evt : FSMEventData :=
        { evt with
          choice := some .FSM_EVT_DATA_ERROR_RESULT
          u := .error_result
            { error_value := NO_SUCH_OBJECT_INSTANCE, parameter := { length := 0, value := [] } } }
      [Call.communication_fire_evt .fsm_evt_rx_roiv_event_report (some evt)]
    else if env.communication_is_rors_type input_data_apdu then
      [Call.communication_fire_evt .fsm_evt_rx_rors (some evt)]
    else if env.communication_is_roer_type input_data_apdu then
      [Call.communication_fire_evt .fsm_evt_rx_roer none]
    else if env.communication_is_rorj_type input_data_apdu then
      [Call.communication_fire_evt .fsm_evt_rx_rorj none]
    else
      []
  else if apdu.choice = AARQ_CHOSEN then
    [Call.communication_fire_evt .fsm_evt_rx_aarq none]
  else if apdu.choice = AARE_CHOSEN then
    [Call.communication_fire_evt .fsm_evt_rx_aare none]
  else if apdu.choice = RLRE_CHOSEN then
    [Call.communication_fire_evt .fsm_evt_rx_rlre none]
  else if apdu.choice = RLRQ_CHOSEN then
    let evt : FSMEventData :=
      { evt with
        choice := some .FSM_EVT_DATA_RELEASE_RESPONSE_REASON
        u := .release_response_reason RELEASE_RESPONSE_REASON_NORMAL }
    [Call.communication_fire_evt .fsm_evt_rx_rlrq (some evt)]
  else if apdu.choice = ABRT_CHOSEN then
    [Call.communication_fire_evt .fsm_evt_rx_abrt none]
  else
    []

/-- Source function `comm_agent_process_confirmed_event_report` (configuring.c:159). -/
def comm_agent_process_confirmed_event_report (env : Env) (report : EventReportResultSimple)
    (data : FSMEventData) : List Call :=
  if report.obj_handle ≠ MDS_HANDLE then
    [Call.communication_fire_evt .fsm_evt_rx_rors (some data)]
  else if report.event_type ≠ MDC_NOTI_CONFIG then
    [Call.communication_fire_evt .fsm_evt_rx_rors (some data)]
  else
    let rsp := env.decode_configreportrsp report.event_reply_info
    if rsp.config_result = ACCEPTED_CONFIG then
      [Call.communication_fire_evt .fsm_evt_rx_rors_confirmed_event_report_known (some data)]
    else
      [Call.communication_fire_evt .fsm_evt_rx_rors_confirmed_event_report_unknown (some data)]

/-- Source function `communication_agent_process_rors` (configuring.c:195). -/
def communication_agent_process_rors (env : Env) (ctx : Context) (apdu : APDU) : List Call :=
  let data_apdu := encode_get_data_apdu apdu.u.prst
  let data : FSMEventData := { received_apdu := some apdu, choice := none, u := .unset }
  if env.service_check_known_invoke_id ctx data_apdu then
    (if data_apdu.message.choice = RORS_CMIP_CONFIRMED_EVENT_REPORT_CHOSEN then
      comm_agent_process_confirmed_event_report env
        data_apdu.message.u.rors_cmipConfirmedEventReport data
    else if data_apdu.message.choice = RORS_CMIP_GET_CHOSEN then
      [Call.communication_fire_evt .fsm_evt_rx_rors_get (some data)]
    else if data_apdu.message.choice = RORS_CMIP_CONFIRMED_ACTION_CHOSEN then
      [Call.communication_fire_evt .fsm_evt_rx_rors_confirmed_action (some data)]
    else if data_apdu.message.choice = RORS_CMIP_CONFIRMED_SET_CHOSEN then
      [Call.communication_fire_evt .fsm_evt_rx_rors_confirmed_set (some data)]
    else
      [])
    ++ [Call.service_request_retired data_apdu]
  else
    []

/-- Source function `configuring_agent_waiting_approval_process_apdu` (configuring.c:238). -/
def configuring_agent_waiting_approval_process_apdu (env : Env) (ctx : Context) (apdu : APDU) :
    List Call :=
  if apdu.choice = PRST_CHOSEN then
    let data_apdu := encode_get_data_apdu apdu.u.prst
    if env.communication_is_roiv_type data_apdu then
      [Call.communication_fire_evt .fsm_evt_rx_roiv none]
    else if env.communication_is_roer_type data_apdu then
      [Call.communication_fire_evt .fsm_evt_rx_roer none]
    else if env.communication_is_rorj_type data_apdu then
      [Call.communication_fire_evt .fsm_evt_rx_rorj none]
    else if env.communication_is_rors_type data_apdu then
      communication_agent_process_rors env ctx apdu
    else
      []
  else if apdu.choice = AARQ_CHOSEN then
    [Call.communication_fire_evt .fsm_evt_rx_aarq none]
  else if apdu.choice = AARE_CHOSEN then
    [Call.communication_fire_evt .fsm_evt_rx_aare none]
  else if apdu.choice = RLRQ_CHOSEN then
    let evt : FSMEventData :=
      { received_apdu := none
        choice := some .FSM_EVT_DATA_RELEASE_RESPONSE_REASON
        u := .release_response_reason RELEASE_RESPONSE_REASON_NORMAL }
    [Call.communication_fire_evt .fsm_evt_rx_rlrq (some evt)]
  else if apdu.choice = RLRE_CHOSEN then
    [Call.communication_fire_evt .fsm_evt_rx_rlre none]
  else if apdu.choice = ABRT_CHOSEN then
    [Call.communication_fire_evt .fsm_evt_rx_abrt none]
  else
    []

/-- Source function `configuring_agent_config_sending_process_apdu` (configuring.c:146). -/
def configuring_agent_config_sending_process_apdu (env : Env) (ctx : Context) (apdu : APDU) :
    List Call :=
  configuring_agent_waiting_approval_process_apdu env ctx apdu

/-- Source function `configuring_checking_state_process_apdu` (configuring.c:284). -/
def configuring_checking_state_process_apdu (env : Env) (apdu : APDU) : List Call :=
  if apdu.choice = PRST_CHOSEN then
    let input_data_apdu := encode_get_data_apdu apdu.u.prst
    if input_data_apdu.message.choice = ROIV_CMIP_CONFIRMED_EVENT_REPORT_CHOSEN then
      let data : FSMEventData := { received_apdu := some apdu, choice := none, u := .unset }
      [Call.communication_fire_evt .fsm_evt_rx_roiv_confirmed_event_report (some data)]
    else if env.communication_is_roiv_type input_data_apdu then
      let data : FSMEventData :=
        { received_apdu := some apdu
          choice := some .FSM_EVT_DATA_ERROR_RESULT
          u := .error_result
            { error_value := NO_SUCH_ACTION, parameter := { length := 0, value := [] } } }
      [Call.communication_fire_evt .fsm_evt_rx_roiv_all_except_confirmed_event_report (some data)]
    else if env.communication_is_rors_type input_data_apdu then
      [Call.communication_fire_evt .fsm_evt_rx_rors none]
    else if env.communication_is_roer_type input_data_apdu then
      [Call.communication_fire_evt .fsm_evt_rx_roer none]
    else if env.communication_is_rorj_type input_data_apdu then
      [Call.communication_fire_evt .fsm_evt_rx_rorj none]
    else
      []
  else if apdu.choice = AARQ_CHOSEN then
    [Call.communication_fire_evt .fsm_evt_rx_aarq none]
  else if apdu.choice = AARE_CHOSEN then
    [Call.communication_fire_evt .fsm_evt_rx_aare none]
  else if apdu.choice = RLRQ_CHOSEN then
    let evt : FSMEventData :=
      { received_apdu := none
        choice := some .FSM_EVT_DATA_RELEASE_RESPONSE_REASON
        u := .release_response_reason RELEASE_RESPONSE_REASON_NORMAL }
    [Call.communication_fire_evt .fsm_evt_rx_rlrq (some evt)]
  else if apdu.choice = RLRE_CHOSEN then
    [Call.communication_fire_evt .fsm_evt_rx_rlre none]
  else if apdu.choice = ABRT_CHOSEN then
    [Call.communication_fire_evt .fsm_evt_rx_abrt none]
  else
    []

/-- Source function `configuring_evaluate_configuration_validity` (configuring.c:351). -/
def configuring_evaluate_configuration_validity (env : Env) (config_report : ConfigReport) : Nat :=
  let std_support := env.std_configurations_is_supported_standard config_report.config_report_id
  if std_support then
    ACCEPTED_CONFIG
  else if config_report.config_obj_list.count = 0 then
    STANDARD_CONFIG_UNKNOWN
  else
    ACCEPTED_CONFIG

/-- Source function `configuring_perform_configuration` (configuring.c:374).  `event_data` is a pointer
(`none` is NULL); the result is `none` when the function dereferences a NULL `event_data` or an
unassigned `received_apdu`. -/
def configuring_perform_configuration (env : Env) (ctx : Context) (_evt : fsm_events)
    (event_data : Option FSMEventData) : Option (List Call) :=
  match event_data with
  | none => none
  | some event_data =>
    match event_data.received_apdu with
    | none => none
    | some apdu =>
      let input_data_apdu := encode_get_data_apdu apdu.u.prst
      let args := input_data_apdu.message.u.roiv_cmipConfirmedEventReport
      let config_report := env.decode_configreport args.event_info
      let result := configuring_evaluate_configuration_validity env config_report
      let system_id := ctx.mds.map (fun mds => mds.system_id)
      let step : List Call × fsm_events :=
        if result = ACCEPTED_CONFIG then
          if env.std_configurations_is_supported_standard config_report.config_report_id then
            let object_list :=
              env.std_configurations_get_configuration_attributes config_report.config_report_id
            ([Call.mds_configure_operating object_list],
              fsm_events.fsm_evt_req_agent_supplied_known_configuration)
          else if env.ext_configurations_is_supported_standard system_id
              config_report.config_report_id then
            let object_list :=
              env.ext_configurations_get_configuration_attributes system_id
                config_report.config_report_id
            ([Call.mds_configure_operating object_list],
              fsm_events.fsm_evt_req_agent_supplied_known_configuration)
          else
            let object_list := config_report.config_obj_list
            ([Call.ext_configurations_register_conf system_id config_report.config_report_id
                object_list,
              Call.mds_configure_operating object_list],
              fsm_events.fsm_evt_req_agent_supplied_known_configuration)
        else if result = STANDARD_CONFIG_UNKNOWN then
          ([], fsm_events.fsm_evt_req_agent_supplied_unknown_configuration)
        else
          ([], fsm_events.fsm_evt_req_agent_supplied_unknown_configuration)
      let data : FSMEventData :=
        { received_apdu := some apdu
          choice := some .FSM_EVT_DATA_CONFIGURATION_RESULT
          u := .configuration_result result }
      some (step.1 ++ [Call.communication_fire_evt step.2 (some data)])

/-- Source function `configuring_new_measurements_response_tx` (configuring.c:454); `none` as for
`configuring_perform_configuration`. -/
def configuring_new_measurements_response_tx (evt : fsm_events)
    (event_data : Option FSMEventData) : Option (List Call) :=
  match event_data with
  | none => none
  | some ed =>
    match ed.received_apdu with
    | none => none
    | some apdu =>
      let input_data_apdu := encode_get_data_apdu apdu.u.prst
      let args := input_data_apdu.message.u.roiv_cmipConfirmedEventReport
      if args.event_type = MDC_NOTI_CONFIG then
        some [Call.communication_abort_undefined_reason_tx evt event_data]
      else
        let data : FSMEventData :=
          { received_apdu := some apdu
            choice := some .FSM_EVT_DATA_ERROR_RESULT
            u := .error_result
              { error_value := NO_SUCH_OBJECT_INSTANCE, parameter := { length := 0, value := [] } } }
        some [Call.communication_roer_tx evt (some data)]

/-- Source function `configuring_configuration_response_tx` (configuring.c:482).  The result is `none` when
the function dereferences a NULL `event_data` or an unassigned `received_apdu`, or reads
`u.configuration_result` from event data whose union holds something else.  The bytes of
`event_reply_info` are those `encode_configreportrsp` writes to the stream. -/
def configuring_configuration_response_tx (env : Env) (_evt : fsm_events)
    (event_data : Option FSMEventData) : Option (List Call) :=
  match event_data with
  | none => none
  | some event_data =>
    match event_data.received_apdu with
    | none => none
    | some apdu =>
      let input_data_apdu := encode_get_data_apdu apdu.u.prst
      let args := input_data_apdu.message.u.roiv_cmipConfirmedEventReport
      let config_report := env.decode_configreport args.event_info
      let config_report_id := config_report.config_report_id
      match event_data.u with
      | .configuration_result configuration_result =>
        let config_resp : ConfigReportRsp :=
          { config_report_id := config_report_id, config_result := configuration_result }
        -- step02: calculate the APDU size
        let event_reply_info_length := sizeof_ConfigReportRsp
        let message_length :=
          sizeof_HANDLE + sizeof_RelativeTime + sizeof_OID_Type + sizeof_intu16
            + event_reply_info_length
        let prst_length :=
          sizeof_InvokeIDType + sizeof_DATA_apdu_choice + sizeof_intu16 + message_length
        let apdu_length := prst_length + sizeof_intu16
        -- step03: encode APDU
        let confirmed_result : EventReportResultSimple :=
          { obj_handle := args.obj_handle
            currentTime := args.event_time
            event_type := args.event_type
            event_reply_info :=
              { length := event_reply_info_length
                value := env.encode_configreportrsp config_resp } }
        let data : DATA_apdu :=
          { invoke_id := input_data_apdu.invoke_id
            message :=
              { choice := RORS_CMIP_CONFIRMED_EVENT_REPORT_CHOSEN
                length := message_length
                u := { rors_cmipConfirmedEventReport := confirmed_result } } }
        let result_apdu : APDU :=
          { choice := PRST_CHOSEN
            length := apdu_length
            u := { prst := { length := prst_length, value := data } } }
        -- step04: send APDU
        some [Call.communication_send_apdu result_apdu]
      | _ => none

/-- Source function `configuring_association_release_request_tx` (configuring.c:562). -/
def configuring_association_release_request_tx (evt : fsm_events)
    (event_data : Option FSMEventData) : List Call :=
  [Call.communication_reset_timeout, Call.disassociating_release_request_tx evt event_data]

/-- Source function `configuring_transition_waiting_for_config` (configuring.c:577). -/
def configuring_transition_waiting_for_config (evt : fsm_events)
    (event_data : Option FSMEventData) : List Call :=
  [Call.association_accept_config_tx evt event_data,
   Call.communication_count_timeout .communication_timeout CONFIGURING_TO]

/-- Source function `configuring_send_config_tx` (configuring.c:592): the body is empty. -/
def configuring_send_config_tx (_evt : fsm_events) (_event_data : Option FSMEventData) :
    List Call :=
  []

/-! ## The MDS object functions (`src/dim/mds.c`) -/

/-- Modelled from the spec: class code `MDC_MOC_VMO_METRIC` of the absent `dim/nomenclature.h`;
value of IEEE 11073-20601. -/
def MDC_MOC_VMO_METRIC : Nat := 4
/-- Modelled from the spec: class code `MDC_MOC_VMO_METRIC_ENUM` (Enumeration) of the absent
`dim/nomenclature.h`; value of IEEE 11073-20601. -/
def MDC_MOC_VMO_METRIC_ENUM : Nat := 5
/-- Modelled from the spec: class code `MDC_MOC_VMO_METRIC_NU` (Numeric) of the absent
`dim/nomenclature.h`; value of IEEE 11073-20601. -/
def MDC_MOC_VMO_METRIC_NU : Nat := 6
/-- Modelled from the spec: class code `MDC_MOC_VMO_METRIC_SA_RT` (RTSA) of the absent
`dim/nomenclature.h`; value of IEEE 11073-20601. -/
def MDC_MOC_VMO_METRIC_SA_RT : Nat := 9
/-- Modelled from the spec: class code `MDC_MOC_SCAN` of the absent `dim/nomenclature.h`; value
of IEEE 11073-20601. -/
def MDC_MOC_SCAN : Nat := 16
/-- Modelled from the spec: class code `MDC_MOC_SCAN_CFG` of the absent `dim/nomenclature.h`;
value of IEEE 11073-20601. -/
def MDC_MOC_SCAN_CFG : Nat := 17
/-- Modelled from the spec: class code `MDC_MOC_SCAN_CFG_EPI` (EpiCfgScanner) of the absent
`dim/nomenclature.h`; value of IEEE 11073-20601. -/
def MDC_MOC_SCAN_CFG_EPI : Nat := 18
/-- Modelled from the spec: class code `MDC_MOC_SCAN_CFG_PERI` (PeriCfgScanner) of the absent
`dim/nomenclature.h`; value of IEEE 11073-20601. -/
def MDC_MOC_SCAN_CFG_PERI : Nat := 19
/-- Modelled from the spec: class code `MDC_MOC_VMO_PMSTORE` (PMStore) of the absent
`dim/nomenclature.h`; value of IEEE 11073-20601. -/
def MDC_MOC_VMO_PMSTORE : Nat := 61

/-- Modelled from the spec: attribute id `MDC_ATTR_ID_MODEL` of the absent
`dim/nomenclature.h`; value of IEEE 11073-20601. -/
def MDC_ATTR_ID_MODEL : Nat := 2344
/-- Modelled from the spec: attribute id `MDC_ATTR_ID_PROD_SPECN` of the absent
`dim/nomenclature.h`; value of IEEE 11073-20601. -/
def MDC_ATTR_ID_PROD_SPECN : Nat := 2349
/-- Modelled from the spec: attribute id `MDC_ATTR_SYS_ID` of the absent `dim/nomenclature.h`;
value of IEEE 11073-20601. -/
def MDC_ATTR_SYS_ID : Nat := 2436
/-- Modelled from the spec: attribute id `MDC_ATTR_SYS_TYPE` of the absent
`dim/nomenclature.h`; value of IEEE 11073-20601. -/
def MDC_ATTR_SYS_TYPE : Nat := 2438
/-- Modelled from the spec: attribute id `MDC_ATTR_DEV_CONFIG_ID` of the absent
`dim/nomenclature.h`; value of IEEE 11073-20601. -/
def MDC_ATTR_DEV_CONFIG_ID : Nat := 2628
/-- Modelled from the spec: attribute id `MDC_ATTR_SYS_TYPE_SPEC_LIST` of the absent
`dim/nomenclature.h`; value of IEEE 11073-20601. -/
def MDC_ATTR_SYS_TYPE_SPEC_LIST : Nat := 2650
/-- Modelled from the spec: action type `MDC_ACT_DATA_REQUEST` of the absent
`dim/nomenclature.h`; value of IEEE 11073-20601. -/
def MDC_ACT_DATA_REQUEST : Nat := 0x0C1B

/-- The functions of the other DIM translation units (`metric.c`, `numeric.c`, `dimutil.c`,
`pmstore.c`, the scanner files) that `mds_configure_operating` calls.  They are absent from
the sources at hand and are taken as parameters; a fill function maps the object, the
attribute id and the attribute bytes to the updated object (its `int` result is not used by
the caller). -/
structure DimEnv where
  /-- C function `metric_instance()` -/
  metric_instance : Metric
  /-- C function `numeric_instance(metric)` -/
  numeric_instance : Metric → Numeric
  /-- C function `enumeration_instance(metric)` -/
  enumeration_instance : Metric → Enumeration
  /-- C function `scanner_instance(handle, operational_state)` -/
  scanner_instance : Nat → Nat → Scanner
  /-- C function `cfg_scanner_instance(scanner, confirm_mode)` -/
  cfg_scanner_instance : Scanner → Nat → CfgScanner
  /-- C function `epi_cfg_scanner_instance(cfg_scanner)` -/
  epi_cfg_scanner_instance : CfgScanner → EpiCfgScanner
  /-- C function `peri_cfg_scanner_instance(cfg_scanner)` -/
  peri_cfg_scanner_instance : CfgScanner → PeriCfgScanner
  /-- C function `dimutil_fill_numeric_attr(numeric, attribute_id, stream, NULL)` -/
  dimutil_fill_numeric_attr : Numeric → Nat → Any → Numeric
  /-- C function `dimutil_fill_enumeration_attr(enumeration, attribute_id, stream, NULL)` -/
  dimutil_fill_enumeration_attr : Enumeration → Nat → Any → Enumeration
  /-- C function `pmstore_set_attribute(pmstore, attribute_id, stream)` -/
  pmstore_set_attribute : PMStore → Nat → Any → PMStore
  /-- C function `dimutil_fill_epi_scanner_attr(scanner, attribute_id, stream, NULL)` -/
  dimutil_fill_epi_scanner_attr : EpiCfgScanner → Nat → Any → EpiCfgScanner
  /-- C function `dimutil_fill_peri_scanner_attr(scanner, attribute_id, stream, NULL)` -/
  dimutil_fill_peri_scanner_attr : PeriCfgScanner → Nat → Any → PeriCfgScanner

/-- Modelled from the spec: the value of a data entry built by one of the `data_set_*`
functions of the absent `api/data_encoder.c` from a field of the MDS. -/
inductive DataValue where
  | type (v : TYPE)
  | system_model (v : SystemModel)
  | system_id (v : octet_string)
  | sys_type_spec_list (v : TypeVerList)
  | dev_config_id (v : Nat)
  | production_spec (v : ProductionSpec)
  deriving DecidableEq, Repr

/-- Modelled from the spec: a simple `DataEntry` of the absent `api/data_encoder.h`: the name
and value given to `data_set_*` and the attribute id given to `data_meta_set_attr_id`. -/
structure SimpleDataEntry where
  name : String
  value : DataValue
  attr_id : Nat
  deriving DecidableEq, Repr

/-- Modelled from the spec: `DataEntry` of the absent `api/data_encoder.h`: `zero` is the
entry as `data_list_new` allocates it, `compound` is a COMPOUND_DATA_ENTRY. -/
inductive DataEntry where
  | zero
  | compound (name : String) (entries : List SimpleDataEntry)
  deriving DecidableEq, Repr

/-- Modelled from the spec: `DataList` of the absent `api/data_encoder.h` (spec section 6:
the argument of the application callbacks), the entries `values[0 .. size-1]`. -/
structure DataList where
  values : List DataEntry
  deriving DecidableEq, Repr

/-- Modelled from the spec: `data_list_new(size)` of the absent `api/data_encoder.c`: `size`
zeroed entries. -/
def data_list_new (size : Nat) : DataList :=
  { values := List.replicate size DataEntry.zero }

/-- Modelled from the spec: `timeout_callback` of the absent `communication/service.h`: the
expiry handler (`none` is a NULL function pointer) and the timeout in seconds (spec section
4.4). -/
structure timeout_callback where
  func : Option timer_callback_function
  timeout : Nat
  deriving DecidableEq, Repr

/-- Modelled from the spec: `NO_TIMEOUT` of the absent `communication/service.h`: no handler
and no deadline (spec section 4.4: with NO_TIMEOUT the pending entry has no deadline). -/
def NO_TIMEOUT : timeout_callback :=
  { func := none, timeout := 0 }

/-- Modelled from the spec: `Request` of the absent `communication/service.h`, the pending
request, restricted to its key (spec section 3: keyed by `invoke_id`). -/
structure Request where
  invoke_id : Nat
  deriving DecidableEq, Repr

/-- Modelled from the spec: `ObservationScan` of the absent `asn1/phd_types.h`: one observation
of a variable-format scan report, the handle of the object and its attribute list. -/
structure ObservationScan where
  obj_handle : Nat
  attributes : AttributeList
  deriving DecidableEq, Repr

/-- Modelled from the spec: `ObservationScanList` of the absent `asn1/phd_types.h`. -/
structure ObservationScanList where
  count : Nat
  length : Nat
  value : List ObservationScan
  deriving DecidableEq, Repr

/-- Modelled from the spec: `ScanReportInfoVar` of the absent `asn1/phd_types.h` (spec section
4.5). -/
structure ScanReportInfoVar where
  data_req_id : Nat
  scan_report_no : Nat
  obs_scan_var : ObservationScanList
  deriving DecidableEq, Repr

/-- Modelled from the spec: `ObservationScanFixed` of the absent `asn1/phd_types.h`: one
observation of a fixed-format scan report, the handle of the object and the value bytes. -/
structure ObservationScanFixed where
  obj_handle : Nat
  obs_val_data : octet_string
  deriving DecidableEq, Repr

/-- Modelled from the spec: `ObservationScanFixedList` of the absent `asn1/phd_types.h`. -/
structure ObservationScanFixedList where
  count : Nat
  length : Nat
  value : List ObservationScanFixed
  deriving DecidableEq, Repr

/-- Modelled from the spec: `ScanReportInfoFixed` of the absent `asn1/phd_types.h` (spec
section 4.5). -/
structure ScanReportInfoFixed where
  data_req_id : Nat
  scan_report_no : Nat
  obs_scan_fixed : ObservationScanFixedList
  deriving DecidableEq, Repr

/-- Modelled from the spec: `ScanReportPerVar` of the absent `asn1/phd_types.h`: the
observations of one person. -/
structure ScanReportPerVar where
  person_id : Nat
  obs_scan_var : ObservationScanList
  deriving DecidableEq, Repr

/-- Modelled from the spec: `ScanReportPerVarList` of the absent `asn1/phd_types.h`. -/
structure ScanReportPerVarList where
  count : Nat
  length : Nat
  value : List ScanReportPerVar
  deriving DecidableEq, Repr

/-- Modelled from the spec: `ScanReportInfoMPVar` of the absent `asn1/phd_types.h`, the
multi-person variant of `ScanReportInfoVar`. -/
structure ScanReportInfoMPVar where
  data_req_id : Nat
  scan_report_no : Nat
  scan_per_var : ScanReportPerVarList
  deriving DecidableEq, Repr

/-- Modelled from the spec: `ScanReportPerFixed` of the absent `asn1/phd_types.h`: the
observations of one person. -/
structure ScanReportPerFixed where
  person_id : Nat
  obs_scan_fix : ObservationScanFixedList
  deriving DecidableEq, Repr

/-- Modelled from the spec: `ScanReportPerFixedList` of the absent `asn1/phd_types.h`. -/
structure ScanReportPerFixedList where
  count : Nat
  length : Nat
  value : List ScanReportPerFixed
  deriving DecidableEq, Repr

/-- Modelled from the spec: `ScanReportInfoMPFixed` of the absent `asn1/phd_types.h`, the
multi-person variant of `ScanReportInfoFixed`. -/
structure ScanReportInfoMPFixed where
  data_req_id : Nat
  scan_report_no : Nat
  scan_per_fixed : ScanReportPerFixedList
  deriving DecidableEq, Repr

/-- Modelled from the spec: `SetTimeInvoke` of the absent `asn1/phd_types.h`: the absolute
time to set and its accuracy. -/
structure SetTimeInvoke where
  date_time : AbsoluteTime
  accuracy : Nat
  deriving DecidableEq, Repr

/-- One call made by a function of `mds.c` to the service layer, to the operating module, to
the update helpers of `dimutil.c` or to the application, with its arguments (the context and
the MDS apart); `request_callback` is the address of the callback, `entry` the index of the
entry `&data_list->values[entry]` that is passed. -/
inductive MdsCall where
  | service_init
  | manager_notify_evt_device_available (list : DataList)
  | service_send_remote_operation_request (apdu : APDU) (timeout : timeout_callback)
      (request_callback : Nat)
  | operating_service_get (attributeids_list : Option (List Nat)) (attributeids_list_count : Nat)
      (timeout : Nat) (request_callback : Nat)
  | operating_action_set_time (time : SetTimeInvoke) (timeout : Nat) (request_callback : Nat)
  | dimutil_update_mds_from_obs_scan (obs : ObservationScan) (entry : Nat)
  | dimutil_update_mds_from_obs_scan_fixed (obs : ObservationScanFixed) (entry : Nat)
  | data_meta_set_personal_id (entry : Nat) (person_id : Nat)
  | manager_notify_evt_measurement_data_updated (list : DataList)
  deriving DecidableEq, Repr

/-- Source function `mds_populate_attributes` (mds.c:623) for a non-NULL `entry`: the six
entries are assigned from index 5 down to index 0; a NULL `mds` leaves the entry as it is. -/
def mds_populate_attributes (mds : Option MDS) (entry : DataEntry) : DataEntry :=
  match mds with
  | none => entry
  | some mds =>
    DataEntry.compound "MDS"
      [ { name := "System-Type", value := .type mds.system_type, attr_id := MDC_ATTR_SYS_TYPE },
        { name := "System-Model", value := .system_model mds.system_model,
          attr_id := MDC_ATTR_ID_MODEL },
        { name := "System-Id", value := .system_id mds.system_id, attr_id := MDC_ATTR_SYS_ID },
        { name := "System-Type-Spec-List",
          value := .sys_type_spec_list mds.system_type_spec_list,
          attr_id := MDC_ATTR_SYS_TYPE_SPEC_LIST },
        { name := "Dev-Configuration-Id", value := .dev_config_id mds.dev_configuration_id,
          attr_id := MDC_ATTR_DEV_CONFIG_ID },
        { name := "Production-Specification",
          value := .production_spec mds.production_specification,
          attr_id := MDC_ATTR_ID_PROD_SPECN } ]

/-- Source function `mds_add_object` (mds.c:668) on a non-NULL `mds`.  With a count of 0 a
fresh one-element array is allocated; otherwise the array is reallocated to `count + 1`
elements, which keeps its first `count` elements.  The object is stored at index `count` and
the count is incremented.  Allocation failure is not modelled. -/
def mds_add_object (mds : MDS) (object : MDS_object) : MDS :=
  let objects_list : List MDS_object :=
    if mds.objects_list_count = 0 then []
    else mds.objects_list.take mds.objects_list_count
  { mds with
    objects_list := objects_list ++ [object]
    objects_list_count := mds.objects_list_count + 1 }

/-- The scan of `mds_get_object_by_handle` (mds.c:713) over the objects from index `i` on. -/
def mds_get_object_by_handle_scan (obj_handle : Nat) : List MDS_object → Option MDS_object
  | [] => none
  | object :: rest =>
    if object.obj_handle = obj_handle then some object
    else mds_get_object_by_handle_scan obj_handle rest

/-- Source function `mds_get_object_by_handle` (mds.c:704): `none` is the NULL pointer, for
the argument `mds` and for the result; the loop visits `objects_list[0 .. count-1]`. -/
def mds_get_object_by_handle (mds : Option MDS) (obj_handle : Nat) : Option MDS_object :=
  let objects : List MDS_object :=
    match mds with
    | none => []
    | some mds => mds.objects_list.take mds.objects_list_count
  mds_get_object_by_handle_scan obj_handle objects

/-- The attribute loops of `mds_configure_operating` (mds.c:444, 474, 525, 560, 588): the
fill function is applied to `attributes.value[0 .. count-1]` in order. -/
def fill_attributes {α : Type} (fill : α → Nat → Any → α) (init : α)
    (attributes : AttributeList) : α :=
  (attributes.value.take attributes.count).foldl
    (fun object ava => fill object ava.attribute_id ava.attribute_value) init

/-- The `switch` of `mds_configure_operating` (mds.c:423-603): the object that the case of
`cfgObj->obj_class` passes to `mds_add_object`, `none` for the cases that only `break`
(MDC_MOC_VMO_METRIC, MDC_MOC_VMO_METRIC_SA_RT, MDC_MOC_SCAN, MDC_MOC_SCAN_CFG, default). -/
def mds_configure_operating_object (env : DimEnv) (cfgObj : ConfigObject) : Option MDS_object :=
  if cfgObj.obj_class = MDC_MOC_VMO_METRIC then
    none
  else if cfgObj.obj_class = MDC_MOC_VMO_METRIC_NU then
    let metric := env.metric_instance
    let numeric := env.numeric_instance metric
    let numeric := fill_attributes env.dimutil_fill_numeric_attr numeric cfgObj.attributes
    let numeric : Numeric := { numeric with metric := { numeric.metric with handle := cfgObj.obj_handle } }
    some { choice := .MDS_OBJ_METRIC
           obj_handle := cfgObj.obj_handle
           u := .metric { choice := .METRIC_NUMERIC, u := .numeric numeric } }
  else if cfgObj.obj_class = MDC_MOC_VMO_METRIC_ENUM then
    let metric := env.metric_instance
    let enumeration := env.enumeration_instance metric
    let enumeration :=
      fill_attributes env.dimutil_fill_enumeration_attr enumeration cfgObj.attributes
    let enumeration : Enumeration :=
      { enumeration with metric := { enumeration.metric with handle := cfgObj.obj_handle } }
    some { choice := .MDS_OBJ_METRIC
           obj_handle := cfgObj.obj_handle
           u := .metric { choice := .METRIC_ENUM, u := .enumeration enumeration } }
  else if cfgObj.obj_class = MDC_MOC_VMO_METRIC_SA_RT then
    none
  else if cfgObj.obj_class = MDC_MOC_VMO_PMSTORE then
    let pmstore : PMStore := { handle := cfgObj.obj_handle }
    let pmstore := fill_attributes env.pmstore_set_attribute pmstore cfgObj.attributes
    some { choice := .MDS_OBJ_PMSTORE, obj_handle := cfgObj.obj_handle, u := .pmstore pmstore }
  else if cfgObj.obj_class = MDC_MOC_SCAN then
    none
  else if cfgObj.obj_class = MDC_MOC_SCAN_CFG then
    none
  else if cfgObj.obj_class = MDC_MOC_SCAN_CFG_EPI then
    let scanner := env.scanner_instance cfgObj.obj_handle os_disabled
    let cfg_scanner := env.cfg_scanner_instance scanner unconfirmed
    let epi_cfg_scanner := env.epi_cfg_scanner_instance cfg_scanner
    let epi_cfg_scanner :=
      fill_attributes env.dimutil_fill_epi_scanner_attr epi_cfg_scanner cfgObj.attributes
    some { choice := .MDS_OBJ_SCANNER
           obj_handle := cfgObj.obj_handle
           u := .scanner { choice := .EPI_CFG_SCANNER, u := .epi_cfg_scanner epi_cfg_scanner } }
  else if cfgObj.obj_class = MDC_MOC_SCAN_CFG_PERI then
    let scanner := env.scanner_instance cfgObj.obj_handle os_disabled
    let cfg_scanner := env.cfg_scanner_instance scanner unconfirmed
    let peri_cfg_scanner := env.peri_cfg_scanner_instance cfg_scanner
    let peri_cfg_scanner :=
      fill_attributes env.dimutil_fill_peri_scanner_attr peri_cfg_scanner cfgObj.attributes
    some { choice := .MDS_OBJ_SCANNER
           obj_handle := cfgObj.obj_handle
           u := .scanner { choice := .PERI_CFG_SCANNER, u := .peri_cfg_scanner peri_cfg_scanner } }
  else
    none

/-- The object loop of `mds_configure_operating` (mds.c:417-604) over the remaining
ConfigObjects, on the pointer `mds` (`none` is NULL).  The result is `none` when
`mds_add_object` is reached with a NULL `mds`, which the C function dereferences. -/
def mds_configure_operating_loop (env : DimEnv) : Option MDS → List ConfigObject → Option (Option MDS)
  | mds, [] => some mds
  | mds, cfgObj :: rest =>
    match mds_configure_operating_object env cfgObj with
    | none => mds_configure_operating_loop env mds rest
    | some object =>
      match mds with
      | none => none
      | some m => mds_configure_operating_loop env (some (mds_add_object m object)) rest

/-- Source function `mds_configure_operating` (mds.c:407): the loop visits
`config_obj_list->value[0 .. count-1]`, then the service layer is initialised and the
application is notified with a one-entry list populated from the MDS.  The result is the
context with the updated MDS and the calls made, `none` when a NULL `ctx->mds` is
dereferenced. -/
def mds_configure_operating (env : DimEnv) (ctx : Context) (config_obj_list : ConfigObjectList) :
    Option (Context × List MdsCall) :=
  let obj_list_size := config_obj_list.count
  match mds_configure_operating_loop env ctx.mds (config_obj_list.value.take obj_list_size) with
  | none => none
  | some mds =>
    let list := data_list_new 1
    let list : DataList :=
      { values := list.values.modifyHead (fun entry => mds_populate_attributes mds entry) }
    some ({ ctx with mds := mds },
      [MdsCall.service_init, MdsCall.manager_notify_evt_device_available list])

/-! ## The MDS service functions (`src/dim/mds.c`) -/

/-- Source constant `MDS_TO_CONFIRM_ACTION` (mds.c:67), seconds. -/
def MDS_TO_CONFIRM_ACTION : Nat := 3
/-- Source constant `MDS_TO_GET` (mds.c:72), seconds. -/
def MDS_TO_GET : Nat := 3
/-- Source constant `MDS_TO_CONFIRM_SET` (mds.c:77), seconds. -/
def MDS_TO_CONFIRM_SET : Nat := 3
/-- Source constant `MDS_TO_INTER_SERVICE` (mds.c:82), seconds. -/
def MDS_TO_INTER_SERVICE : Nat := 3

/-- Modelled from the spec: `sizeof(DataReqId)`, a 16-bit identifier. -/
def sizeof_DataReqId : Nat := 2
/-- Modelled from the spec: `sizeof(DataReqMode)`, a 16-bit bitmask (spec section 4.3). -/
def sizeof_DataReqMode : Nat := 2

/-- Modelled from the spec: `HANDLEList` of the absent `asn1/phd_types.h`: count, byte length
and the handles. -/
structure HANDLEList where
  count : Nat
  length : Nat
  value : List Nat
  deriving DecidableEq, Repr

/-- Modelled from the spec: `DataRequest` of the absent `asn1/phd_types.h`, the argument of the
MDS-Data-Request action. -/
structure DataRequest where
  data_req_id : Nat
  data_req_mode : Nat
  data_req_time : Nat
  data_req_person_id : Nat
  data_req_class : Nat
  data_req_obj_handle_list : HANDLEList
  deriving DecidableEq, Repr

/-- Modelled from the spec: `ByteStreamWriter` of the absent `util/bytelib.h`: the buffer and
the field `size` (spec section 4.1). -/
structure ByteStreamWriter where
  buffer : List Nat
  size : Nat
  deriving DecidableEq, Repr

/-- Modelled from the spec: `byte_stream_writer_instance(size)` of the absent `util/bytelib.c`:
a writer that allocates exactly the length requested at construction (spec section 4.1). -/
def byte_stream_writer_instance (size : Nat) : ByteStreamWriter :=
  { buffer := List.replicate size 0, size := size }

/-- The functions of other translation units that `mds_service_action_data_request` calls.
They are absent from the sources at hand and are taken as parameters. -/
structure ServiceEnv where
  /-- C function `encode_datarequest(writer, request)`: the writer after the encoding -/
  encode_datarequest : ByteStreamWriter → DataRequest → ByteStreamWriter
  /-- C function `service_send_remote_operation_request(ctx, apdu, timeout, callback)`: the
  request it returns (`none` is NULL) -/
  service_send_remote_operation_request : Context → APDU → timeout_callback → Nat → Option Request

/-- Source function `mds_service_action_data_request` (mds.c:269): the request returned
(`none` is NULL) and the calls made.  `class_id` and `handle_list` are pointers (`none` is
NULL); `allocated` tells whether the two `calloc` calls for the APDU succeed.  The local
`length` is an `int`; the length fields of the APDU are `intu16`, so each assignment to one
of them keeps the value modulo 2^16. -/
def mds_service_action_data_request (env : ServiceEnv) (ctx : Context) (data_req_mode : Nat)
    (class_id : Option Nat) (handle_list : Option HANDLEList) (request_callback : Nat)
    (allocated : Bool) : Option Request × List MdsCall :=
  match ctx.mds with
  | none => (none, [])
  | some mds =>
    if mds_is_supported_data_request mds data_req_mode ≠ 0 then
      if allocated then
        let request : DataRequest :=
          { data_req_id := 0x0100
            data_req_mode := data_req_mode
            data_req_time := 0
            data_req_person_id := 0
            data_req_class := match class_id with
              | some c => c
              | none => 0
            data_req_obj_handle_list := match handle_list with
              | some l => l
              | none => { count := 0, length := 0, value := [] } }
        let length :=
          sizeof_DataReqId + sizeof_DataReqMode + sizeof_RelativeTime + sizeof_intu16
            + sizeof_OID_Type + 2 * sizeof_intu16 + request.data_req_obj_handle_list.length
        let writer1 := byte_stream_writer_instance length
        let writer1 := env.encode_datarequest writer1 request
        let action_info_args : Any :=
          { value := writer1.buffer, length := writer1.size % 2 ^ 16 }
        let message_length :=
          (action_info_args.length + sizeof_intu16 + sizeof_OID_Type + sizeof_HANDLE) % 2 ^ 16
        let prst_length :=
          (message_length + sizeof_intu16 + sizeof_DATA_apdu_choice + sizeof_InvokeIDType)
            % 2 ^ 16
        let data_apdu : DATA_apdu :=
          { invoke_id := 0
            message :=
              { choice := ROIV_CMIP_CONFIRMED_ACTION_CHOSEN
                length := message_length
                u := { roiv_cmipConfirmedAction :=
                  { obj_handle := 0
                    action_type := MDC_ACT_DATA_REQUEST
                    action_info_args := action_info_args } } } }
        let apdu : APDU :=
          { choice := PRST_CHOSEN
            length := (prst_length + sizeof_intu16) % 2 ^ 16
            u := { prst := { length := prst_length, value := data_apdu } } }
        -- Send APDU
        let no_timeout := NO_TIMEOUT
        let req := env.service_send_remote_operation_request ctx apdu no_timeout request_callback
        (req, [MdsCall.service_send_remote_operation_request apdu no_timeout request_callback])
      else
        (none, [])
    else
      (none, [])

/-- The functions of the operating module that `mds_service_get` and
`mds_service_action_set_time` call; each returns the request it created (`none` is NULL).
They are absent from the sources at hand and are taken as parameters. -/
structure OperatingEnv where
  /-- C function `operating_service_get(ctx, list, count, timeout, callback)` -/
  operating_service_get : Context → Option (List Nat) → Nat → Nat → Nat → Option Request
  /-- C function `operating_action_set_time(ctx, time, timeout, callback)` -/
  operating_action_set_time : Context → SetTimeInvoke → Nat → Nat → Option Request

/-- Source function `mds_service_action_set_time` (mds.c:371): the request returned and the
call made. -/
def mds_service_action_set_time (env : OperatingEnv) (ctx : Context) (time : SetTimeInvoke)
    (request_callback : Nat) : Option Request × List MdsCall :=
  (env.operating_action_set_time ctx time MDS_TO_CONFIRM_ACTION request_callback,
    [MdsCall.operating_action_set_time time MDS_TO_CONFIRM_ACTION request_callback])

/-- Source function `mds_service_get` (mds.c:391): the request returned and the call made;
`attributeids_list` is a pointer (`none` is NULL). -/
def mds_service_get (env : OperatingEnv) (ctx : Context) (attributeids_list : Option (List Nat))
    (attributeids_list_count : Nat) (request_callback : Nat) : Option Request × List MdsCall :=
  (env.operating_service_get ctx attributeids_list attributeids_list_count MDS_TO_GET
      request_callback,
    [MdsCall.operating_service_get attributeids_list attributeids_list_count MDS_TO_GET
      request_callback])

/-! ## The measurement event reports (`src/dim/mds.c`) -/

/-- The update helpers of `dimutil.c` and `api/data_encoder.c` that the event report functions
call.  They are absent from the sources at hand and are taken as parameters: an update helper
maps the MDS pointer, the observation and the output entry to the updated MDS and entry. -/
structure UpdateEnv where
  /-- C function `dimutil_update_mds_from_obs_scan(mds, obs, entry)` -/
  dimutil_update_mds_from_obs_scan :
    Option MDS → ObservationScan → DataEntry → Option MDS × DataEntry
  /-- C function `dimutil_update_mds_from_obs_scan_fixed(mds, obs, entry)` -/
  dimutil_update_mds_from_obs_scan_fixed :
    Option MDS → ObservationScanFixed → DataEntry → Option MDS × DataEntry
  /-- C function `data_meta_set_personal_id(entry, person_id)` -/
  data_meta_set_personal_id : DataEntry → Nat → DataEntry

/-- The observation loops of the event report functions (mds.c:743, 778, 808, 843): iteration
`i` runs the loop body on `&data_list->values[i]` for the next observation; `body` is the
effect of the body on the MDS and on the entry, `calls` the calls the body makes. -/
def observation_loop {α : Type} (body : Option MDS → α → DataEntry → Option MDS × DataEntry)
    (calls : α → Nat → List MdsCall) :
    List α → Nat → Option MDS → List DataEntry → Option MDS × List DataEntry × List MdsCall
  | [], _, mds, values => (mds, values, [])
  | obs :: rest, i, mds, values =>
    let r := body mds obs (values.getD i DataEntry.zero)
    let next := observation_loop body calls rest (i + 1) r.1 (values.set i r.2)
    (next.1, next.2.1, calls obs i ++ next.2.2)

/-- Source function `mds_event_report_dynamic_data_update_var` (mds.c:734): the context with
the updated MDS and the calls made; the loop visits `obs_scan_var.value[0 .. count-1]`.
`allocated` tells whether `data_list_new` returns a list; it returns NULL (`none`) when the
allocation fails. -/
def mds_event_report_dynamic_data_update_var (env : UpdateEnv) (ctx : Context)
    (allocated : Bool) (info_var : ScanReportInfoVar) : Context × List MdsCall :=
  let info_size := info_var.obs_scan_var.count
  let data_list : Option DataList :=
    if allocated then some (data_list_new info_size) else none
  match data_list with
  | some data_list =>
    if info_size > 0 then
      let r := observation_loop env.dimutil_update_mds_from_obs_scan
        (fun obs i => [MdsCall.dimutil_update_mds_from_obs_scan obs i])
        (info_var.obs_scan_var.value.take info_size) 0 ctx.mds data_list.values
      ({ ctx with mds := r.1 },
        r.2.2 ++ [MdsCall.manager_notify_evt_measurement_data_updated { values := r.2.1 }])
    else
      (ctx, [])
  | none => (ctx, [])

/-- Source function `mds_event_report_dynamic_data_update_fixed` (mds.c:769): the context with
the updated MDS and the calls made; the loop visits `obs_scan_fixed.value[0 .. count-1]`.
`allocated` tells whether `data_list_new` returns a list; it returns NULL (`none`) when the
allocation fails. -/
def mds_event_report_dynamic_data_update_fixed (env : UpdateEnv) (ctx : Context)
    (allocated : Bool) (info_fixed : ScanReportInfoFixed) : Context × List MdsCall :=
  let info_size := info_fixed.obs_scan_fixed.count
  let data_list : Option DataList :=
    if allocated then some (data_list_new info_size) else none
  match data_list with
  | some data_list =>
    if info_size > 0 then
      let r := observation_loop env.dimutil_update_mds_from_obs_scan_fixed
        (fun obs i => [MdsCall.dimutil_update_mds_from_obs_scan_fixed obs i])
        (info_fixed.obs_scan_fixed.value.take info_size) 0 ctx.mds data_list.values
      ({ ctx with mds := r.1 },
        r.2.2 ++ [MdsCall.manager_notify_evt_measurement_data_updated { values := r.2.1 }])
    else
      (ctx, [])
  | none => (ctx, [])

/-- The body of the person loop of `mds_event_report_dynamic_data_update_mp_var`
(mds.c:802-819) for one person entry; `allocated` tells whether the `data_list_new` of this
iteration returns a list (`none` is NULL). -/
def mds_event_report_dynamic_data_update_mp_var_person (env : UpdateEnv) (ctx : Context)
    (allocated : Bool) (person : ScanReportPerVar) : Context × List MdsCall :=
  let info_size := person.obs_scan_var.count
  let data_list : Option DataList :=
    if allocated then some (data_list_new info_size) else none
  match data_list with
  | some data_list =>
    if info_size > 0 then
      let r := observation_loop
        (fun mds obs entry =>
          env.dimutil_update_mds_from_obs_scan mds obs
            (env.data_meta_set_personal_id entry person.person_id))
        (fun obs j =>
          [MdsCall.data_meta_set_personal_id j person.person_id,
           MdsCall.dimutil_update_mds_from_obs_scan obs j])
        (person.obs_scan_var.value.take info_size) 0 ctx.mds data_list.values
      ({ ctx with mds := r.1 },
        r.2.2 ++ [MdsCall.manager_notify_evt_measurement_data_updated { values := r.2.1 }])
    else
      (ctx, [])
  | none => (ctx, [])

/-- The body of the person loop of `mds_event_report_dynamic_data_update_mp_fixed`
(mds.c:837-856) for one person entry; `allocated` tells whether the `data_list_new` of this
iteration returns a list (`none` is NULL). -/
def mds_event_report_dynamic_data_update_mp_fixed_person (env : UpdateEnv) (ctx : Context)
    (allocated : Bool) (person : ScanReportPerFixed) : Context × List MdsCall :=
  let info_size := person.obs_scan_fix.count
  let data_list : Option DataList :=
    if allocated then some (data_list_new info_size) else none
  match data_list with
  | some data_list =>
    if info_size > 0 then
      let r := observation_loop
        (fun mds obs entry =>
          env.dimutil_update_mds_from_obs_scan_fixed mds obs
            (env.data_meta_set_personal_id entry person.person_id))
        (fun obs j =>
          [MdsCall.data_meta_set_personal_id j person.person_id,
           MdsCall.dimutil_update_mds_from_obs_scan_fixed obs j])
        (person.obs_scan_fix.value.take info_size) 0 ctx.mds data_list.values
      ({ ctx with mds := r.1 },
        r.2.2 ++ [MdsCall.manager_notify_evt_measurement_data_updated { values := r.2.1 }])
    else
      (ctx, [])
  | none => (ctx, [])

/-- The person loops of the multi-person event report functions (mds.c:801, 836): iteration
`i` runs the body for the next person entry, on the context the previous iteration left. -/
def person_loop {β : Type} (body : Nat → Context → β → Context × List MdsCall) :
    List β → Nat → Context → Context × List MdsCall
  | [], _, ctx => (ctx, [])
  | person :: rest, i, ctx =>
    let r := body i ctx person
    let next := person_loop body rest (i + 1) r.1
    (next.1, r.2 ++ next.2)

/-- Source function `mds_event_report_dynamic_data_update_mp_var` (mds.c:795); the loop visits
`scan_per_var.value[0 .. count-1]`; `allocated i` tells whether the `data_list_new` of
iteration `i` returns a list. -/
def mds_event_report_dynamic_data_update_mp_var (env : UpdateEnv) (ctx : Context)
    (allocated : Nat → Bool) (info_mp_var : ScanReportInfoMPVar) : Context × List MdsCall :=
  let info_mp_list_size := info_mp_var.scan_per_var.count
  person_loop
    (fun i c person => mds_event_report_dynamic_data_update_mp_var_person env c (allocated i) person)
    (info_mp_var.scan_per_var.value.take info_mp_list_size) 0 ctx

/-- Source function `mds_event_report_dynamic_data_update_mp_fixed` (mds.c:830); the loop
visits `scan_per_fixed.value[0 .. count-1]`; `allocated i` tells whether the `data_list_new`
of iteration `i` returns a list. -/
def mds_event_report_dynamic_data_update_mp_fixed (env : UpdateEnv) (ctx : Context)
    (allocated : Nat → Bool) (info_mp_fixed : ScanReportInfoMPFixed) :
    Context × List MdsCall :=
  let info_fixed_list_size := info_mp_fixed.scan_per_fixed.count
  person_loop
    (fun i c person =>
      mds_event_report_dynamic_data_update_mp_fixed_person env c (allocated i) person)
    (info_mp_fixed.scan_per_fixed.value.take info_fixed_list_size) 0 ctx

/-! ## The MDS attributes (`src/dim/mds.c`) -/

/-- Modelled from the spec: attribute id `MDC_ATTR_CONFIRM_TIMEOUT` of the absent `dim/nomenclature.h`
(spec section 4.3: a recognised MDS attribute); value of IEEE 11073-20601. -/
def MDC_ATTR_CONFIRM_TIMEOUT : Nat := 2324
/-- Modelled from the spec: attribute id `MDC_ATTR_ID_HANDLE` of the absent `dim/nomenclature.h`
(spec section 4.3: a recognised MDS attribute); value of IEEE 11073-20601. -/
def MDC_ATTR_ID_HANDLE : Nat := 2337
/-- Modelled from the spec: attribute id `MDC_ATTR_POWER_STAT` of the absent `dim/nomenclature.h`
(spec section 4.3: a recognised MDS attribute); value of IEEE 11073-20601. -/
def MDC_ATTR_POWER_STAT : Nat := 2389
/-- Modelled from the spec: attribute id `MDC_ATTR_TIME_ABS` of the absent `dim/nomenclature.h`
(spec section 4.3: a recognised MDS attribute); value of IEEE 11073-20601. -/
def MDC_ATTR_TIME_ABS : Nat := 2439
/-- Modelled from the spec: attribute id `MDC_ATTR_TIME_BATT_REMAIN` of the absent `dim/nomenclature.h`
(spec section 4.3: a recognised MDS attribute); value of IEEE 11073-20601. -/
def MDC_ATTR_TIME_BATT_REMAIN : Nat := 2440
/-- Modelled from the spec: attribute id `MDC_ATTR_TIME_REL` of the absent `dim/nomenclature.h`
(spec section 4.3: a recognised MDS attribute); value of IEEE 11073-20601. -/
def MDC_ATTR_TIME_REL : Nat := 2447
/-- Modelled from the spec: attribute id `MDC_ATTR_VAL_BATT_CHARGE` of the absent `dim/nomenclature.h`
(spec section 4.3: a recognised MDS attribute); value of IEEE 11073-20601. -/
def MDC_ATTR_VAL_BATT_CHARGE : Nat := 2460
/-- Modelled from the spec: attribute id `MDC_ATTR_TIME_REL_HI_RES` of the absent `dim/nomenclature.h`
(spec section 4.3: a recognised MDS attribute); value of IEEE 11073-20601. -/
def MDC_ATTR_TIME_REL_HI_RES : Nat := 2536
/-- Modelled from the spec: attribute id `MDC_ATTR_MDS_TIME_INFO` of the absent `dim/nomenclature.h`
(spec section 4.3: a recognised MDS attribute); value of IEEE 11073-20601. -/
def MDC_ATTR_MDS_TIME_INFO : Nat := 2629
/-- Modelled from the spec: attribute id `MDC_ATTR_REG_CERT_DATA_LIST` of the absent `dim/nomenclature.h`
(spec section 4.3: a recognised MDS attribute); value of IEEE 11073-20601. -/
def MDC_ATTR_REG_CERT_DATA_LIST : Nat := 2635
/-- Modelled from the spec: attribute id `MDC_ATTR_ATTRIBUTE_VAL_MAP` of the absent `dim/nomenclature.h`
(spec section 4.3: a recognised MDS attribute); value of IEEE 11073-20601. -/
def MDC_ATTR_ATTRIBUTE_VAL_MAP : Nat := 2645
/-- Modelled from the spec: attribute id `MDC_ATTR_TIME_ABS_ADJUST` of the absent `dim/nomenclature.h`
(spec section 4.3: a recognised MDS attribute); value of IEEE 11073-20601. -/
def MDC_ATTR_TIME_ABS_ADJUST : Nat := 2658

/-- The decoders (`decoder_ASN1.c`), disposers (`struct_cleaner.c`) and readers (`bytelib.c`)
that `mds_set_attribute` calls.  They are absent from the sources at hand and are taken as
parameters: a disposer maps the field to the field it leaves, a decoder maps the attribute
bytes and the field to the decoded field, a reader maps the attribute bytes to the value. -/
structure DecodeEnv where
  /-- C function `del_type(type)` -/
  del_type : TYPE → TYPE
  /-- C function `decode_type(stream, type)` -/
  decode_type : Any → TYPE → TYPE
  /-- C function `del_systemmodel(model)` -/
  del_systemmodel : SystemModel → SystemModel
  /-- C function `decode_systemmodel(stream, model)` -/
  decode_systemmodel : Any → SystemModel → SystemModel
  /-- C function `del_octet_string(string)` -/
  del_octet_string : octet_string → octet_string
  /-- C function `decode_octet_string(stream, string)` -/
  decode_octet_string : Any → octet_string → octet_string
  /-- C function `del_configid(id)` -/
  del_configid : Nat → Nat
  /-- C function `decode_configid(stream, id)` -/
  decode_configid : Any → Nat → Nat
  /-- C function `del_attrvalmap(map)` -/
  del_attrvalmap : AttrValMap → AttrValMap
  /-- C function `decode_attrvalmap(stream, map)` -/
  decode_attrvalmap : Any → AttrValMap → AttrValMap
  /-- C function `del_productionspec(spec)` -/
  del_productionspec : ProductionSpec → ProductionSpec
  /-- C function `decode_productionspec(stream, spec)` -/
  decode_productionspec : Any → ProductionSpec → ProductionSpec
  /-- C function `del_mdstimeinfo(info)` -/
  del_mdstimeinfo : MdsTimeInfo → MdsTimeInfo
  /-- C function `decode_mdstimeinfo(stream, info)` -/
  decode_mdstimeinfo : Any → MdsTimeInfo → MdsTimeInfo
  /-- C function `del_absolutetime(time)` -/
  del_absolutetime : AbsoluteTime → AbsoluteTime
  /-- C function `decode_absolutetime(stream, time)` -/
  decode_absolutetime : Any → AbsoluteTime → AbsoluteTime
  /-- C function `del_highresrelativetime(time)` -/
  del_highresrelativetime : HighResRelativeTime → HighResRelativeTime
  /-- C function `decode_highresrelativetime(stream, time)` -/
  decode_highresrelativetime : Any → HighResRelativeTime → HighResRelativeTime
  /-- C function `del_absolutetimeadjust(adjust)` -/
  del_absolutetimeadjust : AbsoluteTimeAdjust → AbsoluteTimeAdjust
  /-- C function `decode_absolutetimeadjust(stream, adjust)` -/
  decode_absolutetimeadjust : Any → AbsoluteTimeAdjust → AbsoluteTimeAdjust
  /-- C function `del_batmeasure(measure)` -/
  del_batmeasure : BatMeasure → BatMeasure
  /-- C function `decode_batmeasure(stream, measure)` -/
  decode_batmeasure : Any → BatMeasure → BatMeasure
  /-- C function `del_regcertdatalist(list)` -/
  del_regcertdatalist : RegCertDataList → RegCertDataList
  /-- C function `decode_regcertdatalist(stream, list)` -/
  decode_regcertdatalist : Any → RegCertDataList → RegCertDataList
  /-- C function `del_typeverlist(list)` -/
  del_typeverlist : TypeVerList → TypeVerList
  /-- C function `decode_typeverlist(stream, list)` -/
  decode_typeverlist : Any → TypeVerList → TypeVerList
  /-- C function `read_intu32(stream, NULL)` -/
  read_intu32 : Any → Nat
  /-- C function `read_intu16(stream, NULL)` -/
  read_intu16 : Any → Nat

/-- Source function `mds_set_attribute` (mds.c:866) on a non-NULL `mds`; every case reads
from a stream over the bytes `attribute->attribute_value`; `ava` is the parameter
`attribute`. -/
def mds_set_attribute (env : DecodeEnv) (mds : MDS) (ava : AVA_Type) : MDS :=
  let stream := ava.attribute_value
  if ava.attribute_id = MDC_ATTR_ID_HANDLE then
    mds
  else if ava.attribute_id = MDC_ATTR_SYS_TYPE then
    { mds with system_type := env.decode_type stream (env.del_type mds.system_type) }
  else if ava.attribute_id = MDC_ATTR_ID_MODEL then
    { mds with
      system_model := env.decode_systemmodel stream (env.del_systemmodel mds.system_model) }
  else if ava.attribute_id = MDC_ATTR_SYS_ID then
    { mds with system_id := env.decode_octet_string stream (env.del_octet_string mds.system_id) }
  else if ava.attribute_id = MDC_ATTR_DEV_CONFIG_ID then
    { mds with
      dev_configuration_id :=
        env.decode_configid stream (env.del_configid mds.dev_configuration_id) }
  else if ava.attribute_id = MDC_ATTR_ATTRIBUTE_VAL_MAP then
    { mds with
      attribute_value_map :=
        env.decode_attrvalmap stream (env.del_attrvalmap mds.attribute_value_map) }
  else if ava.attribute_id = MDC_ATTR_ID_PROD_SPECN then
    { mds with
      production_specification :=
        env.decode_productionspec stream (env.del_productionspec mds.production_specification) }
  else if ava.attribute_id = MDC_ATTR_MDS_TIME_INFO then
    { mds with
      mds_time_info := env.decode_mdstimeinfo stream (env.del_mdstimeinfo mds.mds_time_info) }
  else if ava.attribute_id = MDC_ATTR_TIME_ABS then
    { mds with
      date_and_time := env.decode_absolutetime stream (env.del_absolutetime mds.date_and_time) }
  else if ava.attribute_id = MDC_ATTR_TIME_REL then
    { mds with relative_time := env.read_intu32 stream }
  else if ava.attribute_id = MDC_ATTR_TIME_REL_HI_RES then
    { mds with
      hires_relative_time :=
        env.decode_highresrelativetime stream
          (env.del_highresrelativetime mds.hires_relative_time) }
  else if ava.attribute_id = MDC_ATTR_TIME_ABS_ADJUST then
    { mds with
      date_and_time_adjustment :=
        env.decode_absolutetimeadjust stream
          (env.del_absolutetimeadjust mds.date_and_time_adjustment) }
  else if ava.attribute_id = MDC_ATTR_POWER_STAT then
    { mds with power_status := env.read_intu16 stream }
  else if ava.attribute_id = MDC_ATTR_VAL_BATT_CHARGE then
    { mds with battery_level := env.read_intu16 stream }
  else if ava.attribute_id = MDC_ATTR_TIME_BATT_REMAIN then
    { mds with
      remaining_battery_time :=
        env.decode_batmeasure stream (env.del_batmeasure mds.remaining_battery_time) }
  else if ava.attribute_id = MDC_ATTR_REG_CERT_DATA_LIST then
    { mds with
      reg_cert_data_list :=
        env.decode_regcertdatalist stream (env.del_regcertdatalist mds.reg_cert_data_list) }
  else if ava.attribute_id = MDC_ATTR_SYS_TYPE_SPEC_LIST then
    { mds with
      system_type_spec_list :=
        env.decode_typeverlist stream (env.del_typeverlist mds.system_type_spec_list) }
  else if ava.attribute_id = MDC_ATTR_CONFIRM_TIMEOUT then
    { mds with confirm_timeout := env.read_intu32 stream }
  else
    mds

/-! ## Sample inputs -/

/-- Modelled from the spec: `communication_is_roiv_type` of the absent
`communication/communication.c`: the DATA-apdu choice is one of the `ROIV-*` forms
(spec section 4.2), the values 0x0100 to 0x0107 of IEEE 11073-20601. -/
def communication_is_roiv_type (data : DATA_apdu) : Bool :=
  data.message.choice ∈ [0x0100, 0x0101, 0x0103, 0x0104, 0x0105, 0x0106, 0x0107]

/-- Modelled from the spec: `communication_is_rors_type` of the absent
`communication/communication.c`: the DATA-apdu choice is one of the `RORS-*` forms
(spec section 4.2). -/
def communication_is_rors_type (data : DATA_apdu) : Bool :=
  data.message.choice ∈ [0x0201, 0x0203, 0x0205, 0x0207]

/-- Modelled from the spec: `communication_is_roer_type` of the absent
`communication/communication.c`: the DATA-apdu choice is ROER (spec section 4.2). -/
def communication_is_roer_type (data : DATA_apdu) : Bool :=
  data.message.choice = 0x0300

/-- Modelled from the spec: `communication_is_rorj_type` of the absent
`communication/communication.c`: the DATA-apdu choice is RORJ (spec section 4.2). -/
def communication_is_rorj_type (data : DATA_apdu) : Bool :=
  data.message.choice = 0x0400

/-- Sample decoder of the objects of a ConfigReport whose objects carry no attribute: per
object the class, the handle, the attribute count and the attribute length, 16 bits each. -/
def sample_decode_objects : Nat → List Nat → List ConfigObject
  | 0, _ => []
  | n + 1, c1 :: c2 :: h1 :: h2 :: _ :: _ :: _ :: _ :: rest =>
      { obj_class := c1 * 256 + c2, obj_handle := h1 * 256 + h2,
        attributes := { count := 0, length := 0, value := [] } } :: sample_decode_objects n rest
  | _ + 1, _ => []

/-- Sample `decode_configreport`: big-endian `config_report_id`, object count and length,
then the objects. -/
def sample_decode_configreport (info : Any) : ConfigReport :=
  match info.value with
  | i1 :: i2 :: c1 :: c2 :: l1 :: l2 :: rest =>
      { config_report_id := i1 * 256 + i2
        config_obj_list :=
          { count := c1 * 256 + c2, length := l1 * 256 + l2
            value := sample_decode_objects (c1 * 256 + c2) rest } }
  | _ => { config_report_id := 0, config_obj_list := { count := 0, length := 0, value := [] } }

/-- Sample builtin object list: one numeric metric (class 6) with handle 1. -/
def sample_std_list : ConfigObjectList :=
  { count := 1, length := 8
    value := [{ obj_class := 6, obj_handle := 1, attributes := { count := 0, length := 0, value := [] } }] }

/-- Sample environment: the only standard configuration is 0x05DC, the registry of extended
configurations is empty, every invoke-id is known. -/
def sample_env : Env :=
  { std_configurations_is_supported_standard := fun id => id == 0x05DC
    std_configurations_get_configuration_attributes := fun _ => sample_std_list
    ext_configurations_is_supported_standard := fun _ _ => false
    ext_configurations_get_configuration_attributes := fun _ _ =>
      { count := 0, length := 0, value := [] }
    decode_configreport := sample_decode_configreport
    decode_configreportrsp := fun info =>
      match info.value with
      | [i1, i2, r1, r2] => { config_report_id := i1 * 256 + i2, config_result := r1 * 256 + r2 }
      | _ => { config_report_id := 0, config_result := 0 }
    encode_configreportrsp := fun rsp =>
      [rsp.config_report_id / 256, rsp.config_report_id % 256,
       rsp.config_result / 256, rsp.config_result % 256]
    communication_is_roiv_type := communication_is_roiv_type
    communication_is_rors_type := communication_is_rors_type
    communication_is_roer_type := communication_is_roer_type
    communication_is_rorj_type := communication_is_rorj_type
    service_check_known_invoke_id := fun _ _ => true }

/-- Sample environment whose registry already holds every extended configuration, with a
pulse-oximeter-like cached list of one numeric object with handle 7. -/
def sample_env_cached : Env :=
  { sample_env with
    ext_configurations_is_supported_standard := fun _ _ => true
    ext_configurations_get_configuration_attributes := fun _ _ =>
      { count := 1, length := 8
        value := [{ obj_class := 6, obj_handle := 7,
                    attributes := { count := 0, length := 0, value := [] } }] } }

/-- Sample context: a freshly created MDS whose system-id is eight bytes. -/
def sample_ctx : Context :=
  { mds := some { mds_create with system_id := { length := 8, value := [1, 2, 3, 4, 5, 6, 7, 8] } } }

/-- Sample PRST APDU: a DATA-apdu with invoke-id 0x4321, the given message choice, and an
event report on handle 0 with the given event type and event info. -/
def sample_apdu (choice event_type : Nat) (info : List Nat) : APDU :=
  { choice := PRST_CHOSEN
    length := info.length + 18
    u := { prst :=
      { length := info.length + 16
        value :=
          { invoke_id := 0x4321
            message :=
              { choice := choice
                length := info.length + 10
                u := { roiv_cmipConfirmedEventReport :=
                  { obj_handle := 0, event_time := 0xFFFFFFFF, event_type := event_type
                    event_info := { length := info.length, value := info } } } } } } } }

/-- Sample configuration report: extended id 0x4001 with one numeric object (class 6,
handle 1). -/
def sample_info_extended : List Nat :=
  [0x40, 0x01, 0x00, 0x01, 0x00, 0x08, 0x00, 0x06, 0x00, 0x01, 0x00, 0x00, 0x00, 0x00]

/-- Sample configuration report: id 0x4001 with an empty object list. -/
def sample_info_empty : List Nat :=
  [0x40, 0x01, 0x00, 0x00, 0x00, 0x00]

/-- Sample configuration report: standard id 0x05DC carrying one object of its own (class 6,
handle 9). -/
def sample_info_standard : List Nat :=
  [0x05, 0xDC, 0x00, 0x01, 0x00, 0x08, 0x00, 0x06, 0x00, 0x09, 0x00, 0x00, 0x00, 0x00]

/-- Sample event data that carries a received configuration event report. -/
def sample_event_data (info : List Nat) : FSMEventData :=
  { received_apdu := some (sample_apdu ROIV_CMIP_CONFIRMED_EVENT_REPORT_CHOSEN MDC_NOTI_CONFIG info)
    choice := none, u := .unset }

/-- The calls of a record that fire an FSM event. -/
def fired_events (t : List Call) : List Call :=
  t.filter (fun c => match c with
    | .communication_fire_evt _ _ => true
    | _ => false)

/-- The ConfigReport that `configuring_perform_configuration` and
`configuring_configuration_response_tx` decode from a received APDU. -/
def received_config_report (env : Env) (apdu : APDU) : ConfigReport :=
  env.decode_configreport
    (encode_get_data_apdu apdu.u.prst).message.u.roiv_cmipConfirmedEventReport.event_info

/-- Sample MDS: a freshly created mirror whose Agent advertises the capabilities
single-response mode and scope "all" only. -/
def sample_mds_single_all : MDS :=
  { mds_create with
    data_req_mode_capab :=
      { data_req_mode_flags := DATA_REQ_SUPP_MODE_SINGLE_RSP ||| DATA_REQ_SUPP_SCOPE_ALL
        data_req_init_agent_count := 0, data_req_init_manager_count := 0 } }

/-- Sample data-request mode: start, two mode bits (single-response and time-period) and two
scope bits (all and class). -/
def sample_mode_two_bits : Nat :=
  DATA_REQ_START_STOP ||| DATA_REQ_MODE_SINGLE_RSP ||| DATA_REQ_MODE_TIME_PERIOD |||
    DATA_REQ_SCOPE_ALL ||| DATA_REQ_SCOPE_TYPE

/-- Sample data-request mode: start, single-response, scope "all". -/
def sample_mode_single_all : Nat :=
  DATA_REQ_START_STOP ||| DATA_REQ_MODE_SINGLE_RSP ||| DATA_REQ_SCOPE_ALL

/-- Sample MDS: a freshly created mirror whose Agent advertises every capability flag. -/
def sample_mds_all_capab : MDS :=
  { mds_create with
    data_req_mode_capab :=
      { data_req_mode_flags := 0xFFFF
        data_req_init_agent_count := 0, data_req_init_manager_count := 0 } }

/-- Sample data-request mode: start and scope "all", none of the three mode bits. -/
def sample_mode_no_mode_bit : Nat :=
  DATA_REQ_START_STOP ||| DATA_REQ_SCOPE_ALL

/-- Sample data-request mode: start, single-response, scope "all", with person-id. -/
def sample_mode_person_id : Nat :=
  DATA_REQ_START_STOP ||| DATA_REQ_MODE_SINGLE_RSP ||| DATA_REQ_SCOPE_ALL |||
    DATA_REQ_MODE_DATA_REQ_PERSON_ID

/-- Big-endian bytes of a 16-bit value. -/
def sample_be16 (n : Nat) : List Nat :=
  [n / 256 % 256, n % 256]

/-- Sample service environment: `encode_datarequest` writes the big-endian fields of the
request into the buffer, `service_send_remote_operation_request` returns a request with
invoke-id 1. -/
def sample_service_env : ServiceEnv :=
  { encode_datarequest := fun writer request =>
      { writer with
        buffer :=
          sample_be16 request.data_req_id ++ sample_be16 request.data_req_mode ++
          sample_be16 (request.data_req_time / 65536) ++ sample_be16 request.data_req_time ++
          sample_be16 request.data_req_person_id ++ sample_be16 request.data_req_class ++
          sample_be16 request.data_req_obj_handle_list.count ++
          sample_be16 request.data_req_obj_handle_list.length ++
          request.data_req_obj_handle_list.value.flatMap sample_be16 }
    service_send_remote_operation_request := fun _ _ _ _ => some { invoke_id := 1 } }

/-- Sample context whose MDS advertises single-response mode and scope "all". -/
def sample_ctx_single_all : Context :=
  { mds := some sample_mds_single_all }

/-- The sub-objects an MDS holds, `objects_list[0 .. objects_list_count-1]`; a NULL MDS holds
none. -/
def mds_sub_objects (mds : Option MDS) : List MDS_object :=
  match mds with
  | none => []
  | some mds => mds.objects_list.take mds.objects_list_count

/-- Handle uniqueness (spec section 3): the handles of the sub-objects are pairwise distinct
and none is the handle reserved for the MDS itself. -/
def handles_unique (objects : List MDS_object) : Prop :=
  (objects.map (fun object => object.obj_handle)).Nodup ∧
    ∀ object ∈ objects, object.obj_handle ≠ MDS_HANDLE

/-- The classes for which `mds_configure_operating` instantiates a sub-object: Numeric,
Enumeration, PMStore, EpiCfgScanner, PeriCfgScanner. -/
def is_instantiated_class (obj_class : Nat) : Bool :=
  obj_class = MDC_MOC_VMO_METRIC_NU || obj_class = MDC_MOC_VMO_METRIC_ENUM ||
    obj_class = MDC_MOC_VMO_PMSTORE || obj_class = MDC_MOC_SCAN_CFG_EPI ||
    obj_class = MDC_MOC_SCAN_CFG_PERI

/-- The variant that corresponds to a class: Numeric and Enumeration are MDS_OBJ_METRIC with
METRIC_NUMERIC / METRIC_ENUM, PMStore is MDS_OBJ_PMSTORE, the scanners are MDS_OBJ_SCANNER with
EPI_CFG_SCANNER / PERI_CFG_SCANNER. -/
def object_matches_class (obj_class : Nat) (object : MDS_object) : Prop :=
  (obj_class = MDC_MOC_VMO_METRIC_NU →
    object.choice = .MDS_OBJ_METRIC ∧
      ∃ numeric, object.u = .metric { choice := .METRIC_NUMERIC, u := .numeric numeric }) ∧
  (obj_class = MDC_MOC_VMO_METRIC_ENUM →
    object.choice = .MDS_OBJ_METRIC ∧
      ∃ enumeration, object.u = .metric { choice := .METRIC_ENUM, u := .enumeration enumeration }) ∧
  (obj_class = MDC_MOC_VMO_PMSTORE →
    object.choice = .MDS_OBJ_PMSTORE ∧ ∃ pmstore, object.u = .pmstore pmstore) ∧
  (obj_class = MDC_MOC_SCAN_CFG_EPI →
    object.choice = .MDS_OBJ_SCANNER ∧
      ∃ scanner, object.u = .scanner { choice := .EPI_CFG_SCANNER, u := .epi_cfg_scanner scanner }) ∧
  (obj_class = MDC_MOC_SCAN_CFG_PERI →
    object.choice = .MDS_OBJ_SCANNER ∧
      ∃ scanner, object.u = .scanner { choice := .PERI_CFG_SCANNER, u := .peri_cfg_scanner scanner })

/-- Sample DIM environment: instances with zeroed attributes, fill functions that leave the
object as it is. -/
def sample_dim_env : DimEnv :=
  { metric_instance := { handle := 0 }
    numeric_instance := fun metric => { metric := metric }
    enumeration_instance := fun metric => { metric := metric }
    scanner_instance := fun handle state => { handle := handle, operational_state := state }
    cfg_scanner_instance := fun scanner mode => { scanner := scanner, confirm_mode := mode }
    epi_cfg_scanner_instance := fun cfg_scanner => { scanner := cfg_scanner }
    peri_cfg_scanner_instance := fun cfg_scanner => { scanner := cfg_scanner }
    dimutil_fill_numeric_attr := fun numeric _ _ => numeric
    dimutil_fill_enumeration_attr := fun enumeration _ _ => enumeration
    pmstore_set_attribute := fun pmstore _ _ => pmstore
    dimutil_fill_epi_scanner_attr := fun scanner _ _ => scanner
    dimutil_fill_peri_scanner_attr := fun scanner _ _ => scanner }

/-- Sample sub-object: a numeric metric with the given handle. -/
def sample_numeric_object (handle : Nat) : MDS_object :=
  { choice := .MDS_OBJ_METRIC
    obj_handle := handle
    u := .metric { choice := .METRIC_NUMERIC, u := .numeric { metric := { handle := handle } } } }

/-- Sample sub-object: a PMStore with the given handle. -/
def sample_pmstore_object (handle : Nat) : MDS_object :=
  { choice := .MDS_OBJ_PMSTORE, obj_handle := handle, u := .pmstore { handle := handle } }

/-- Sample MDS that holds two sub-objects: a numeric metric with handle 1 and a PMStore with
handle 2. -/
def sample_mds_two_objects : MDS :=
  { mds_create with
    objects_list := [sample_numeric_object 1, sample_pmstore_object 2]
    objects_list_count := 2 }

/-- Sample ConfigObject of the given class and handle, without attributes. -/
def sample_config_object (obj_class obj_handle : Nat) : ConfigObject :=
  { obj_class := obj_class, obj_handle := obj_handle
    attributes := { count := 0, length := 0, value := [] } }

/-- Sample ConfigObjectList of the given objects. -/
def sample_config_list (objects : List ConfigObject) : ConfigObjectList :=
  { count := objects.length, length := 8 * objects.length, value := objects }

/-- Decision procedure for handle uniqueness. -/
instance handles_unique_decidable (objects : List MDS_object) :
    Decidable (handles_unique objects) :=
  inferInstanceAs (Decidable
    ((objects.map (fun object : MDS_object => object.obj_handle)).Nodup ∧
      ∀ object ∈ objects, object.obj_handle ≠ MDS_HANDLE))

/-- The handles of the ConfigObjects of a list, `value[0 .. count-1]`, for which
`mds_configure_operating` instantiates a sub-object, in list order. -/
def instantiated_handles (config_obj_list : ConfigObjectList) : List Nat :=
  ((config_obj_list.value.take config_obj_list.count).filter
    (fun cfgObj => is_instantiated_class cfgObj.obj_class)).map (fun cfgObj => cfgObj.obj_handle)

/-- Sample data-request mode: a stop request (neither start nor continuation) with
single-response mode and scope "all". -/
def sample_mode_stop : Nat :=
  DATA_REQ_MODE_SINGLE_RSP ||| DATA_REQ_SCOPE_ALL

/-- Sample decode environment: disposers that leave the field as it is, decoders that keep
the field except `decode_configid`, which reads a big-endian 16-bit id, and big-endian
readers. -/
def sample_decode_env : DecodeEnv :=
  { del_type := fun type => type
    decode_type := fun _ type => type
    del_systemmodel := fun model => model
    decode_systemmodel := fun _ model => model
    del_octet_string := fun string => string
    decode_octet_string := fun _ string => string
    del_configid := fun id => id
    decode_configid := fun stream id =>
      match stream.value with
      | [b1, b2] => b1 * 256 + b2
      | _ => id
    del_attrvalmap := fun map => map
    decode_attrvalmap := fun _ map => map
    del_productionspec := fun spec => spec
    decode_productionspec := fun _ spec => spec
    del_mdstimeinfo := fun info => info
    decode_mdstimeinfo := fun _ info => info
    del_absolutetime := fun time => time
    decode_absolutetime := fun _ time => time
    del_highresrelativetime := fun time => time
    decode_highresrelativetime := fun _ time => time
    del_absolutetimeadjust := fun adjust => adjust
    decode_absolutetimeadjust := fun _ adjust => adjust
    del_batmeasure := fun measure => measure
    decode_batmeasure := fun _ measure => measure
    del_regcertdatalist := fun list => list
    decode_regcertdatalist := fun _ list => list
    del_typeverlist := fun list => list
    decode_typeverlist := fun _ list => list
    read_intu32 := fun stream =>
      match stream.value with
      | [b1, b2, b3, b4] => ((b1 * 256 + b2) * 256 + b3) * 256 + b4
      | _ => 0
    read_intu16 := fun stream =>
      match stream.value with
      | [b1, b2] => b1 * 256 + b2
      | _ => 0 }

/-- Sample operating environment: every request is created, with invoke-id 2. -/
def sample_operating_env : OperatingEnv :=
  { operating_service_get := fun _ _ _ _ _ => some { invoke_id := 2 }
    operating_action_set_time := fun _ _ _ _ => some { invoke_id := 2 } }

/-- Applying observations as the spec words it (section 4.5): each observation is applied
once, in order, to the MDS the previous observation left, with a fresh entry as output; the
result is the final MDS and the output entries in order. -/
def apply_observations {α : Type} (body : Option MDS → α → DataEntry → Option MDS × DataEntry) :
    Option MDS → List α → Option MDS × List DataEntry
  | mds, [] => (mds, [])
  | mds, obs :: rest =>
    let r := body mds obs DataEntry.zero
    let next := apply_observations body r.1 rest
    (next.1, r.2 :: next.2)

/-- The effect of one scan report as the spec words it: with a count of 0 nothing happens;
otherwise the observations `value[0 .. count-1]` are applied once each, in order, the `i`-th
with the `i`-th entry as output, and one measurement-data-updated notification carries the
list of `count` entries. -/
def scan_report_effect {α : Type} (body : Option MDS → α → DataEntry → Option MDS × DataEntry)
    (calls : α → Nat → List MdsCall) (ctx : Context) (count : Nat) (value : List α) :
    Context × List MdsCall :=
  if count = 0 then (ctx, [])
  else
    ({ ctx with mds := (apply_observations body ctx.mds (value.take count)).1 },
      (value.take count).enum.flatMap (fun p => calls p.2 p.1) ++
        [MdsCall.manager_notify_evt_measurement_data_updated
          { values := (apply_observations body ctx.mds (value.take count)).2 ++
              List.replicate (count - (value.take count).length) DataEntry.zero }])

/-- The effect of a multi-person scan report as the spec words it: the effect of one scan
report is applied once per person entry, in order, each on the context the previous entry
left; the calls are those of the entries, in order. -/
def multi_person_effect {β : Type} (effect : Context → β → Context × List MdsCall)
    (ctx : Context) (persons : List β) : Context × List MdsCall :=
  persons.foldl
    (fun state person => ((effect state.1 person).1, state.2 ++ (effect state.1 person).2))
    (ctx, [])

/-- The measurement-data-updated notifications of a call record. -/
def measurement_notifications (calls : List MdsCall) : List MdsCall :=
  calls.filter (fun c => match c with
    | .manager_notify_evt_measurement_data_updated _ => true
    | _ => false)

/-- Sample update environment: the helpers leave the MDS as it is and write a compound entry
named after the kind of observation that carries the handle of the object; the personal id
is not recorded in the entry. -/
def sample_update_env : UpdateEnv :=
  { dimutil_update_mds_from_obs_scan := fun mds obs _ =>
      (mds, DataEntry.compound "Var"
        [{ name := "Handle", value := .dev_config_id obs.obj_handle, attr_id := 0 }])
    dimutil_update_mds_from_obs_scan_fixed := fun mds obs _ =>
      (mds, DataEntry.compound "Fixed"
        [{ name := "Handle", value := .dev_config_id obs.obj_handle, attr_id := 0 }])
    data_meta_set_personal_id := fun entry _ => entry }

/-- Sample PRST APDU of the Agent side: a RORS confirmed event report with invoke-id 0x4321
on the MDS handle, event type MDC_NOTI_CONFIG, whose reply accepts configuration 0x4001. -/
def sample_rors_apdu : APDU :=
  { choice := PRST_CHOSEN
    length := 22
    u := { prst :=
      { length := 20
        value :=
          { invoke_id := 0x4321
            message :=
              { choice := RORS_CMIP_CONFIRMED_EVENT_REPORT_CHOSEN
                length := 14
                u := { rors_cmipConfirmedEventReport :=
                  { obj_handle := MDS_HANDLE, currentTime := 0, event_type := MDC_NOTI_CONFIG
                    event_reply_info := { length := 4, value := [0x40, 0x01, 0x00, 0x00] } } } } } } } }

/-! ## Theorems -/

/-- C1: `configuring_evaluate_configuration_validity` returns ACCEPTED_CONFIG for a supported
standard id, otherwise STANDARD_CONFIG_UNKNOWN for an empty object list, otherwise
ACCEPTED_CONFIG. -/
theorem C1_evaluate_configuration_validity (env : Env) (r : ConfigReport) :
    configuring_evaluate_configuration_validity env r =
      if env.std_configurations_is_supported_standard r.config_report_id = true then ACCEPTED_CONFIG
      else if r.config_obj_list.count = 0 then STANDARD_CONFIG_UNKNOWN
      else ACCEPTED_CONFIG := by
  unfold configuring_evaluate_configuration_validity
  rfl

/-- The record of `configuring_perform_configuration` on event data that carries a received
APDU, in terms of the decoded report. -/
theorem perform_configuration_eq (env : Env) (ctx : Context) (evt : fsm_events)
    (event_data : FSMEventData) (apdu : APDU) (h : event_data.received_apdu = some apdu) :
    configuring_perform_configuration env ctx evt (some event_data) =
      some ((if configuring_evaluate_configuration_validity env (received_config_report env apdu)
                = ACCEPTED_CONFIG then
              if env.std_configurations_is_supported_standard
                  (received_config_report env apdu).config_report_id = true then
                [Call.mds_configure_operating
                  (env.std_configurations_get_configuration_attributes
                    (received_config_report env apdu).config_report_id)]
              else if env.ext_configurations_is_supported_standard
                  (ctx.mds.map (fun mds => mds.system_id))
                  (received_config_report env apdu).config_report_id = true then
                [Call.mds_configure_operating
                  (env.ext_configurations_get_configuration_attributes
                    (ctx.mds.map (fun mds => mds.system_id))
                    (received_config_report env apdu).config_report_id)]
              else
                [Call.ext_configurations_register_conf (ctx.mds.map (fun mds => mds.system_id))
                    (received_config_report env apdu).config_report_id
                    (received_config_report env apdu).config_obj_list,
                  Call.mds_configure_operating (received_config_report env apdu).config_obj_list]
            else [])
          ++ [Call.communication_fire_evt
                (if configuring_evaluate_configuration_validity env (received_config_report env apdu)
                    = ACCEPTED_CONFIG then
                  fsm_events.fsm_evt_req_agent_supplied_known_configuration
                else fsm_events.fsm_evt_req_agent_supplied_unknown_configuration)
                (some { received_apdu := some apdu
                        choice := some .FSM_EVT_DATA_CONFIGURATION_RESULT
                        u := .configuration_result
                          (configuring_evaluate_configuration_validity env
                            (received_config_report env apdu)) })]) := by
  unfold configuring_perform_configuration received_config_report
  simp only [h]
  split_ifs <;> rfl

/-- C2 (as stated) fails: with an id that is not a standard configuration and a non-empty
object list, but a registry that already knows `(system_id, config_report_id)`, the report is
accepted from the cached list and `ext_configurations_register_conf` is not called. -/
theorem C2_counterexample :
    sample_env_cached.std_configurations_is_supported_standard
        (received_config_report sample_env_cached
          (sample_apdu ROIV_CMIP_CONFIRMED_EVENT_REPORT_CHOSEN MDC_NOTI_CONFIG
            sample_info_extended)).config_report_id = false ∧
      (received_config_report sample_env_cached
          (sample_apdu ROIV_CMIP_CONFIRMED_EVENT_REPORT_CHOSEN MDC_NOTI_CONFIG
            sample_info_extended)).config_obj_list.count ≠ 0 ∧
      ∃ t, configuring_perform_configuration sample_env_cached sample_ctx
            .fsm_evt_rx_roiv_confirmed_event_report
            (some (sample_event_data sample_info_extended)) = some t ∧
        ∀ sid id l, Call.ext_configurations_register_conf sid id l ∉ t := by
  refine ⟨by decide, by decide,
    [Call.mds_configure_operating
        { count := 1, length := 8
          value := [{ obj_class := 6, obj_handle := 7,
                      attributes := { count := 0, length := 0, value := [] } }] },
      Call.communication_fire_evt .fsm_evt_req_agent_supplied_known_configuration
        (some { received_apdu := some (sample_apdu ROIV_CMIP_CONFIRMED_EVENT_REPORT_CHOSEN
                  MDC_NOTI_CONFIG sample_info_extended)
                choice := some .FSM_EVT_DATA_CONFIGURATION_RESULT
                u := .configuration_result ACCEPTED_CONFIG })], rfl, ?_⟩
  intro sid id l hmem
  simp at hmem

/-- C2 (amended): for a received ConfigReport whose id is not a supported standard
configuration, whose object list is non-empty and which the registry of extended
configurations does not know yet, `configuring_perform_configuration` registers the report's
object list under `(system_id, config_report_id)`, configures the MDS from that list and fires
the known-configuration event with result ACCEPTED_CONFIG. -/
theorem C2_new_extended_configuration_registered (env : Env) (ctx : Context) (evt : fsm_events)
    (event_data : FSMEventData) (apdu : APDU)
    (hapdu : event_data.received_apdu = some apdu)
    (hstd : env.std_configurations_is_supported_standard
      (received_config_report env apdu).config_report_id = false)
    (hcount : (received_config_report env apdu).config_obj_list.count ≠ 0)
    (hext : env.ext_configurations_is_supported_standard (ctx.mds.map (fun mds => mds.system_id))
      (received_config_report env apdu).config_report_id = false) :
    configuring_perform_configuration env ctx evt (some event_data) =
      some [Call.ext_configurations_register_conf (ctx.mds.map (fun mds => mds.system_id))
              (received_config_report env apdu).config_report_id
              (received_config_report env apdu).config_obj_list,
            Call.mds_configure_operating (received_config_report env apdu).config_obj_list,
            Call.communication_fire_evt .fsm_evt_req_agent_supplied_known_configuration
              (some { received_apdu := some apdu
                      choice := some .FSM_EVT_DATA_CONFIGURATION_RESULT
                      u := .configuration_result ACCEPTED_CONFIG })] := by
  have hres : configuring_evaluate_configuration_validity env (received_config_report env apdu)
      = ACCEPTED_CONFIG := by
    simp [configuring_evaluate_configuration_validity, hstd, hcount]
  rw [perform_configuration_eq env ctx evt event_data apdu hapdu]
  simp [hres, hstd, hext]

/-- Witness of C2 (amended): the sample extended report 0x4001 in the sample environment. -/
theorem C2_new_extended_configuration_registered_witness :
    configuring_perform_configuration sample_env sample_ctx .fsm_evt_rx_roiv_confirmed_event_report
        (some (sample_event_data sample_info_extended)) =
      some [Call.ext_configurations_register_conf (some { length := 8, value := [1, 2, 3, 4, 5, 6, 7, 8] })
              0x4001
              { count := 1, length := 8
                value := [{ obj_class := 6, obj_handle := 1,
                            attributes := { count := 0, length := 0, value := [] } }] },
            Call.mds_configure_operating
              { count := 1, length := 8
                value := [{ obj_class := 6, obj_handle := 1,
                            attributes := { count := 0, length := 0, value := [] } }] },
            Call.communication_fire_evt .fsm_evt_req_agent_supplied_known_configuration
              (some { received_apdu := some (sample_apdu ROIV_CMIP_CONFIRMED_EVENT_REPORT_CHOSEN
                        MDC_NOTI_CONFIG sample_info_extended)
                      choice := some .FSM_EVT_DATA_CONFIGURATION_RESULT
                      u := .configuration_result ACCEPTED_CONFIG })] :=
  C2_new_extended_configuration_registered sample_env sample_ctx
    .fsm_evt_rx_roiv_confirmed_event_report (sample_event_data sample_info_extended)
    (sample_apdu ROIV_CMIP_CONFIRMED_EVENT_REPORT_CHOSEN MDC_NOTI_CONFIG sample_info_extended)
    rfl (by decide) (by decide) (by decide)

/-- C3: for a received ConfigReport whose id is not a supported standard configuration and
whose object list is empty, `configuring_perform_configuration` only fires the
unknown-configuration event with result STANDARD_CONFIG_UNKNOWN: it calls neither
`mds_configure_operating` nor `ext_configurations_register_conf`. -/
theorem C3_unknown_id_empty_list (env : Env) (ctx : Context) (evt : fsm_events)
    (event_data : FSMEventData) (apdu : APDU)
    (hapdu : event_data.received_apdu = some apdu)
    (hstd : env.std_configurations_is_supported_standard
      (received_config_report env apdu).config_report_id = false)
    (hcount : (received_config_report env apdu).config_obj_list.count = 0) :
    ∃ t, configuring_perform_configuration env ctx evt (some event_data) = some t ∧
      t = [Call.communication_fire_evt .fsm_evt_req_agent_supplied_unknown_configuration
            (some { received_apdu := some apdu
                    choice := some .FSM_EVT_DATA_CONFIGURATION_RESULT
                    u := .configuration_result STANDARD_CONFIG_UNKNOWN })] ∧
      (∀ l, Call.mds_configure_operating l ∉ t) ∧
      (∀ sid id l, Call.ext_configurations_register_conf sid id l ∉ t) := by
  have hres : configuring_evaluate_configuration_validity env (received_config_report env apdu)
      = STANDARD_CONFIG_UNKNOWN := by
    simp [configuring_evaluate_configuration_validity, hstd, hcount]
  have hne : STANDARD_CONFIG_UNKNOWN ≠ ACCEPTED_CONFIG := by decide
  refine ⟨_, perform_configuration_eq env ctx evt event_data apdu hapdu, ?_, ?_, ?_⟩
  · simp [hres, hne]
  · intro l
    simp [hres, hne]
  · intro sid id l
    simp [hres, hne]

/-- Witness of C3: the sample report 0x4001 with an empty object list. -/
theorem C3_unknown_id_empty_list_witness :
    ∃ t, configuring_perform_configuration sample_env sample_ctx
          .fsm_evt_rx_roiv_confirmed_event_report (some (sample_event_data sample_info_empty))
          = some t ∧
      t = [Call.communication_fire_evt .fsm_evt_req_agent_supplied_unknown_configuration
            (some { received_apdu := some (sample_apdu ROIV_CMIP_CONFIRMED_EVENT_REPORT_CHOSEN
                      MDC_NOTI_CONFIG sample_info_empty)
                    choice := some .FSM_EVT_DATA_CONFIGURATION_RESULT
                    u := .configuration_result STANDARD_CONFIG_UNKNOWN })] ∧
      (∀ l, Call.mds_configure_operating l ∉ t) ∧
      (∀ sid id l, Call.ext_configurations_register_conf sid id l ∉ t) :=
  C3_unknown_id_empty_list sample_env sample_ctx
    .fsm_evt_rx_roiv_confirmed_event_report (sample_event_data sample_info_empty)
    (sample_apdu ROIV_CMIP_CONFIRMED_EVENT_REPORT_CHOSEN MDC_NOTI_CONFIG sample_info_empty)
    rfl (by decide) (by decide)

/-- C4: for a received ConfigReport whose id is a supported standard configuration, whatever
object list the report carries, `configuring_perform_configuration` accepts it, calls
`mds_configure_operating` once, with the builtin list
`std_configurations_get_configuration_attributes(config_report_id)`, and does not call
`ext_configurations_register_conf`. -/
theorem C4_standard_configuration_uses_builtin (env : Env) (ctx : Context) (evt : fsm_events)
    (event_data : FSMEventData) (apdu : APDU)
    (hapdu : event_data.received_apdu = some apdu)
    (hstd : env.std_configurations_is_supported_standard
      (received_config_report env apdu).config_report_id = true) :
    ∃ t, configuring_perform_configuration env ctx evt (some event_data) = some t ∧
      t = [Call.mds_configure_operating
            (env.std_configurations_get_configuration_attributes
              (received_config_report env apdu).config_report_id),
           Call.communication_fire_evt .fsm_evt_req_agent_supplied_known_configuration
            (some { received_apdu := some apdu
                    choice := some .FSM_EVT_DATA_CONFIGURATION_RESULT
                    u := .configuration_result ACCEPTED_CONFIG })] ∧
      (∀ l, Call.mds_configure_operating l ∈ t →
        l = env.std_configurations_get_configuration_attributes
              (received_config_report env apdu).config_report_id) ∧
      (∀ sid id l, Call.ext_configurations_register_conf sid id l ∉ t) := by
  have hres : configuring_evaluate_configuration_validity env (received_config_report env apdu)
      = ACCEPTED_CONFIG := by
    simp [configuring_evaluate_configuration_validity, hstd]
  refine ⟨_, perform_configuration_eq env ctx evt event_data apdu hapdu, ?_, ?_, ?_⟩
  · simp [hres, hstd]
  · intro l
    simp [hres, hstd]
  · intro sid id l
    simp [hres, hstd]

/-- Witness of C4: the sample standard report 0x05DC, which carries an object list of its own
(handle 9) that differs from the builtin list (handle 1). -/
theorem C4_standard_configuration_uses_builtin_witness :
    (received_config_report sample_env
        (sample_apdu ROIV_CMIP_CONFIRMED_EVENT_REPORT_CHOSEN MDC_NOTI_CONFIG
          sample_info_standard)).config_obj_list ≠ sample_std_list ∧
    ∃ t, configuring_perform_configuration sample_env sample_ctx
          .fsm_evt_rx_roiv_confirmed_event_report (some (sample_event_data sample_info_standard))
          = some t ∧
      t = [Call.mds_configure_operating sample_std_list,
           Call.communication_fire_evt .fsm_evt_req_agent_supplied_known_configuration
            (some { received_apdu := some (sample_apdu ROIV_CMIP_CONFIRMED_EVENT_REPORT_CHOSEN
                      MDC_NOTI_CONFIG sample_info_standard)
                    choice := some .FSM_EVT_DATA_CONFIGURATION_RESULT
                    u := .configuration_result ACCEPTED_CONFIG })] ∧
      (∀ l, Call.mds_configure_operating l ∈ t → l = sample_std_list) ∧
      (∀ sid id l, Call.ext_configurations_register_conf sid id l ∉ t) :=
  ⟨by decide,
    C4_standard_configuration_uses_builtin sample_env sample_ctx
      .fsm_evt_rx_roiv_confirmed_event_report (sample_event_data sample_info_standard)
      (sample_apdu ROIV_CMIP_CONFIRMED_EVENT_REPORT_CHOSEN MDC_NOTI_CONFIG sample_info_standard)
      rfl (by decide)⟩

/-- C5: for every received configuration event report, `configuring_perform_configuration`
fires exactly one FSM event, as its last call: the known-configuration event if and only if the
evaluated result is ACCEPTED_CONFIG, otherwise the unknown-configuration event; the event data
has choice FSM_EVT_DATA_CONFIGURATION_RESULT, carries the received APDU, and its
`configuration_result` is the evaluated result. -/
theorem C5_exactly_one_fsm_event (env : Env) (ctx : Context) (evt : fsm_events)
    (event_data : FSMEventData) (apdu : APDU)
    (hapdu : event_data.received_apdu = some apdu) :
    ∃ pre e, configuring_perform_configuration env ctx evt (some event_data) =
        some (pre ++ [Call.communication_fire_evt e
          (some { received_apdu := some apdu
                  choice := some .FSM_EVT_DATA_CONFIGURATION_RESULT
                  u := .configuration_result
                    (configuring_evaluate_configuration_validity env
                      (received_config_report env apdu)) })]) ∧
      fired_events pre = [] ∧
      (e = .fsm_evt_req_agent_supplied_known_configuration ↔
        configuring_evaluate_configuration_validity env (received_config_report env apdu)
          = ACCEPTED_CONFIG) ∧
      (e ≠ .fsm_evt_req_agent_supplied_known_configuration →
        e = .fsm_evt_req_agent_supplied_unknown_configuration) := by
  refine ⟨_, _, perform_configuration_eq env ctx evt event_data apdu hapdu, ?_, ?_, ?_⟩
  · unfold fired_events
    split_ifs <;> rfl
  · split_ifs <;> simp [*]
  · split_ifs <;> simp

/-- Witness of C5: the sample extended report 0x4001 in the sample environment. -/
theorem C5_exactly_one_fsm_event_witness :
    ∃ pre e, configuring_perform_configuration sample_env sample_ctx
        .fsm_evt_rx_roiv_confirmed_event_report (some (sample_event_data sample_info_extended)) =
        some (pre ++ [Call.communication_fire_evt e
          (some { received_apdu := some (sample_apdu ROIV_CMIP_CONFIRMED_EVENT_REPORT_CHOSEN
                    MDC_NOTI_CONFIG sample_info_extended)
                  choice := some .FSM_EVT_DATA_CONFIGURATION_RESULT
                  u := .configuration_result
                    (configuring_evaluate_configuration_validity sample_env
                      (received_config_report sample_env
                        (sample_apdu ROIV_CMIP_CONFIRMED_EVENT_REPORT_CHOSEN
                          MDC_NOTI_CONFIG sample_info_extended))) })]) ∧
      fired_events pre = [] ∧
      (e = .fsm_evt_req_agent_supplied_known_configuration ↔
        configuring_evaluate_configuration_validity sample_env
          (received_config_report sample_env
            (sample_apdu ROIV_CMIP_CONFIRMED_EVENT_REPORT_CHOSEN
              MDC_NOTI_CONFIG sample_info_extended)) = ACCEPTED_CONFIG) ∧
      (e ≠ .fsm_evt_req_agent_supplied_known_configuration →
        e = .fsm_evt_req_agent_supplied_unknown_configuration) :=
  C5_exactly_one_fsm_event sample_env sample_ctx
    .fsm_evt_rx_roiv_confirmed_event_report (sample_event_data sample_info_extended)
    (sample_apdu ROIV_CMIP_CONFIRMED_EVENT_REPORT_CHOSEN MDC_NOTI_CONFIG sample_info_extended) rfl

/-- C6: on event data that carries the received configuration event report and a
configuration result, `configuring_configuration_response_tx` hands exactly one APDU to
`communication_send_apdu`: a PRST whose DATA-apdu has the invoke-id of the received ROIV,
message choice RORS_CMIP_CONFIRMED_EVENT_REPORT_CHOSEN, `obj_handle` and `event_type` copied
from the received event report, and an `event_reply_info` that holds the encoding of
`ConfigReportRsp{config_report_id of the decoded report, config_result of the event data}`. -/
theorem C6_configuration_response_apdu (env : Env) (evt : fsm_events)
    (event_data : FSMEventData) (apdu : APDU) (configuration_result : Nat)
    (hapdu : event_data.received_apdu = some apdu)
    (hu : event_data.u = .configuration_result configuration_result) :
    ∃ result_apdu : APDU,
      configuring_configuration_response_tx env evt (some event_data) =
        some [Call.communication_send_apdu result_apdu] ∧
      result_apdu.choice = PRST_CHOSEN ∧
      (encode_get_data_apdu result_apdu.u.prst).invoke_id =
        (encode_get_data_apdu apdu.u.prst).invoke_id ∧
      (encode_get_data_apdu result_apdu.u.prst).message.choice =
        RORS_CMIP_CONFIRMED_EVENT_REPORT_CHOSEN ∧
      (encode_get_data_apdu result_apdu.u.prst).message.u.rors_cmipConfirmedEventReport.obj_handle =
        (encode_get_data_apdu apdu.u.prst).message.u.roiv_cmipConfirmedEventReport.obj_handle ∧
      (encode_get_data_apdu result_apdu.u.prst).message.u.rors_cmipConfirmedEventReport.event_type =
        (encode_get_data_apdu apdu.u.prst).message.u.roiv_cmipConfirmedEventReport.event_type ∧
      (encode_get_data_apdu result_apdu.u.prst).message.u.rors_cmipConfirmedEventReport.event_reply_info.value =
        env.encode_configreportrsp
          { config_report_id := (received_config_report env apdu).config_report_id
            config_result := configuration_result } := by
  unfold configuring_configuration_response_tx
  simp only [hapdu, hu]
  exact ⟨_, rfl, rfl, rfl, rfl, rfl, rfl, rfl⟩

/-- Witness of C6: the reply to the sample extended report 0x4001 with result
ACCEPTED_CONFIG. -/
theorem C6_configuration_response_apdu_witness :
    ∃ result_apdu : APDU,
      configuring_configuration_response_tx sample_env .fsm_evt_req_agent_supplied_known_configuration
          (some { received_apdu := some (sample_apdu ROIV_CMIP_CONFIRMED_EVENT_REPORT_CHOSEN
                    MDC_NOTI_CONFIG sample_info_extended)
                  choice := some .FSM_EVT_DATA_CONFIGURATION_RESULT
                  u := .configuration_result ACCEPTED_CONFIG }) =
        some [Call.communication_send_apdu result_apdu] ∧
      result_apdu.choice = PRST_CHOSEN ∧
      (encode_get_data_apdu result_apdu.u.prst).invoke_id = 0x4321 ∧
      (encode_get_data_apdu result_apdu.u.prst).message.choice =
        RORS_CMIP_CONFIRMED_EVENT_REPORT_CHOSEN ∧
      (encode_get_data_apdu result_apdu.u.prst).message.u.rors_cmipConfirmedEventReport.obj_handle = 0 ∧
      (encode_get_data_apdu result_apdu.u.prst).message.u.rors_cmipConfirmedEventReport.event_type =
        MDC_NOTI_CONFIG ∧
      (encode_get_data_apdu result_apdu.u.prst).message.u.rors_cmipConfirmedEventReport.event_reply_info.value =
        [0x40, 0x01, 0x00, 0x00] :=
  C6_configuration_response_apdu sample_env .fsm_evt_req_agent_supplied_known_configuration
    { received_apdu := some (sample_apdu ROIV_CMIP_CONFIRMED_EVENT_REPORT_CHOSEN
        MDC_NOTI_CONFIG sample_info_extended)
      choice := some .FSM_EVT_DATA_CONFIGURATION_RESULT
      u := .configuration_result ACCEPTED_CONFIG }
    (sample_apdu ROIV_CMIP_CONFIRMED_EVENT_REPORT_CHOSEN MDC_NOTI_CONFIG sample_info_extended)
    ACCEPTED_CONFIG rfl rfl

/-- C7: in the waiting-for-config state, for a PRST APDU whose DATA-apdu is a ROIV confirmed
event report with event type MDC_NOTI_CONFIG, `configuring_waiting_state_process_apdu` resets
the timeout once and then fires one event, `fsm_evt_rx_roiv_confirmed_event_report`, whose data
carries the received APDU. -/
theorem C7_waiting_config_report (env : Env) (apdu : APDU)
    (hprst : apdu.choice = PRST_CHOSEN)
    (hchoice : (encode_get_data_apdu apdu.u.prst).message.choice =
      ROIV_CMIP_CONFIRMED_EVENT_REPORT_CHOSEN)
    (htype : (encode_get_data_apdu apdu.u.prst).message.u.roiv_cmipConfirmedEventReport.event_type =
      MDC_NOTI_CONFIG) :
    configuring_waiting_state_process_apdu env apdu =
      [Call.communication_reset_timeout,
       Call.communication_fire_evt .fsm_evt_rx_roiv_confirmed_event_report
        (some { received_apdu := some apdu, choice := none, u := .unset })] := by
  unfold configuring_waiting_state_process_apdu
  simp only [hprst, hchoice, htype, if_true]

/-- Witness of C7: the sample extended configuration report. -/
theorem C7_waiting_config_report_witness :
    configuring_waiting_state_process_apdu sample_env
        (sample_apdu ROIV_CMIP_CONFIRMED_EVENT_REPORT_CHOSEN MDC_NOTI_CONFIG sample_info_extended) =
      [Call.communication_reset_timeout,
       Call.communication_fire_evt .fsm_evt_rx_roiv_confirmed_event_report
        (some { received_apdu := some (sample_apdu ROIV_CMIP_CONFIRMED_EVENT_REPORT_CHOSEN
                  MDC_NOTI_CONFIG sample_info_extended)
                choice := none, u := .unset })] :=
  C7_waiting_config_report sample_env
    (sample_apdu ROIV_CMIP_CONFIRMED_EVENT_REPORT_CHOSEN MDC_NOTI_CONFIG sample_info_extended)
    rfl rfl rfl

/-- C8 at its failing input: in the waiting-for-config state a PRST APDU whose DATA-apdu is a
ROIV confirmed event report of a measurement type (MDC_NOTI_SCAN_REPORT_FIXED), a ROIV that
is not a configuration report, makes `configuring_waiting_state_process_apdu` fire no event
at all: nothing is rejected. -/
theorem C8_non_config_confirmed_event_report_not_rejected :
    (sample_apdu ROIV_CMIP_CONFIRMED_EVENT_REPORT_CHOSEN MDC_NOTI_SCAN_REPORT_FIXED []).choice
        = PRST_CHOSEN ∧
      sample_env.communication_is_roiv_type
        (encode_get_data_apdu
          (sample_apdu ROIV_CMIP_CONFIRMED_EVENT_REPORT_CHOSEN MDC_NOTI_SCAN_REPORT_FIXED []).u.prst)
        = true ∧
      (encode_get_data_apdu
          (sample_apdu ROIV_CMIP_CONFIRMED_EVENT_REPORT_CHOSEN MDC_NOTI_SCAN_REPORT_FIXED []).u.prst
        ).message.u.roiv_cmipConfirmedEventReport.event_type ≠ MDC_NOTI_CONFIG ∧
      configuring_waiting_state_process_apdu sample_env
        (sample_apdu ROIV_CMIP_CONFIRMED_EVENT_REPORT_CHOSEN MDC_NOTI_SCAN_REPORT_FIXED []) = [] := by
  refine ⟨rfl, by decide, by decide, by decide⟩

/-- C9 (as stated) fails: in the checking-config state a PRST APDU whose DATA-apdu is a ROIV
confirmed event report of a measurement type (MDC_NOTI_SCAN_REPORT_FIXED), a ROIV that is not
a configuration report, makes `configuring_checking_state_process_apdu` fire
`fsm_evt_rx_roiv_confirmed_event_report` with data that only carries the APDU; no fired event
has an error result with NO_SUCH_ACTION. -/
theorem C9_counterexample :
    (sample_apdu ROIV_CMIP_CONFIRMED_EVENT_REPORT_CHOSEN MDC_NOTI_SCAN_REPORT_FIXED []).choice
        = PRST_CHOSEN ∧
      sample_env.communication_is_roiv_type
        (encode_get_data_apdu
          (sample_apdu ROIV_CMIP_CONFIRMED_EVENT_REPORT_CHOSEN MDC_NOTI_SCAN_REPORT_FIXED []).u.prst)
        = true ∧
      (encode_get_data_apdu
          (sample_apdu ROIV_CMIP_CONFIRMED_EVENT_REPORT_CHOSEN MDC_NOTI_SCAN_REPORT_FIXED []).u.prst
        ).message.u.roiv_cmipConfirmedEventReport.event_type ≠ MDC_NOTI_CONFIG ∧
      configuring_checking_state_process_apdu sample_env
          (sample_apdu ROIV_CMIP_CONFIRMED_EVENT_REPORT_CHOSEN MDC_NOTI_SCAN_REPORT_FIXED []) =
        [Call.communication_fire_evt .fsm_evt_rx_roiv_confirmed_event_report
          (some { received_apdu := some (sample_apdu ROIV_CMIP_CONFIRMED_EVENT_REPORT_CHOSEN
                    MDC_NOTI_SCAN_REPORT_FIXED [])
                  choice := none, u := .unset })] ∧
      ¬ ∃ e d p, Call.communication_fire_evt e (some d) ∈
            configuring_checking_state_process_apdu sample_env
              (sample_apdu ROIV_CMIP_CONFIRMED_EVENT_REPORT_CHOSEN MDC_NOTI_SCAN_REPORT_FIXED []) ∧
          d.u = .error_result { error_value := NO_SUCH_ACTION, parameter := p } := by
  have hrun : configuring_checking_state_process_apdu sample_env
      (sample_apdu ROIV_CMIP_CONFIRMED_EVENT_REPORT_CHOSEN MDC_NOTI_SCAN_REPORT_FIXED []) =
      [Call.communication_fire_evt .fsm_evt_rx_roiv_confirmed_event_report
        (some { received_apdu := some (sample_apdu ROIV_CMIP_CONFIRMED_EVENT_REPORT_CHOSEN
                  MDC_NOTI_SCAN_REPORT_FIXED [])
                choice := none, u := .unset })] := by decide
  refine ⟨rfl, by decide, by decide, hrun, ?_⟩
  rintro ⟨e, d, p, hmem, hd⟩
  rw [hrun] at hmem
  simp only [List.mem_singleton, Call.communication_fire_evt.injEq, Option.some.injEq] at hmem
  rw [hmem.2] at hd
  cases hd

/-- C9 (amended): in the checking-config state, for a PRST APDU, (1) if the DATA-apdu is of
ROIV type and its choice is not ROIV_CMIP_CONFIRMED_EVENT_REPORT_CHOSEN,
`configuring_checking_state_process_apdu` fires exactly one event,
`fsm_evt_rx_roiv_all_except_confirmed_event_report`, whose data is an error result with
error value NO_SUCH_ACTION and parameter length 0; (2) if the choice is
ROIV_CMIP_CONFIRMED_EVENT_REPORT_CHOSEN, whatever the event type, it fires exactly one event,
`fsm_evt_rx_roiv_confirmed_event_report`, whose data carries the received APDU and no error
result. -/
theorem C9_checking_state_roiv (env : Env) (apdu : APDU) (hprst : apdu.choice = PRST_CHOSEN) :
    ((encode_get_data_apdu apdu.u.prst).message.choice ≠ ROIV_CMIP_CONFIRMED_EVENT_REPORT_CHOSEN →
      env.communication_is_roiv_type (encode_get_data_apdu apdu.u.prst) = true →
      configuring_checking_state_process_apdu env apdu =
        [Call.communication_fire_evt .fsm_evt_rx_roiv_all_except_confirmed_event_report
          (some { received_apdu := some apdu
                  choice := some .FSM_EVT_DATA_ERROR_RESULT
                  u := .error_result
                    { error_value := NO_SUCH_ACTION
                      parameter := { length := 0, value := [] } } })]) ∧
    ((encode_get_data_apdu apdu.u.prst).message.choice = ROIV_CMIP_CONFIRMED_EVENT_REPORT_CHOSEN →
      configuring_checking_state_process_apdu env apdu =
        [Call.communication_fire_evt .fsm_evt_rx_roiv_confirmed_event_report
          (some { received_apdu := some apdu, choice := none, u := .unset })]) := by
  constructor
  · intro hne hroiv
    unfold configuring_checking_state_process_apdu
    simp only [hprst, hne, hroiv, if_true, if_false]
  · intro heq
    unfold configuring_checking_state_process_apdu
    simp only [hprst, heq, if_true]

/-- Witness of C9 (amended): a ROIV get request is rejected with NO_SUCH_ACTION. -/
theorem C9_checking_state_roiv_witness :
    configuring_checking_state_process_apdu sample_env (sample_apdu ROIV_CMIP_GET_CHOSEN 0 []) =
      [Call.communication_fire_evt .fsm_evt_rx_roiv_all_except_confirmed_event_report
        (some { received_apdu := some (sample_apdu ROIV_CMIP_GET_CHOSEN 0 [])
                choice := some .FSM_EVT_DATA_ERROR_RESULT
                u := .error_result
                  { error_value := NO_SUCH_ACTION
                    parameter := { length := 0, value := [] } } })] :=
  (C9_checking_state_roiv sample_env (sample_apdu ROIV_CMIP_GET_CHOSEN 0 []) rfl).1
    (by decide) (by decide)

/-- C10 (as stated) fails: a request with two mode bits (single-response and time-period) and
two scope bits (all and class) is reported as supported by an Agent that advertises
single-response and scope "all". -/
theorem C10_counterexample :
    mds_is_supported_data_request sample_mds_single_all sample_mode_two_bits ≠ 0 ∧
      sample_mode_two_bits &&& DATA_REQ_MODE_SINGLE_RSP ≠ 0 ∧
      sample_mode_two_bits &&& DATA_REQ_MODE_TIME_PERIOD ≠ 0 ∧
      sample_mode_two_bits &&& DATA_REQ_SCOPE_ALL ≠ 0 ∧
      sample_mode_two_bits &&& DATA_REQ_SCOPE_TYPE ≠ 0 := by
  decide

/-- C10 (amended): if `mds_is_supported_data_request` reports the request as supported (a
non-zero result), then at least one of the three mode bits is set in `data_req_mode` with the
matching capability advertised by the Agent, and at least one of the three scope bits is set
with the matching capability advertised. -/
theorem C10_supported_has_mode_and_scope (mds : MDS) (data_req_mode : Nat)
    (h : mds_is_supported_data_request mds data_req_mode ≠ 0) :
    ((data_req_mode &&& DATA_REQ_MODE_SINGLE_RSP ≠ 0 ∧
        mds.data_req_mode_capab.data_req_mode_flags &&& DATA_REQ_SUPP_MODE_SINGLE_RSP ≠ 0) ∨
      (data_req_mode &&& DATA_REQ_MODE_TIME_PERIOD ≠ 0 ∧
        mds.data_req_mode_capab.data_req_mode_flags &&& DATA_REQ_SUPP_MODE_TIME_PERIOD ≠ 0) ∨
      (data_req_mode &&& DATA_REQ_MODE_TIME_NO_LIMIT ≠ 0 ∧
        mds.data_req_mode_capab.data_req_mode_flags &&& DATA_REQ_SUPP_MODE_TIME_NO_LIMIT ≠ 0)) ∧
    ((data_req_mode &&& DATA_REQ_SCOPE_ALL ≠ 0 ∧
        mds.data_req_mode_capab.data_req_mode_flags &&& DATA_REQ_SUPP_SCOPE_ALL ≠ 0) ∨
      (data_req_mode &&& DATA_REQ_SCOPE_TYPE ≠ 0 ∧
        mds.data_req_mode_capab.data_req_mode_flags &&& DATA_REQ_SUPP_SCOPE_CLASS ≠ 0) ∨
      (data_req_mode &&& DATA_REQ_SCOPE_HANDLE ≠ 0 ∧
        mds.data_req_mode_capab.data_req_mode_flags &&& DATA_REQ_SUPP_SCOPE_HANDLE ≠ 0)) := by
  unfold mds_is_supported_data_request at h
  simp only [ne_eq, ite_eq_right_iff, one_ne_zero, imp_false, Bool.not_eq_true,
    Bool.and_eq_true, Bool.or_eq_true, bne_iff_ne, not_not, not_and, not_forall] at h
  obtain ⟨⟨⟨_, hmode⟩, hscope⟩, _⟩ := h
  exact ⟨or_assoc.mp hmode, or_assoc.mp hscope⟩

/-- Witness of C10 (amended): a single-response, scope "all" request to an Agent that
advertises both. -/
theorem C10_supported_has_mode_and_scope_witness :
    mds_is_supported_data_request sample_mds_single_all sample_mode_single_all ≠ 0 ∧
    ((sample_mode_single_all &&& DATA_REQ_MODE_SINGLE_RSP ≠ 0 ∧
        sample_mds_single_all.data_req_mode_capab.data_req_mode_flags
          &&& DATA_REQ_SUPP_MODE_SINGLE_RSP ≠ 0) ∨
      (sample_mode_single_all &&& DATA_REQ_MODE_TIME_PERIOD ≠ 0 ∧
        sample_mds_single_all.data_req_mode_capab.data_req_mode_flags
          &&& DATA_REQ_SUPP_MODE_TIME_PERIOD ≠ 0) ∨
      (sample_mode_single_all &&& DATA_REQ_MODE_TIME_NO_LIMIT ≠ 0 ∧
        sample_mds_single_all.data_req_mode_capab.data_req_mode_flags
          &&& DATA_REQ_SUPP_MODE_TIME_NO_LIMIT ≠ 0)) ∧
    ((sample_mode_single_all &&& DATA_REQ_SCOPE_ALL ≠ 0 ∧
        sample_mds_single_all.data_req_mode_capab.data_req_mode_flags
          &&& DATA_REQ_SUPP_SCOPE_ALL ≠ 0) ∨
      (sample_mode_single_all &&& DATA_REQ_SCOPE_TYPE ≠ 0 ∧
        sample_mds_single_all.data_req_mode_capab.data_req_mode_flags
          &&& DATA_REQ_SUPP_SCOPE_CLASS ≠ 0) ∨
      (sample_mode_single_all &&& DATA_REQ_SCOPE_HANDLE ≠ 0 ∧
        sample_mds_single_all.data_req_mode_capab.data_req_mode_flags
          &&& DATA_REQ_SUPP_SCOPE_HANDLE ≠ 0)) :=
  ⟨by decide, C10_supported_has_mode_and_scope sample_mds_single_all sample_mode_single_all
    (by decide)⟩

/-- C11: for every MDS and every `data_req_mode` in which none of the three mode bits is set,
`mds_is_supported_data_request` reports the request as unsupported (it returns 0). -/
theorem C11_no_mode_bit_unsupported (mds : MDS) (data_req_mode : Nat)
    (hsingle : data_req_mode &&& DATA_REQ_MODE_SINGLE_RSP = 0)
    (hperiod : data_req_mode &&& DATA_REQ_MODE_TIME_PERIOD = 0)
    (hnolimit : data_req_mode &&& DATA_REQ_MODE_TIME_NO_LIMIT = 0) :
    mds_is_supported_data_request mds data_req_mode = 0 := by
  unfold mds_is_supported_data_request
  simp [hsingle, hperiod, hnolimit]

/-- Witness of C11: a start request with scope "all" and no mode bit, to an Agent that
advertises every capability. -/
theorem C11_no_mode_bit_unsupported_witness :
    mds_is_supported_data_request sample_mds_all_capab sample_mode_no_mode_bit = 0 :=
  C11_no_mode_bit_unsupported sample_mds_all_capab sample_mode_no_mode_bit
    (by decide) (by decide) (by decide)

/-- C12: (1) a request with the person-id bit set is reported as supported only if the
capability flags of the Agent contain DATA_REQ_SUPP_PERSON_ID; (2) a request without the
person-id bit is supported exactly when the request-type, mode and scope conditions hold,
whatever the person-id capability is. -/
theorem C12_person_id (mds : MDS) (data_req_mode : Nat) :
    (data_req_mode &&& DATA_REQ_MODE_DATA_REQ_PERSON_ID ≠ 0 →
      mds_is_supported_data_request mds data_req_mode ≠ 0 →
      mds.data_req_mode_capab.data_req_mode_flags &&& DATA_REQ_SUPP_PERSON_ID ≠ 0) ∧
    (data_req_mode &&& DATA_REQ_MODE_DATA_REQ_PERSON_ID = 0 →
      (mds_is_supported_data_request mds data_req_mode ≠ 0 ↔
        (data_req_mode &&& DATA_REQ_START_STOP ≠ 0 ∨
          data_req_mode &&& DATA_REQ_CONTINUATION ≠ 0 ∨
          mds.data_req_mode_capab.data_req_mode_flags &&& DATA_REQ_SUPP_STOP ≠ 0) ∧
        ((data_req_mode &&& DATA_REQ_MODE_SINGLE_RSP ≠ 0 ∧
            mds.data_req_mode_capab.data_req_mode_flags &&& DATA_REQ_SUPP_MODE_SINGLE_RSP ≠ 0) ∨
          (data_req_mode &&& DATA_REQ_MODE_TIME_PERIOD ≠ 0 ∧
            mds.data_req_mode_capab.data_req_mode_flags &&& DATA_REQ_SUPP_MODE_TIME_PERIOD ≠ 0) ∨
          (data_req_mode &&& DATA_REQ_MODE_TIME_NO_LIMIT ≠ 0 ∧
            mds.data_req_mode_capab.data_req_mode_flags
              &&& DATA_REQ_SUPP_MODE_TIME_NO_LIMIT ≠ 0)) ∧
        ((data_req_mode &&& DATA_REQ_SCOPE_ALL ≠ 0 ∧
            mds.data_req_mode_capab.data_req_mode_flags &&& DATA_REQ_SUPP_SCOPE_ALL ≠ 0) ∨
          (data_req_mode &&& DATA_REQ_SCOPE_TYPE ≠ 0 ∧
            mds.data_req_mode_capab.data_req_mode_flags &&& DATA_REQ_SUPP_SCOPE_CLASS ≠ 0) ∨
          (data_req_mode &&& DATA_REQ_SCOPE_HANDLE ≠ 0 ∧
            mds.data_req_mode_capab.data_req_mode_flags &&& DATA_REQ_SUPP_SCOPE_HANDLE ≠ 0)))) := by
  constructor
  · intro hbit h
    unfold mds_is_supported_data_request at h
    simp only [ne_eq, ite_eq_right_iff, one_ne_zero, imp_false, Bool.not_eq_true,
      Bool.and_eq_true, Bool.or_eq_true, bne_iff_ne, not_not, not_and, not_forall] at h
    obtain ⟨_, hperson⟩ := h
    rcases hperson with hperson | hperson
    · simp [hbit] at hperson
    · exact hperson
  · intro hbit
    unfold mds_is_supported_data_request
    simp only [hbit, ne_eq, ite_eq_right_iff, one_ne_zero, imp_false, Bool.not_eq_true,
      Bool.and_eq_true, Bool.or_eq_true, bne_iff_ne, not_not, bne_self_eq_false, Bool.not_false,
      true_or, and_true, or_assoc]
    exact and_assoc

/-- Witness of C12: a person-id request that is reported as supported by an Agent that
advertises every capability, person-id included. -/
theorem C12_person_id_witness :
    sample_mode_person_id &&& DATA_REQ_MODE_DATA_REQ_PERSON_ID ≠ 0 ∧
      mds_is_supported_data_request sample_mds_all_capab sample_mode_person_id ≠ 0 ∧
      sample_mds_all_capab.data_req_mode_capab.data_req_mode_flags &&& DATA_REQ_SUPP_PERSON_ID ≠ 0 :=
  ⟨by decide, by decide,
    (C12_person_id sample_mds_all_capab sample_mode_person_id).1 (by decide) (by decide)⟩

/-- C13 at its failing input: a start request with exactly the single-response mode bit and
the scope "all" bit, both advertised by the Agent, and without person-id is supported, yet
`mds_is_supported_data_request` returns 1, not zero (and `mds_service_action_data_request`
sends the request); a request without any mode bit is not supported, yet the function returns
zero. -/
theorem C13_supported_request_returns_nonzero :
    sample_mode_single_all &&& DATA_REQ_START_STOP ≠ 0 ∧
      (sample_mode_single_all &&& DATA_REQ_MODE_SINGLE_RSP ≠ 0 ∧
        sample_mds_single_all.data_req_mode_capab.data_req_mode_flags
          &&& DATA_REQ_SUPP_MODE_SINGLE_RSP ≠ 0) ∧
      (sample_mode_single_all &&& DATA_REQ_SCOPE_ALL ≠ 0 ∧
        sample_mds_single_all.data_req_mode_capab.data_req_mode_flags
          &&& DATA_REQ_SUPP_SCOPE_ALL ≠ 0) ∧
      sample_mode_single_all &&& DATA_REQ_MODE_DATA_REQ_PERSON_ID = 0 ∧
      mds_is_supported_data_request sample_mds_single_all sample_mode_single_all = 1 ∧
      (mds_service_action_data_request sample_service_env sample_ctx_single_all
          sample_mode_single_all none none 0 true).1 = some { invoke_id := 1 } ∧
      (mds_service_action_data_request sample_service_env sample_ctx_single_all
          sample_mode_single_all none none 0 true).2.length = 1 ∧
      mds_is_supported_data_request sample_mds_single_all sample_mode_no_mode_bit = 0 := by
  refine ⟨by decide, by decide, by decide, by decide, by decide, by rfl, by rfl, by decide⟩

/-- The result of `mds_is_supported_data_request` is 1 or 0, and it is non-zero exactly when
the request-type, mode, scope and person-id conditions all hold. -/
theorem mds_is_supported_data_request_nonzero_iff (mds : MDS) (data_req_mode : Nat) :
    (mds_is_supported_data_request mds data_req_mode = 1 ∨
      mds_is_supported_data_request mds data_req_mode = 0) ∧
    (mds_is_supported_data_request mds data_req_mode ≠ 0 ↔
      (data_req_mode &&& DATA_REQ_START_STOP ≠ 0 ∨
        data_req_mode &&& DATA_REQ_CONTINUATION ≠ 0 ∨
        mds.data_req_mode_capab.data_req_mode_flags &&& DATA_REQ_SUPP_STOP ≠ 0) ∧
      ((data_req_mode &&& DATA_REQ_MODE_SINGLE_RSP ≠ 0 ∧
          mds.data_req_mode_capab.data_req_mode_flags &&& DATA_REQ_SUPP_MODE_SINGLE_RSP ≠ 0) ∨
        (data_req_mode &&& DATA_REQ_MODE_TIME_PERIOD ≠ 0 ∧
          mds.data_req_mode_capab.data_req_mode_flags &&& DATA_REQ_SUPP_MODE_TIME_PERIOD ≠ 0) ∨
        (data_req_mode &&& DATA_REQ_MODE_TIME_NO_LIMIT ≠ 0 ∧
          mds.data_req_mode_capab.data_req_mode_flags
            &&& DATA_REQ_SUPP_MODE_TIME_NO_LIMIT ≠ 0)) ∧
      ((data_req_mode &&& DATA_REQ_SCOPE_ALL ≠ 0 ∧
          mds.data_req_mode_capab.data_req_mode_flags &&& DATA_REQ_SUPP_SCOPE_ALL ≠ 0) ∨
        (data_req_mode &&& DATA_REQ_SCOPE_TYPE ≠ 0 ∧
          mds.data_req_mode_capab.data_req_mode_flags &&& DATA_REQ_SUPP_SCOPE_CLASS ≠ 0) ∨
        (data_req_mode &&& DATA_REQ_SCOPE_HANDLE ≠ 0 ∧
          mds.data_req_mode_capab.data_req_mode_flags &&& DATA_REQ_SUPP_SCOPE_HANDLE ≠ 0)) ∧
      (data_req_mode &&& DATA_REQ_MODE_DATA_REQ_PERSON_ID = 0 ∨
        mds.data_req_mode_capab.data_req_mode_flags &&& DATA_REQ_SUPP_PERSON_ID ≠ 0)) := by
  constructor
  · unfold mds_is_supported_data_request
    dsimp only
    split_ifs
    · exact Or.inl rfl
    · exact Or.inr rfl
  · unfold mds_is_supported_data_request
    simp only [ne_eq, ite_eq_right_iff, one_ne_zero, imp_false, Bool.not_eq_true,
      Bool.and_eq_true, Bool.or_eq_true, bne_iff_ne, not_not, Bool.not_eq_true',
      bne_eq_false_iff_eq, or_assoc, and_assoc]

/-- C14: when the context has no MDS, or when the capability check reports the request as
unsupported (returns 0), `mds_service_action_data_request` returns NULL and makes no call: in
particular `service_send_remote_operation_request` is not called and no APDU is emitted. -/
theorem C14_data_request_failure (env : ServiceEnv) (ctx : Context) (data_req_mode : Nat)
    (class_id : Option Nat) (handle_list : Option HANDLEList) (request_callback : Nat)
    (allocated : Bool)
    (h : ctx.mds = none ∨
      ∃ mds, ctx.mds = some mds ∧ mds_is_supported_data_request mds data_req_mode = 0) :
    (mds_service_action_data_request env ctx data_req_mode class_id handle_list
        request_callback allocated).1 = none ∧
    (mds_service_action_data_request env ctx data_req_mode class_id handle_list
        request_callback allocated).2 = [] ∧
    ∀ apdu timeout callback,
      MdsCall.service_send_remote_operation_request apdu timeout callback ∉
        (mds_service_action_data_request env ctx data_req_mode class_id handle_list
          request_callback allocated).2 := by
  have hres : mds_service_action_data_request env ctx data_req_mode class_id handle_list
      request_callback allocated = (none, []) := by
    unfold mds_service_action_data_request
    rcases h with h | ⟨mds, hmds, hsup⟩
    · simp only [h]
    · simp only [hmds, hsup, ne_eq, not_true_eq_false, if_false]
  rw [hres]
  simp

/-- Witness of C14: a context without MDS, and a request without mode bit to an Agent that
advertises every capability. -/
theorem C14_data_request_failure_witness :
    ((mds_service_action_data_request sample_service_env { mds := none }
          sample_mode_single_all none none 0 true).1 = none ∧
      (mds_service_action_data_request sample_service_env { mds := none }
          sample_mode_single_all none none 0 true).2 = [] ∧
      ∀ apdu timeout callback,
        MdsCall.service_send_remote_operation_request apdu timeout callback ∉
          (mds_service_action_data_request sample_service_env { mds := none }
            sample_mode_single_all none none 0 true).2) ∧
    ((mds_service_action_data_request sample_service_env { mds := some sample_mds_all_capab }
          sample_mode_no_mode_bit none none 0 true).1 = none ∧
      (mds_service_action_data_request sample_service_env { mds := some sample_mds_all_capab }
          sample_mode_no_mode_bit none none 0 true).2 = [] ∧
      ∀ apdu timeout callback,
        MdsCall.service_send_remote_operation_request apdu timeout callback ∉
          (mds_service_action_data_request sample_service_env { mds := some sample_mds_all_capab }
            sample_mode_no_mode_bit none none 0 true).2) :=
  ⟨C14_data_request_failure sample_service_env { mds := none } sample_mode_single_all
      none none 0 true (Or.inl rfl),
    C14_data_request_failure sample_service_env { mds := some sample_mds_all_capab }
      sample_mode_no_mode_bit none none 0 true (Or.inr ⟨sample_mds_all_capab, rfl, by decide⟩)⟩

/-- The sub-objects after `mds_add_object` are the previous ones followed by the object. -/
theorem mds_add_object_sub_objects (mds : MDS) (object : MDS_object) :
    mds_sub_objects (some (mds_add_object mds object)) = mds_sub_objects (some mds) ++ [object] := by
  unfold mds_sub_objects mds_add_object
  by_cases h0 : mds.objects_list_count = 0
  · simp [h0]
  · simp only [h0, if_false]
    apply List.take_of_length_le
    simp only [List.length_append, List.length_take, List.length_singleton]
    omega

/-- The `switch` of `mds_configure_operating` builds no object for a class that is not
instantiated. -/
theorem mds_configure_operating_object_none (env : DimEnv) (cfgObj : ConfigObject)
    (h : is_instantiated_class cfgObj.obj_class = false) :
    mds_configure_operating_object env cfgObj = none := by
  unfold is_instantiated_class at h
  simp only [Bool.or_eq_false_iff, decide_eq_false_iff_not] at h
  obtain ⟨⟨⟨⟨hnu, henum⟩, hpm⟩, hepi⟩, hperi⟩ := h
  unfold mds_configure_operating_object
  simp only [hnu, henum, hpm, hepi, hperi, if_false, ite_self]

/-- The `switch` of `mds_configure_operating` builds an object for an instantiated class; the
object has the handle of the ConfigObject and the variant of its class. -/
theorem mds_configure_operating_object_some (env : DimEnv) (cfgObj : ConfigObject)
    (h : is_instantiated_class cfgObj.obj_class = true) :
    ∃ object, mds_configure_operating_object env cfgObj = some object ∧
      object.obj_handle = cfgObj.obj_handle ∧
      object_matches_class cfgObj.obj_class object := by
  unfold is_instantiated_class at h
  simp only [Bool.or_eq_true, decide_eq_true_eq] at h
  rcases h with (((h | h) | h) | h) | h
  · refine ⟨_, by
      unfold mds_configure_operating_object
      rw [if_neg (by rw [h]; decide), if_pos h], rfl, ?_⟩
    unfold object_matches_class
    rw [h]
    exact ⟨fun _ => ⟨rfl, _, rfl⟩, fun hc => absurd hc (by decide),
      fun hc => absurd hc (by decide), fun hc => absurd hc (by decide),
      fun hc => absurd hc (by decide)⟩
  · refine ⟨_, by
      unfold mds_configure_operating_object
      rw [if_neg (by rw [h]; decide), if_neg (by rw [h]; decide), if_pos h], rfl, ?_⟩
    unfold object_matches_class
    rw [h]
    exact ⟨fun hc => absurd hc (by decide), fun _ => ⟨rfl, _, rfl⟩,
      fun hc => absurd hc (by decide), fun hc => absurd hc (by decide),
      fun hc => absurd hc (by decide)⟩
  · refine ⟨_, by
      unfold mds_configure_operating_object
      rw [if_neg (by rw [h]; decide), if_neg (by rw [h]; decide), if_neg (by rw [h]; decide),
        if_neg (by rw [h]; decide), if_pos h], rfl, ?_⟩
    unfold object_matches_class
    rw [h]
    exact ⟨fun hc => absurd hc (by decide), fun hc => absurd hc (by decide),
      fun _ => ⟨rfl, _, rfl⟩, fun hc => absurd hc (by decide),
      fun hc => absurd hc (by decide)⟩
  · refine ⟨_, by
      unfold mds_configure_operating_object
      rw [if_neg (by rw [h]; decide), if_neg (by rw [h]; decide), if_neg (by rw [h]; decide),
        if_neg (by rw [h]; decide), if_neg (by rw [h]; decide), if_neg (by rw [h]; decide),
        if_neg (by rw [h]; decide), if_pos h], rfl, ?_⟩
    unfold object_matches_class
    rw [h]
    exact ⟨fun hc => absurd hc (by decide), fun hc => absurd hc (by decide),
      fun hc => absurd hc (by decide), fun _ => ⟨rfl, _, rfl⟩,
      fun hc => absurd hc (by decide)⟩
  · refine ⟨_, by
      unfold mds_configure_operating_object
      rw [if_neg (by rw [h]; decide), if_neg (by rw [h]; decide), if_neg (by rw [h]; decide),
        if_neg (by rw [h]; decide), if_neg (by rw [h]; decide), if_neg (by rw [h]; decide),
        if_neg (by rw [h]; decide), if_neg (by rw [h]; decide), if_pos h], rfl, ?_⟩
    unfold object_matches_class
    rw [h]
    exact ⟨fun hc => absurd hc (by decide), fun hc => absurd hc (by decide),
      fun hc => absurd hc (by decide), fun hc => absurd hc (by decide),
      fun _ => ⟨rfl, _, rfl⟩⟩

/-- The object loop of `mds_configure_operating` on a non-NULL MDS returns an MDS whose
sub-objects are the previous ones followed by the objects built, in list order. -/
theorem mds_configure_operating_loop_some (env : DimEnv) (objs : List ConfigObject) :
    ∀ m : MDS, ∃ m' : MDS,
      mds_configure_operating_loop env (some m) objs = some (some m') ∧
      mds_sub_objects (some m') =
        mds_sub_objects (some m) ++ objs.filterMap (mds_configure_operating_object env) := by
  induction objs with
  | nil =>
    intro m
    exact ⟨m, rfl, by simp⟩
  | cons cfgObj rest ih =>
    intro m
    cases hobj : mds_configure_operating_object env cfgObj with
    | none =>
      obtain ⟨m', hloop, hsub⟩ := ih m
      refine ⟨m', ?_, ?_⟩
      · simp only [mds_configure_operating_loop, hobj]
        exact hloop
      · rw [hsub, List.filterMap_cons_none hobj]
    | some object =>
      obtain ⟨m', hloop, hsub⟩ := ih (mds_add_object m object)
      refine ⟨m', ?_, ?_⟩
      · simp only [mds_configure_operating_loop, hobj]
        exact hloop
      · rw [hsub, mds_add_object_sub_objects, List.filterMap_cons_some hobj]
        simp

/-- The object loop of `mds_configure_operating` leaves the MDS pointer as it is when no
ConfigObject has an instantiated class. -/
theorem mds_configure_operating_loop_none (env : DimEnv) (mds : Option MDS)
    (objs : List ConfigObject)
    (h : ∀ cfgObj ∈ objs, is_instantiated_class cfgObj.obj_class = false) :
    mds_configure_operating_loop env mds objs = some mds := by
  induction objs with
  | nil => rfl
  | cons cfgObj rest ih =>
    have hobj := mds_configure_operating_object_none env cfgObj (h cfgObj (List.mem_cons_self _ _))
    simp only [mds_configure_operating_loop, hobj]
    exact ih (fun c hc => h c (List.mem_cons_of_mem _ hc))

/-- The handles of the objects built by the loop are the handles of the ConfigObjects with an
instantiated class. -/
theorem built_objects_handles (env : DimEnv) (objs : List ConfigObject) :
    (objs.filterMap (mds_configure_operating_object env)).map (fun object => object.obj_handle) =
      (objs.filter (fun cfgObj => is_instantiated_class cfgObj.obj_class)).map
        (fun cfgObj => cfgObj.obj_handle) := by
  induction objs with
  | nil => rfl
  | cons cfgObj rest ih =>
    cases hclass : is_instantiated_class cfgObj.obj_class with
    | false =>
      have hobj := mds_configure_operating_object_none env cfgObj hclass
      rw [List.filterMap_cons_none hobj, List.filter_cons_of_neg (by simp [hclass]), ih]
    | true =>
      obtain ⟨object, hobj, hhandle, _⟩ := mds_configure_operating_object_some env cfgObj hclass
      rw [List.filterMap_cons_some hobj, List.filter_cons_of_pos (by simp [hclass])]
      simp only [List.map_cons, hhandle, ih]

/-- When every ConfigObject has an instantiated class, the loop builds one object per
ConfigObject, in order, with the handle of the ConfigObject and the variant of its class. -/
theorem built_objects_forall2 (env : DimEnv) (objs : List ConfigObject)
    (h : ∀ cfgObj ∈ objs, is_instantiated_class cfgObj.obj_class = true) :
    List.Forall₂
      (fun cfgObj object =>
        object.obj_handle = cfgObj.obj_handle ∧ object_matches_class cfgObj.obj_class object)
      objs (objs.filterMap (mds_configure_operating_object env)) := by
  induction objs with
  | nil => exact List.Forall₂.nil
  | cons cfgObj rest ih =>
    obtain ⟨object, hobj, hhandle, hmatch⟩ :=
      mds_configure_operating_object_some env cfgObj (h cfgObj (List.mem_cons_self _ _))
    rw [List.filterMap_cons_some hobj]
    exact List.Forall₂.cons ⟨hhandle, hmatch⟩ (ih (fun c hc => h c (List.mem_cons_of_mem _ hc)))

/-- The result of `mds_configure_operating` on a context that has an MDS. -/
theorem mds_configure_operating_some (env : DimEnv) (ctx : Context) (mds : MDS)
    (config_obj_list : ConfigObjectList) (hctx : ctx.mds = some mds) :
    ∃ m' : MDS,
      mds_configure_operating env ctx config_obj_list =
        some ({ ctx with mds := some m' },
          [MdsCall.service_init,
           MdsCall.manager_notify_evt_device_available
            { values := [mds_populate_attributes (some m') DataEntry.zero] }]) ∧
      mds_sub_objects (some m') =
        mds_sub_objects (some mds) ++
          (config_obj_list.value.take config_obj_list.count).filterMap
            (mds_configure_operating_object env) := by
  obtain ⟨m', hloop, hsub⟩ :=
    mds_configure_operating_loop_some env (config_obj_list.value.take config_obj_list.count) mds
  refine ⟨m', ?_, hsub⟩
  unfold mds_configure_operating
  simp only [hctx, hloop]
  rfl

/-- C15 (as stated) fails: the sample MDS holds two sub-objects with the distinct non-zero
handles 1 and 2; after `mds_add_object` of an object with handle 1, after `mds_add_object` of
an object with handle 0, and after `mds_configure_operating` with a list that holds one
Numeric object with handle 2, the handles are no longer pairwise distinct and non-zero. -/
theorem C15_counterexample :
    handles_unique (mds_sub_objects (some sample_mds_two_objects)) ∧
      ¬ handles_unique
          (mds_sub_objects (some (mds_add_object sample_mds_two_objects (sample_numeric_object 1)))) ∧
      ¬ handles_unique
          (mds_sub_objects (some (mds_add_object sample_mds_two_objects (sample_numeric_object 0)))) ∧
      ∃ ctx' calls,
        mds_configure_operating sample_dim_env { mds := some sample_mds_two_objects }
            (sample_config_list [sample_config_object MDC_MOC_VMO_METRIC_NU 2]) =
          some (ctx', calls) ∧
        ¬ handles_unique (mds_sub_objects ctx'.mds) := by
  refine ⟨by decide, by decide, by decide, _, _, rfl, by decide⟩

/-- C15 (amended): for an MDS whose sub-objects have pairwise distinct, non-zero handles,
(1) the MDS after `mds_add_object(mds, object)` again has pairwise distinct, non-zero
sub-object handles provided the handle of `object` is non-zero and is not the handle of a
sub-object already present; (2) the MDS after `mds_configure_operating(ctx, list)` again has
pairwise distinct, non-zero sub-object handles provided the handles of the instantiated
ConfigObjects of the list are non-zero, pairwise distinct and different from the handles
already present. -/
theorem C15_handle_uniqueness_preserved (mds : MDS)
    (hinv : handles_unique (mds_sub_objects (some mds))) :
    (∀ object : MDS_object, object.obj_handle ≠ MDS_HANDLE →
      (∀ present ∈ mds_sub_objects (some mds), present.obj_handle ≠ object.obj_handle) →
      handles_unique (mds_sub_objects (some (mds_add_object mds object)))) ∧
    (∀ (env : DimEnv) (ctx : Context) (config_obj_list : ConfigObjectList),
      ctx.mds = some mds →
      ((mds_sub_objects (some mds)).map (fun object => object.obj_handle) ++
        instantiated_handles config_obj_list).Nodup →
      MDS_HANDLE ∉ instantiated_handles config_obj_list →
      ∃ ctx' calls, mds_configure_operating env ctx config_obj_list = some (ctx', calls) ∧
        handles_unique (mds_sub_objects ctx'.mds)) := by
  obtain ⟨hnodup, hnonzero⟩ := hinv
  constructor
  · intro object hobj hfresh
    rw [mds_add_object_sub_objects]
    constructor
    · rw [List.map_append, List.map_singleton]
      apply List.Nodup.append hnodup (List.nodup_singleton _)
      intro a ha hb
      rw [List.mem_singleton] at hb
      obtain ⟨present, hpresent, hhandle⟩ := List.mem_map.mp ha
      exact hfresh present hpresent (hhandle.trans hb)
    · intro o ho
      rcases List.mem_append.mp ho with ho | ho
      · exact hnonzero o ho
      · rw [List.mem_singleton] at ho
        rw [ho]
        exact hobj
  · intro env ctx config_obj_list hctx hnodup' hzero
    obtain ⟨m', hrun, hsub⟩ := mds_configure_operating_some env ctx mds config_obj_list hctx
    refine ⟨_, _, hrun, ?_⟩
    show handles_unique (mds_sub_objects (some m'))
    rw [hsub]
    constructor
    · rw [List.map_append, built_objects_handles]
      exact hnodup'
    · intro o ho
      rcases List.mem_append.mp ho with ho | ho
      · exact hnonzero o ho
      · intro hbad
        apply hzero
        unfold instantiated_handles
        rw [← built_objects_handles env]
        exact List.mem_map.mpr ⟨o, ho, hbad⟩

/-- Witness of C15 (amended): a PMStore with the fresh handle 3 is added to the sample MDS
that holds the handles 1 and 2, and a list with the fresh handles 3 and 4 is configured into
it. -/
theorem C15_handle_uniqueness_preserved_witness :
    handles_unique (mds_sub_objects (some sample_mds_two_objects)) ∧
      handles_unique
        (mds_sub_objects (some (mds_add_object sample_mds_two_objects (sample_pmstore_object 3)))) ∧
      ∃ ctx' calls,
        mds_configure_operating sample_dim_env { mds := some sample_mds_two_objects }
            (sample_config_list [sample_config_object MDC_MOC_VMO_METRIC_NU 3,
              sample_config_object MDC_MOC_SCAN_CFG_PERI 4]) = some (ctx', calls) ∧
          handles_unique (mds_sub_objects ctx'.mds) :=
  ⟨by decide,
    (C15_handle_uniqueness_preserved sample_mds_two_objects (by decide)).1
      (sample_pmstore_object 3) (by decide) (by decide),
    (C15_handle_uniqueness_preserved sample_mds_two_objects (by decide)).2
      sample_dim_env { mds := some sample_mds_two_objects }
      (sample_config_list [sample_config_object MDC_MOC_VMO_METRIC_NU 3,
        sample_config_object MDC_MOC_SCAN_CFG_PERI 4]) rfl (by decide) (by decide)⟩

/-- C16: for a context with an MDS and a ConfigObjectList whose objects all have a class in
{Numeric, Enumeration, PMStore, EpiCfgScanner, PeriCfgScanner}, `mds_configure_operating`
appends exactly one sub-object per ConfigObject, in list order, after the objects already
present; each appended sub-object has the handle of its ConfigObject and the variant that
corresponds to its class. -/
theorem C16_configure_operating_appends (env : DimEnv) (ctx : Context) (mds : MDS)
    (config_obj_list : ConfigObjectList) (hctx : ctx.mds = some mds)
    (hclass : ∀ cfgObj ∈ config_obj_list.value.take config_obj_list.count,
      is_instantiated_class cfgObj.obj_class = true) :
    ∃ ctx' calls added,
      mds_configure_operating env ctx config_obj_list = some (ctx', calls) ∧
      mds_sub_objects ctx'.mds = mds_sub_objects (some mds) ++ added ∧
      List.Forall₂
        (fun cfgObj object =>
          object.obj_handle = cfgObj.obj_handle ∧ object_matches_class cfgObj.obj_class object)
        (config_obj_list.value.take config_obj_list.count) added := by
  obtain ⟨m', hrun, hsub⟩ := mds_configure_operating_some env ctx mds config_obj_list hctx
  exact ⟨_, _, _, hrun, hsub, built_objects_forall2 env _ hclass⟩

/-- Witness of C16: a list with a Numeric (handle 3), a PMStore (handle 4) and an
EpiCfgScanner (handle 5) configured into the sample MDS that holds the handles 1 and 2. -/
theorem C16_configure_operating_appends_witness :
    ∃ ctx' calls added,
      mds_configure_operating sample_dim_env { mds := some sample_mds_two_objects }
          (sample_config_list
            [sample_config_object MDC_MOC_VMO_METRIC_NU 3,
             sample_config_object MDC_MOC_VMO_PMSTORE 4,
             sample_config_object MDC_MOC_SCAN_CFG_EPI 5]) = some (ctx', calls) ∧
      mds_sub_objects ctx'.mds = mds_sub_objects (some sample_mds_two_objects) ++ added ∧
      List.Forall₂
        (fun cfgObj object =>
          object.obj_handle = cfgObj.obj_handle ∧ object_matches_class cfgObj.obj_class object)
        [sample_config_object MDC_MOC_VMO_METRIC_NU 3,
         sample_config_object MDC_MOC_VMO_PMSTORE 4,
         sample_config_object MDC_MOC_SCAN_CFG_EPI 5] added :=
  C16_configure_operating_appends sample_dim_env { mds := some sample_mds_two_objects }
    sample_mds_two_objects
    (sample_config_list
      [sample_config_object MDC_MOC_VMO_METRIC_NU 3,
       sample_config_object MDC_MOC_VMO_PMSTORE 4,
       sample_config_object MDC_MOC_SCAN_CFG_EPI 5])
    rfl (by decide)

/-- The scan of `mds_get_object_by_handle` returns an object exactly when it is the first
object of the list with the handle. -/
theorem mds_get_object_by_handle_scan_some (obj_handle : Nat) (objects : List MDS_object)
    (object : MDS_object) :
    mds_get_object_by_handle_scan obj_handle objects = some object ↔
      ∃ before after, objects = before ++ object :: after ∧ object.obj_handle = obj_handle ∧
        ∀ o ∈ before, o.obj_handle ≠ obj_handle := by
  induction objects with
  | nil =>
    simp [mds_get_object_by_handle_scan]
  | cons head rest ih =>
    unfold mds_get_object_by_handle_scan
    by_cases hhead : head.obj_handle = obj_handle
    · simp only [hhead, if_true, Option.some.injEq]
      constructor
      · intro heq
        subst heq
        exact ⟨[], rest, rfl, hhead, by simp⟩
      · rintro ⟨before, after, hsplit, _, hbefore⟩
        cases before with
        | nil =>
          simp only [List.nil_append, List.cons.injEq] at hsplit
          exact hsplit.1
        | cons b bs =>
          simp only [List.cons_append, List.cons.injEq] at hsplit
          exact absurd (hsplit.1 ▸ hhead) (hbefore b (List.mem_cons_self _ _))
    · simp only [hhead, if_false]
      rw [ih]
      constructor
      · rintro ⟨before, after, hsplit, hobj, hbefore⟩
        refine ⟨head :: before, after, by rw [hsplit]; rfl, hobj, ?_⟩
        intro o ho
        rcases List.mem_cons.mp ho with ho | ho
        · rw [ho]
          exact hhead
        · exact hbefore o ho
      · rintro ⟨before, after, hsplit, hobj, hbefore⟩
        cases before with
        | nil =>
          simp only [List.nil_append, List.cons.injEq] at hsplit
          exact absurd (hsplit.1 ▸ hobj) hhead
        | cons b bs =>
          simp only [List.cons_append, List.cons.injEq] at hsplit
          exact ⟨bs, after, hsplit.2, hobj,
            fun o ho => hbefore o (List.mem_cons_of_mem _ ho)⟩

/-- The scan of `mds_get_object_by_handle` returns NULL exactly when no object of the list
has the handle. -/
theorem mds_get_object_by_handle_scan_none (obj_handle : Nat) (objects : List MDS_object) :
    mds_get_object_by_handle_scan obj_handle objects = none ↔
      ∀ o ∈ objects, o.obj_handle ≠ obj_handle := by
  induction objects with
  | nil => simp [mds_get_object_by_handle_scan]
  | cons head rest ih =>
    unfold mds_get_object_by_handle_scan
    by_cases hhead : head.obj_handle = obj_handle
    · simp [hhead]
    · simp [hhead, ih]

/-- C18: for every MDS pointer and every handle, (1) `mds_get_object_by_handle` returns an
object exactly when that object is the first sub-object, in list order, whose `obj_handle` is
the handle; (2) it returns NULL if and only if no sub-object has the handle; (3) it returns
NULL for a NULL MDS and (4) for an MDS without sub-objects. -/
theorem C18_get_object_by_handle (mds : Option MDS) (obj_handle : Nat) :
    (∀ object, mds_get_object_by_handle mds obj_handle = some object ↔
      ∃ before after, mds_sub_objects mds = before ++ object :: after ∧
        object.obj_handle = obj_handle ∧ ∀ o ∈ before, o.obj_handle ≠ obj_handle) ∧
    (mds_get_object_by_handle mds obj_handle = none ↔
      ∀ o ∈ mds_sub_objects mds, o.obj_handle ≠ obj_handle) ∧
    mds_get_object_by_handle none obj_handle = none ∧
    (mds_sub_objects mds = [] → mds_get_object_by_handle mds obj_handle = none) := by
  have hdef : ∀ m : Option MDS, mds_get_object_by_handle m obj_handle =
      mds_get_object_by_handle_scan obj_handle (mds_sub_objects m) := by
    intro m
    cases m <;> rfl
  refine ⟨?_, ?_, rfl, ?_⟩
  · intro object
    rw [hdef]
    exact mds_get_object_by_handle_scan_some obj_handle _ object
  · rw [hdef]
    exact mds_get_object_by_handle_scan_none obj_handle _
  · intro hempty
    rw [hdef, hempty]
    rfl

/-- C19: for an MDS that holds n sub-objects (its array has `objects_list_count` = n
elements), after `mds_add_object(mds, o)` the MDS holds n+1 sub-objects, the first n are the
previous ones in the same order, the last one is `o`, and every other field of the MDS is
unchanged. -/
theorem C19_add_object_appends (mds : MDS) (object : MDS_object)
    (hcount : mds.objects_list.length = mds.objects_list_count) :
    (mds_add_object mds object).objects_list_count = mds.objects_list_count + 1 ∧
    (mds_add_object mds object).objects_list.length = mds.objects_list_count + 1 ∧
    (mds_add_object mds object).objects_list.take mds.objects_list_count = mds.objects_list ∧
    (mds_add_object mds object).objects_list.getLast? = some object ∧
    mds_add_object mds object =
      { mds with
        objects_list := mds.objects_list ++ [object]
        objects_list_count := mds.objects_list_count + 1 } := by
  have hlist : (mds_add_object mds object).objects_list = mds.objects_list ++ [object] := by
    unfold mds_add_object
    by_cases h0 : mds.objects_list_count = 0
    · have hnil : mds.objects_list = [] := List.length_eq_zero.mp (hcount.trans h0)
      simp [h0, hnil]
    · simp only [h0, if_false]
      rw [← hcount, List.take_length]
  refine ⟨rfl, ?_, ?_, ?_, ?_⟩
  · rw [hlist, List.length_append, hcount]
    rfl
  · rw [hlist, ← hcount, List.take_left]
  · rw [hlist, List.getLast?_append, List.getLast?_singleton]
    rfl
  · unfold mds_add_object at hlist ⊢
    simp only at hlist
    simp only [hlist]

/-- Witness of C19: a PMStore with handle 3 is added to the sample MDS that holds two
sub-objects. -/
theorem C19_add_object_appends_witness :
    (mds_add_object sample_mds_two_objects (sample_pmstore_object 3)).objects_list_count = 2 + 1 ∧
    (mds_add_object sample_mds_two_objects (sample_pmstore_object 3)).objects_list.length = 2 + 1 ∧
    (mds_add_object sample_mds_two_objects (sample_pmstore_object 3)).objects_list.take 2 =
      [sample_numeric_object 1, sample_pmstore_object 2] ∧
    (mds_add_object sample_mds_two_objects (sample_pmstore_object 3)).objects_list.getLast? =
      some (sample_pmstore_object 3) ∧
    mds_add_object sample_mds_two_objects (sample_pmstore_object 3) =
      { sample_mds_two_objects with
        objects_list := [sample_numeric_object 1, sample_pmstore_object 2] ++ [sample_pmstore_object 3]
        objects_list_count := 2 + 1 } :=
  C19_add_object_appends sample_mds_two_objects (sample_pmstore_object 3) rfl

/-- C20: `mds_create` returns a mirror with an empty object list (`objects_list_count` = 0),
the reserved handle MDS_HANDLE and the class id MDC_MOC_VMS_MDS_SIMP; consequently
`mds_get_object_by_handle` on a freshly created MDS returns NULL for every handle. -/
theorem C20_mds_create (obj_handle : Nat) :
    mds_create.objects_list = [] ∧
    mds_create.objects_list_count = 0 ∧
    mds_create.handle = MDS_HANDLE ∧
    mds_create.dim.id = MDC_MOC_VMS_MDS_SIMP ∧
    mds_get_object_by_handle (some mds_create) obj_handle = none :=
  ⟨rfl, rfl, rfl, rfl, rfl⟩

/-- C23: for every APDU whose choice is RLRQ, each of the four configuring-state handlers
fires exactly one event, `fsm_evt_rx_rlrq`, whose data has choice
FSM_EVT_DATA_RELEASE_RESPONSE_REASON and release response reason
RELEASE_RESPONSE_REASON_NORMAL. -/
theorem C23_rlrq_release_normal (env : Env) (ctx : Context) (apdu : APDU)
    (hrlrq : apdu.choice = RLRQ_CHOSEN) :
    (∃ data : FSMEventData,
      configuring_waiting_state_process_apdu env apdu =
        [Call.communication_fire_evt .fsm_evt_rx_rlrq (some data)] ∧
      data.choice = some .FSM_EVT_DATA_RELEASE_RESPONSE_REASON ∧
      data.u = .release_response_reason RELEASE_RESPONSE_REASON_NORMAL) ∧
    (∃ data : FSMEventData,
      configuring_checking_state_process_apdu env apdu =
        [Call.communication_fire_evt .fsm_evt_rx_rlrq (some data)] ∧
      data.choice = some .FSM_EVT_DATA_RELEASE_RESPONSE_REASON ∧
      data.u = .release_response_reason RELEASE_RESPONSE_REASON_NORMAL) ∧
    (∃ data : FSMEventData,
      configuring_agent_waiting_approval_process_apdu env ctx apdu =
        [Call.communication_fire_evt .fsm_evt_rx_rlrq (some data)] ∧
      data.choice = some .FSM_EVT_DATA_RELEASE_RESPONSE_REASON ∧
      data.u = .release_response_reason RELEASE_RESPONSE_REASON_NORMAL) ∧
    (∃ data : FSMEventData,
      configuring_agent_config_sending_process_apdu env ctx apdu =
        [Call.communication_fire_evt .fsm_evt_rx_rlrq (some data)] ∧
      data.choice = some .FSM_EVT_DATA_RELEASE_RESPONSE_REASON ∧
      data.u = .release_response_reason RELEASE_RESPONSE_REASON_NORMAL) := by
  have h1 : RLRQ_CHOSEN ≠ PRST_CHOSEN := by decide
  have h2 : RLRQ_CHOSEN ≠ AARQ_CHOSEN := by decide
  have h3 : RLRQ_CHOSEN ≠ AARE_CHOSEN := by decide
  have h4 : RLRQ_CHOSEN ≠ RLRE_CHOSEN := by decide
  refine ⟨⟨{ received_apdu := some apdu
             choice := some .FSM_EVT_DATA_RELEASE_RESPONSE_REASON
             u := .release_response_reason RELEASE_RESPONSE_REASON_NORMAL }, ?_, rfl, rfl⟩,
    ⟨{ received_apdu := none
       choice := some .FSM_EVT_DATA_RELEASE_RESPONSE_REASON
       u := .release_response_reason RELEASE_RESPONSE_REASON_NORMAL }, ?_, rfl, rfl⟩,
    ⟨{ received_apdu := none
       choice := some .FSM_EVT_DATA_RELEASE_RESPONSE_REASON
       u := .release_response_reason RELEASE_RESPONSE_REASON_NORMAL }, ?_, rfl, rfl⟩,
    ⟨{ received_apdu := none
       choice := some .FSM_EVT_DATA_RELEASE_RESPONSE_REASON
       u := .release_response_reason RELEASE_RESPONSE_REASON_NORMAL }, ?_, rfl, rfl⟩⟩
  · unfold configuring_waiting_state_process_apdu
    simp only [hrlrq, h1, h2, h3, h4, if_true, if_false]
  · unfold configuring_checking_state_process_apdu
    simp only [hrlrq, h1, h2, h3, if_true, if_false]
  · unfold configuring_agent_waiting_approval_process_apdu
    simp only [hrlrq, h1, h2, h3, if_true, if_false]
  · unfold configuring_agent_config_sending_process_apdu
      configuring_agent_waiting_approval_process_apdu
    simp only [hrlrq, h1, h2, h3, if_true, if_false]

/-- Witness of C23: the sample APDU with its choice replaced by RLRQ. -/
theorem C23_rlrq_release_normal_witness :
    (∃ data : FSMEventData,
      configuring_waiting_state_process_apdu sample_env
          { sample_apdu 0 0 [] with choice := RLRQ_CHOSEN } =
        [Call.communication_fire_evt .fsm_evt_rx_rlrq (some data)] ∧
      data.choice = some .FSM_EVT_DATA_RELEASE_RESPONSE_REASON ∧
      data.u = .release_response_reason RELEASE_RESPONSE_REASON_NORMAL) ∧
    (∃ data : FSMEventData,
      configuring_checking_state_process_apdu sample_env
          { sample_apdu 0 0 [] with choice := RLRQ_CHOSEN } =
        [Call.communication_fire_evt .fsm_evt_rx_rlrq (some data)] ∧
      data.choice = some .FSM_EVT_DATA_RELEASE_RESPONSE_REASON ∧
      data.u = .release_response_reason RELEASE_RESPONSE_REASON_NORMAL) ∧
    (∃ data : FSMEventData,
      configuring_agent_waiting_approval_process_apdu sample_env sample_ctx
          { sample_apdu 0 0 [] with choice := RLRQ_CHOSEN } =
        [Call.communication_fire_evt .fsm_evt_rx_rlrq (some data)] ∧
      data.choice = some .FSM_EVT_DATA_RELEASE_RESPONSE_REASON ∧
      data.u = .release_response_reason RELEASE_RESPONSE_REASON_NORMAL) ∧
    (∃ data : FSMEventData,
      configuring_agent_config_sending_process_apdu sample_env sample_ctx
          { sample_apdu 0 0 [] with choice := RLRQ_CHOSEN } =
        [Call.communication_fire_evt .fsm_evt_rx_rlrq (some data)] ∧
      data.choice = some .FSM_EVT_DATA_RELEASE_RESPONSE_REASON ∧
      data.u = .release_response_reason RELEASE_RESPONSE_REASON_NORMAL) :=
  C23_rlrq_release_normal sample_env sample_ctx
    { sample_apdu 0 0 [] with choice := RLRQ_CHOSEN } rfl

/-- C24: for every APDU whose choice is none of PRST, AARQ, AARE, RLRQ, RLRE, ABRT, each of
`configuring_waiting_state_process_apdu`, `configuring_checking_state_process_apdu` and
`configuring_agent_waiting_approval_process_apdu` makes no call at all: no FSM event is
fired, the timeout is not touched and nothing is sent. -/
theorem C24_unknown_choice_ignored (env : Env) (ctx : Context) (apdu : APDU)
    (hprst : apdu.choice ≠ PRST_CHOSEN) (haarq : apdu.choice ≠ AARQ_CHOSEN)
    (haare : apdu.choice ≠ AARE_CHOSEN) (hrlrq : apdu.choice ≠ RLRQ_CHOSEN)
    (hrlre : apdu.choice ≠ RLRE_CHOSEN) (habrt : apdu.choice ≠ ABRT_CHOSEN) :
    configuring_waiting_state_process_apdu env apdu = [] ∧
    configuring_checking_state_process_apdu env apdu = [] ∧
    configuring_agent_waiting_approval_process_apdu env ctx apdu = [] := by
  refine ⟨?_, ?_, ?_⟩
  · unfold configuring_waiting_state_process_apdu
    simp only [hprst, haarq, haare, hrlrq, hrlre, habrt, if_false]
  · unfold configuring_checking_state_process_apdu
    simp only [hprst, haarq, haare, hrlrq, hrlre, habrt, if_false]
  · unfold configuring_agent_waiting_approval_process_apdu
    simp only [hprst, haarq, haare, hrlrq, hrlre, habrt, if_false]

/-- Witness of C24: the sample APDU with the unknown choice 0xE800. -/
theorem C24_unknown_choice_ignored_witness :
    configuring_waiting_state_process_apdu sample_env
        { sample_apdu 0 0 [] with choice := 0xE800 } = [] ∧
    configuring_checking_state_process_apdu sample_env
        { sample_apdu 0 0 [] with choice := 0xE800 } = [] ∧
    configuring_agent_waiting_approval_process_apdu sample_env sample_ctx
        { sample_apdu 0 0 [] with choice := 0xE800 } = [] :=
  C24_unknown_choice_ignored sample_env sample_ctx
    { sample_apdu 0 0 [] with choice := 0xE800 }
    (by decide) (by decide) (by decide) (by decide) (by decide) (by decide)

/-- C26: `configuring_transition_waiting_for_config` makes exactly two calls: it sends the
association response with `association_accept_config_tx` and then arms one timeout of
CONFIGURING_TO = 10 seconds with `communication_timeout` as the expiry handler. -/
theorem C26_transition_waiting_for_config (evt : fsm_events)
    (event_data : Option FSMEventData) :
    configuring_transition_waiting_for_config evt event_data =
      [Call.association_accept_config_tx evt event_data,
       Call.communication_count_timeout .communication_timeout 10] ∧
    CONFIGURING_TO = 10 :=
  ⟨rfl, rfl⟩

/-- C28: (1) for a `data_req_mode` in which neither DATA_REQ_START_STOP nor
DATA_REQ_CONTINUATION is set (a stop request), `mds_is_supported_data_request` reports support
only if the capability flags of the Agent contain DATA_REQ_SUPP_STOP; (2) when
DATA_REQ_START_STOP or DATA_REQ_CONTINUATION is set, the request-type condition holds
whatever the capability flags are: the request is supported exactly when the mode, scope and
person-id conditions hold. -/
theorem C28_request_type (mds : MDS) (data_req_mode : Nat) :
    (data_req_mode &&& DATA_REQ_START_STOP = 0 →
      data_req_mode &&& DATA_REQ_CONTINUATION = 0 →
      mds_is_supported_data_request mds data_req_mode ≠ 0 →
      mds.data_req_mode_capab.data_req_mode_flags &&& DATA_REQ_SUPP_STOP ≠ 0) ∧
    ((data_req_mode &&& DATA_REQ_START_STOP ≠ 0 ∨
        data_req_mode &&& DATA_REQ_CONTINUATION ≠ 0) →
      (mds_is_supported_data_request mds data_req_mode ≠ 0 ↔
        ((data_req_mode &&& DATA_REQ_MODE_SINGLE_RSP ≠ 0 ∧
            mds.data_req_mode_capab.data_req_mode_flags &&& DATA_REQ_SUPP_MODE_SINGLE_RSP ≠ 0) ∨
          (data_req_mode &&& DATA_REQ_MODE_TIME_PERIOD ≠ 0 ∧
            mds.data_req_mode_capab.data_req_mode_flags &&& DATA_REQ_SUPP_MODE_TIME_PERIOD ≠ 0) ∨
          (data_req_mode &&& DATA_REQ_MODE_TIME_NO_LIMIT ≠ 0 ∧
            mds.data_req_mode_capab.data_req_mode_flags
              &&& DATA_REQ_SUPP_MODE_TIME_NO_LIMIT ≠ 0)) ∧
        ((data_req_mode &&& DATA_REQ_SCOPE_ALL ≠ 0 ∧
            mds.data_req_mode_capab.data_req_mode_flags &&& DATA_REQ_SUPP_SCOPE_ALL ≠ 0) ∨
          (data_req_mode &&& DATA_REQ_SCOPE_TYPE ≠ 0 ∧
            mds.data_req_mode_capab.data_req_mode_flags &&& DATA_REQ_SUPP_SCOPE_CLASS ≠ 0) ∨
          (data_req_mode &&& DATA_REQ_SCOPE_HANDLE ≠ 0 ∧
            mds.data_req_mode_capab.data_req_mode_flags &&& DATA_REQ_SUPP_SCOPE_HANDLE ≠ 0)) ∧
        (data_req_mode &&& DATA_REQ_MODE_DATA_REQ_PERSON_ID = 0 ∨
          mds.data_req_mode_capab.data_req_mode_flags &&& DATA_REQ_SUPP_PERSON_ID ≠ 0))) := by
  have hiff := (mds_is_supported_data_request_nonzero_iff mds data_req_mode).2
  constructor
  · intro hstart hcont hsup
    obtain ⟨htype, _⟩ := hiff.mp hsup
    rcases htype with h | h | h
    · exact absurd hstart h
    · exact absurd hcont h
    · exact h
  · intro hset
    rw [hiff]
    constructor
    · intro h
      exact h.2
    · intro h
      refine ⟨?_, h⟩
      rcases hset with hs | hc
      · exact Or.inl hs
      · exact Or.inr (Or.inl hc)

/-- Witness of C28: a stop request that is reported as supported by an Agent that advertises
every capability, DATA_REQ_SUPP_STOP included. -/
theorem C28_request_type_witness :
    sample_mode_stop &&& DATA_REQ_START_STOP = 0 ∧
      sample_mode_stop &&& DATA_REQ_CONTINUATION = 0 ∧
      mds_is_supported_data_request sample_mds_all_capab sample_mode_stop ≠ 0 ∧
      sample_mds_all_capab.data_req_mode_capab.data_req_mode_flags &&& DATA_REQ_SUPP_STOP ≠ 0 :=
  ⟨by decide, by decide, by decide,
    (C28_request_type sample_mds_all_capab sample_mode_stop).1
      (by decide) (by decide) (by decide)⟩

/-- C29: `mds_configure_operating` builds no sub-object for a ConfigObject whose class is
MDC_MOC_VMO_METRIC_SA_RT, MDC_MOC_VMO_METRIC, MDC_MOC_SCAN, MDC_MOC_SCAN_CFG or any class
other than Numeric, Enumeration, PMStore, EpiCfgScanner, PeriCfgScanner; on a context with an
MDS the number of sub-objects a call adds is the number of ConfigObjects of the list with one
of these five classes, and a list without such an object leaves the context, its object list
included, unchanged. -/
theorem C29_only_instantiated_classes_add (env : DimEnv) (ctx : Context) (mds : MDS)
    (config_obj_list : ConfigObjectList) (hctx : ctx.mds = some mds) :
    (∀ cfgObj : ConfigObject,
      (cfgObj.obj_class = MDC_MOC_VMO_METRIC_SA_RT ∨ cfgObj.obj_class = MDC_MOC_VMO_METRIC ∨
        cfgObj.obj_class = MDC_MOC_SCAN ∨ cfgObj.obj_class = MDC_MOC_SCAN_CFG ∨
        is_instantiated_class cfgObj.obj_class = false) →
      mds_configure_operating_object env cfgObj = none) ∧
    (∃ ctx' calls,
      mds_configure_operating env ctx config_obj_list = some (ctx', calls) ∧
      (mds_sub_objects ctx'.mds).length =
        (mds_sub_objects (some mds)).length +
          ((config_obj_list.value.take config_obj_list.count).filter
            (fun cfgObj => is_instantiated_class cfgObj.obj_class)).length) ∧
    ((∀ cfgObj ∈ config_obj_list.value.take config_obj_list.count,
        is_instantiated_class cfgObj.obj_class = false) →
      ∃ calls, mds_configure_operating env ctx config_obj_list = some (ctx, calls)) := by
  refine ⟨?_, ?_, ?_⟩
  · intro cfgObj hclass
    apply mds_configure_operating_object_none
    rcases hclass with h | h | h | h | h
    · rw [h]; decide
    · rw [h]; decide
    · rw [h]; decide
    · rw [h]; decide
    · exact h
  · obtain ⟨m', hrun, hsub⟩ := mds_configure_operating_some env ctx mds config_obj_list hctx
    refine ⟨_, _, hrun, ?_⟩
    show (mds_sub_objects (some m')).length = _
    rw [hsub, List.length_append]
    congr 1
    have hlen := congrArg List.length
      (built_objects_handles env (config_obj_list.value.take config_obj_list.count))
    simpa only [List.length_map] using hlen
  · intro hnone
    refine ⟨[MdsCall.service_init,
      MdsCall.manager_notify_evt_device_available
        { values := [mds_populate_attributes ctx.mds DataEntry.zero] }], ?_⟩
    unfold mds_configure_operating
    simp only [mds_configure_operating_loop_none env ctx.mds _ hnone]
    rfl

/-- Witness of C29: a list with an RTSA object, a Numeric object, a scanner base-class object
and an object of an unknown class adds one sub-object to the sample MDS. -/
theorem C29_only_instantiated_classes_add_witness :
    ∃ ctx' calls,
      mds_configure_operating sample_dim_env { mds := some sample_mds_two_objects }
          (sample_config_list
            [sample_config_object MDC_MOC_VMO_METRIC_SA_RT 3,
             sample_config_object MDC_MOC_VMO_METRIC_NU 4,
             sample_config_object MDC_MOC_SCAN 5,
             sample_config_object 0xFFFF 6]) = some (ctx', calls) ∧
      (mds_sub_objects ctx'.mds).length = 2 + 1 :=
  (C29_only_instantiated_classes_add sample_dim_env { mds := some sample_mds_two_objects }
    sample_mds_two_objects
    (sample_config_list
      [sample_config_object MDC_MOC_VMO_METRIC_SA_RT 3,
       sample_config_object MDC_MOC_VMO_METRIC_NU 4,
       sample_config_object MDC_MOC_SCAN 5,
       sample_config_object 0xFFFF 6]) rfl).2.1

/-- C30: for a received ConfigReport whose id is not a supported standard configuration,
(1) with an empty object list `configuring_perform_configuration` yields
STANDARD_CONFIG_UNKNOWN and calls neither `mds_configure_operating` nor the registry,
whatever `ext_configurations_is_supported_standard` answers; (2) whenever the id is a standard
one or the list is empty, the record does not depend on the registry functions at all;
(3) with a non-empty list and a registry that knows `(system_id, config_report_id)` the MDS is
configured from the cached list. -/
theorem C30_cached_configuration_branch (env : Env) (ctx : Context) (evt : fsm_events)
    (event_data : FSMEventData) (apdu : APDU)
    (hapdu : event_data.received_apdu = some apdu) :
    (env.std_configurations_is_supported_standard
        (received_config_report env apdu).config_report_id = false →
      (received_config_report env apdu).config_obj_list.count = 0 →
      configuring_perform_configuration env ctx evt (some event_data) =
        some [Call.communication_fire_evt .fsm_evt_req_agent_supplied_unknown_configuration
          (some { received_apdu := some apdu
                  choice := some .FSM_EVT_DATA_CONFIGURATION_RESULT
                  u := .configuration_result STANDARD_CONFIG_UNKNOWN })]) ∧
    ((env.std_configurations_is_supported_standard
          (received_config_report env apdu).config_report_id = true ∨
        (received_config_report env apdu).config_obj_list.count = 0) →
      ∀ (ext_is : Option octet_string → Nat → Bool)
        (ext_get : Option octet_string → Nat → ConfigObjectList),
        configuring_perform_configuration
            { env with
              ext_configurations_is_supported_standard := ext_is
              ext_configurations_get_configuration_attributes := ext_get }
            ctx evt (some event_data) =
          configuring_perform_configuration env ctx evt (some event_data)) ∧
    (env.std_configurations_is_supported_standard
        (received_config_report env apdu).config_report_id = false →
      (received_config_report env apdu).config_obj_list.count ≠ 0 →
      env.ext_configurations_is_supported_standard (ctx.mds.map (fun mds => mds.system_id))
        (received_config_report env apdu).config_report_id = true →
      configuring_perform_configuration env ctx evt (some event_data) =
        some [Call.mds_configure_operating
                (env.ext_configurations_get_configuration_attributes
                  (ctx.mds.map (fun mds => mds.system_id))
                  (received_config_report env apdu).config_report_id),
              Call.communication_fire_evt .fsm_evt_req_agent_supplied_known_configuration
                (some { received_apdu := some apdu
                        choice := some .FSM_EVT_DATA_CONFIGURATION_RESULT
                        u := .configuration_result ACCEPTED_CONFIG })]) := by
  have hne : STANDARD_CONFIG_UNKNOWN ≠ ACCEPTED_CONFIG := by decide
  refine ⟨?_, ?_, ?_⟩
  · intro hstd hcount
    have hres : configuring_evaluate_configuration_validity env (received_config_report env apdu)
        = STANDARD_CONFIG_UNKNOWN := by
      simp [configuring_evaluate_configuration_validity, hstd, hcount]
    rw [perform_configuration_eq env ctx evt event_data apdu hapdu]
    simp [hres, hne]
  · intro hcase ext_is ext_get
    rw [perform_configuration_eq env ctx evt event_data apdu hapdu,
      perform_configuration_eq _ ctx evt event_data apdu hapdu]
    rcases hcase with hstd | hcount
    · have hstd' : env.std_configurations_is_supported_standard
          (env.decode_configreport
            (encode_get_data_apdu apdu.u.prst).message.u.roiv_cmipConfirmedEventReport.event_info
            ).config_report_id = true := hstd
      simp [configuring_evaluate_configuration_validity, received_config_report, hstd']
    · have hcount' : (env.decode_configreport
            (encode_get_data_apdu apdu.u.prst).message.u.roiv_cmipConfirmedEventReport.event_info
            ).config_obj_list.count = 0 := hcount
      cases hstd : env.std_configurations_is_supported_standard
          (env.decode_configreport
            (encode_get_data_apdu apdu.u.prst).message.u.roiv_cmipConfirmedEventReport.event_info
            ).config_report_id with
      | true => simp [configuring_evaluate_configuration_validity, received_config_report, hstd]
      | false =>
        simp [configuring_evaluate_configuration_validity, received_config_report, hstd,
          hcount', hne]
  · intro hstd hcount hext
    have hres : configuring_evaluate_configuration_validity env (received_config_report env apdu)
        = ACCEPTED_CONFIG := by
      simp [configuring_evaluate_configuration_validity, hstd, hcount]
    rw [perform_configuration_eq env ctx evt event_data apdu hapdu]
    simp [hres, hstd, hext]

/-- Witness of C30: the sample report 0x4001 with an empty object list, in the environment
whose registry knows every extended configuration. -/
theorem C30_cached_configuration_branch_witness :
    sample_env_cached.ext_configurations_is_supported_standard
        (sample_ctx.mds.map (fun mds => mds.system_id)) 0x4001 = true ∧
    configuring_perform_configuration sample_env_cached sample_ctx
        .fsm_evt_rx_roiv_confirmed_event_report (some (sample_event_data sample_info_empty)) =
      some [Call.communication_fire_evt .fsm_evt_req_agent_supplied_unknown_configuration
        (some { received_apdu := some (sample_apdu ROIV_CMIP_CONFIRMED_EVENT_REPORT_CHOSEN
                  MDC_NOTI_CONFIG sample_info_empty)
                choice := some .FSM_EVT_DATA_CONFIGURATION_RESULT
                u := .configuration_result STANDARD_CONFIG_UNKNOWN })] :=
  ⟨rfl,
    (C30_cached_configuration_branch sample_env_cached sample_ctx
      .fsm_evt_rx_roiv_confirmed_event_report (sample_event_data sample_info_empty)
      (sample_apdu ROIV_CMIP_CONFIRMED_EVENT_REPORT_CHOSEN MDC_NOTI_CONFIG sample_info_empty)
      rfl).1 (by decide) (by decide)⟩

/-- C21: for every MDS and every AVA_Type whose attribute id is none of the eighteen
recognised MDS attribute ids, `mds_set_attribute` returns the MDS as it was: every field, the
sub-object list included, is unchanged (the function has no error result). -/
theorem C21_unknown_attribute_noop (env : DecodeEnv) (mds : MDS) (ava : AVA_Type)
    (h1 : ava.attribute_id ≠ MDC_ATTR_ID_HANDLE)
    (h2 : ava.attribute_id ≠ MDC_ATTR_SYS_TYPE)
    (h3 : ava.attribute_id ≠ MDC_ATTR_ID_MODEL)
    (h4 : ava.attribute_id ≠ MDC_ATTR_SYS_ID)
    (h5 : ava.attribute_id ≠ MDC_ATTR_DEV_CONFIG_ID)
    (h6 : ava.attribute_id ≠ MDC_ATTR_ATTRIBUTE_VAL_MAP)
    (h7 : ava.attribute_id ≠ MDC_ATTR_ID_PROD_SPECN)
    (h8 : ava.attribute_id ≠ MDC_ATTR_MDS_TIME_INFO)
    (h9 : ava.attribute_id ≠ MDC_ATTR_TIME_ABS)
    (h10 : ava.attribute_id ≠ MDC_ATTR_TIME_REL)
    (h11 : ava.attribute_id ≠ MDC_ATTR_TIME_REL_HI_RES)
    (h12 : ava.attribute_id ≠ MDC_ATTR_TIME_ABS_ADJUST)
    (h13 : ava.attribute_id ≠ MDC_ATTR_POWER_STAT)
    (h14 : ava.attribute_id ≠ MDC_ATTR_VAL_BATT_CHARGE)
    (h15 : ava.attribute_id ≠ MDC_ATTR_TIME_BATT_REMAIN)
    (h16 : ava.attribute_id ≠ MDC_ATTR_REG_CERT_DATA_LIST)
    (h17 : ava.attribute_id ≠ MDC_ATTR_SYS_TYPE_SPEC_LIST)
    (h18 : ava.attribute_id ≠ MDC_ATTR_CONFIRM_TIMEOUT) :
    mds_set_attribute env mds ava = mds := by
  unfold mds_set_attribute
  simp only [h1, h2, h3, h4, h5, h6, h7, h8, h9, h10, h11, h12, h13, h14, h15, h16, h17, h18,
    if_false]

/-- Witness of C21: the unknown attribute id 0xFFFF on the sample MDS with two sub-objects. -/
theorem C21_unknown_attribute_noop_witness :
    mds_set_attribute sample_decode_env sample_mds_two_objects
        { attribute_id := 0xFFFF, attribute_value := { length := 2, value := [0x12, 0x34] } } =
      sample_mds_two_objects :=
  C21_unknown_attribute_noop sample_decode_env sample_mds_two_objects
    { attribute_id := 0xFFFF, attribute_value := { length := 2, value := [0x12, 0x34] } }
    (by decide) (by decide) (by decide) (by decide) (by decide) (by decide) (by decide)
    (by decide) (by decide) (by decide) (by decide) (by decide) (by decide) (by decide)
    (by decide) (by decide) (by decide) (by decide)

/-- C25 (as stated) fails: on a supported request `mds_service_action_data_request` hands the
APDU to `service_send_remote_operation_request` with NO_TIMEOUT, which has no expiry handler
and is not a timeout of 3 seconds. -/
theorem C25_counterexample :
    ∃ apdu,
      (mds_service_action_data_request sample_service_env sample_ctx_single_all
          sample_mode_single_all none none 0 true).2 =
        [MdsCall.service_send_remote_operation_request apdu NO_TIMEOUT 0] ∧
      NO_TIMEOUT.func = none ∧ NO_TIMEOUT.timeout ≠ 3 :=
  ⟨_, rfl, rfl, by decide⟩

/-- C25 (amended): `mds_service_get` passes a timeout of MDS_TO_GET = 3 seconds to
`operating_service_get`, `mds_service_action_set_time` passes MDS_TO_CONFIRM_ACTION = 3
seconds to `operating_action_set_time`, and `mds_service_action_data_request` passes
NO_TIMEOUT to `service_send_remote_operation_request` whenever it sends the request. -/
theorem C25_service_timeouts :
    (∀ (env : OperatingEnv) (ctx : Context) (attributeids_list : Option (List Nat))
        (attributeids_list_count request_callback : Nat),
      (mds_service_get env ctx attributeids_list attributeids_list_count request_callback).2 =
        [MdsCall.operating_service_get attributeids_list attributeids_list_count 3
          request_callback]) ∧
    (∀ (env : OperatingEnv) (ctx : Context) (time : SetTimeInvoke) (request_callback : Nat),
      (mds_service_action_set_time env ctx time request_callback).2 =
        [MdsCall.operating_action_set_time time 3 request_callback]) ∧
    (∀ (env : ServiceEnv) (ctx : Context) (data_req_mode : Nat) (class_id : Option Nat)
        (handle_list : Option HANDLEList) (request_callback : Nat) (allocated : Bool)
        (apdu : APDU) (timeout : timeout_callback) (callback : Nat),
      MdsCall.service_send_remote_operation_request apdu timeout callback ∈
          (mds_service_action_data_request env ctx data_req_mode class_id handle_list
            request_callback allocated).2 →
        timeout = NO_TIMEOUT) := by
  refine ⟨fun _ _ _ _ _ => rfl, fun _ _ _ _ => rfl, ?_⟩
  intro env ctx data_req_mode class_id handle_list request_callback allocated apdu timeout
    callback hmem
  unfold mds_service_action_data_request at hmem
  cases hmds : ctx.mds with
  | none => simp [hmds] at hmem
  | some mds =>
    simp only [hmds] at hmem
    split_ifs at hmem
    · simp only [List.mem_singleton, MdsCall.service_send_remote_operation_request.injEq] at hmem
      exact hmem.2.1
    · simp at hmem
    · simp at hmem

/-- Witness of C25 (amended): the sample supported data request is sent, and the timeout it is
sent with is NO_TIMEOUT. -/
theorem C25_service_timeouts_witness :
    ∃ apdu timeout,
      (mds_service_action_data_request sample_service_env sample_ctx_single_all
          sample_mode_single_all none none 0 true).2 =
        [MdsCall.service_send_remote_operation_request apdu timeout 0] ∧
      timeout = NO_TIMEOUT :=
  ⟨_, NO_TIMEOUT, rfl,
    C25_service_timeouts.2.2 sample_service_env sample_ctx_single_all sample_mode_single_all
      none none 0 true _ NO_TIMEOUT 0 (List.Mem.head _)⟩

/-- C27 (as stated) fails: for a handle list of 32767 handles (65534 bytes) the 16-bit field
`action_info_args.length` of the data request holds 14, not 16 + 65534. -/
theorem C27_counterexample :
    ∃ apdu : APDU,
      (mds_service_action_data_request sample_service_env sample_ctx_single_all
          sample_mode_single_all none
          (some { count := 32767, length := 65534, value := List.replicate 32767 1 }) 0
          true).2 =
        [MdsCall.service_send_remote_operation_request apdu NO_TIMEOUT 0] ∧
      (encode_get_data_apdu apdu.u.prst).message.u.roiv_cmipConfirmedAction.action_info_args.length =
        14 ∧
      (encode_get_data_apdu apdu.u.prst).message.u.roiv_cmipConfirmedAction.action_info_args.length ≠
        16 + 65534 :=
  ⟨_, rfl, by decide, by decide⟩

/-- C27 (amended): with the wire sizes of the types (2 bytes for intu16, HANDLE, OID_Type,
InvokeIDType and DATA_apdu_choice, 4 bytes for RelativeTime and ConfigReportRsp), the length
fields of the two APDUs are nested as follows.  (1) For the configuration response:
`event_reply_info.length` = 4, `message.length` = 10 + `event_reply_info.length`,
`prst.length` = `message.length` + 6, `apdu.length` = `prst.length` + 2 = 22.  (2) For the
data request that is sent, with an encoder that leaves the size of the writer as allocated,
and a handle list whose byte length `n` (0 for a NULL list) satisfies 30 + n ≤ 65535:
`action_info_args.length` = 16 + n, `message.length` = 6 + `action_info_args.length`,
`prst.length` = `message.length` + 6, `apdu.length` = `prst.length` + 2.  (3) Without the
bound each 16-bit field holds its sum modulo 2^16. -/
theorem C27_apdu_lengths (env : Env) (evt : fsm_events) (event_data : FSMEventData)
    (received : APDU) (configuration_result : Nat)
    (senv : ServiceEnv) (ctx : Context) (mds : MDS) (data_req_mode : Nat)
    (class_id : Option Nat) (handle_list : Option HANDLEList) (request_callback : Nat)
    (hapdu : event_data.received_apdu = some received)
    (hu : event_data.u = .configuration_result configuration_result)
    (hctx : ctx.mds = some mds)
    (hsupported : mds_is_supported_data_request mds data_req_mode ≠ 0)
    (hwriter : ∀ writer request, (senv.encode_datarequest writer request).size = writer.size) :
    (∃ apdu : APDU,
      configuring_configuration_response_tx env evt (some event_data) =
        some [Call.communication_send_apdu apdu] ∧
      (encode_get_data_apdu apdu.u.prst).message.u.rors_cmipConfirmedEventReport.event_reply_info.length
        = 4 ∧
      (encode_get_data_apdu apdu.u.prst).message.length =
        10 + (encode_get_data_apdu apdu.u.prst).message.u.rors_cmipConfirmedEventReport.event_reply_info.length ∧
      apdu.u.prst.length = (encode_get_data_apdu apdu.u.prst).message.length + 6 ∧
      apdu.length = apdu.u.prst.length + 2 ∧
      apdu.length = 22) ∧
    (30 + (match handle_list with
        | some l => l.length
        | none => 0) ≤ 65535 →
      ∃ apdu : APDU,
        (mds_service_action_data_request senv ctx data_req_mode class_id handle_list
            request_callback true).2 =
          [MdsCall.service_send_remote_operation_request apdu NO_TIMEOUT request_callback] ∧
        (encode_get_data_apdu apdu.u.prst).message.u.roiv_cmipConfirmedAction.action_info_args.length =
          16 + (match handle_list with
            | some l => l.length
            | none => 0) ∧
        (encode_get_data_apdu apdu.u.prst).message.length =
          6 + (encode_get_data_apdu apdu.u.prst).message.u.roiv_cmipConfirmedAction.action_info_args.length ∧
        apdu.u.prst.length = (encode_get_data_apdu apdu.u.prst).message.length + 6 ∧
        apdu.length = apdu.u.prst.length + 2) ∧
    (∃ apdu : APDU,
      (mds_service_action_data_request senv ctx data_req_mode class_id handle_list
          request_callback true).2 =
        [MdsCall.service_send_remote_operation_request apdu NO_TIMEOUT request_callback] ∧
      (encode_get_data_apdu apdu.u.prst).message.u.roiv_cmipConfirmedAction.action_info_args.length =
        (16 + (match handle_list with
          | some l => l.length
          | none => 0)) % 2 ^ 16 ∧
      (encode_get_data_apdu apdu.u.prst).message.length =
        (6 + (encode_get_data_apdu apdu.u.prst).message.u.roiv_cmipConfirmedAction.action_info_args.length)
          % 2 ^ 16 ∧
      apdu.u.prst.length = ((encode_get_data_apdu apdu.u.prst).message.length + 6) % 2 ^ 16 ∧
      apdu.length = (apdu.u.prst.length + 2) % 2 ^ 16) := by
  have hsize : ∀ request : DataRequest,
      (senv.encode_datarequest
          (byte_stream_writer_instance
            (sizeof_DataReqId + sizeof_DataReqMode + sizeof_RelativeTime + sizeof_intu16
              + sizeof_OID_Type + 2 * sizeof_intu16
              + (match handle_list with
                | some l => l
                | none => { count := 0, length := 0, value := [] }).length))
          request).size =
        16 + (match handle_list with
          | some l => l.length
          | none => 0) := by
    intro request
    rw [hwriter]
    simp only [byte_stream_writer_instance, sizeof_DataReqId, sizeof_DataReqMode,
      sizeof_RelativeTime, sizeof_intu16, sizeof_OID_Type]
    cases handle_list <;> simp
  refine ⟨?_, ?_, ?_⟩
  · unfold configuring_configuration_response_tx
    simp only [hapdu, hu]
    exact ⟨_, rfl, rfl, rfl, rfl, rfl, rfl⟩
  · intro hbound
    unfold mds_service_action_data_request
    simp only [hctx, hsupported, ne_eq, not_false_eq_true, if_true]
    refine ⟨_, rfl, ?_, ?_, ?_, ?_⟩
    · simp only [encode_get_data_apdu, hsize]
      exact Nat.mod_eq_of_lt (by omega)
    · simp only [encode_get_data_apdu, hsize]
      simp only [sizeof_intu16, sizeof_OID_Type, sizeof_HANDLE]
      omega
    · simp only [encode_get_data_apdu, hsize]
      simp only [sizeof_intu16, sizeof_OID_Type, sizeof_HANDLE, sizeof_DATA_apdu_choice,
        sizeof_InvokeIDType]
      omega
    · simp only [encode_get_data_apdu, hsize]
      simp only [sizeof_intu16, sizeof_OID_Type, sizeof_HANDLE, sizeof_DATA_apdu_choice,
        sizeof_InvokeIDType]
      omega
  · unfold mds_service_action_data_request
    simp only [hctx, hsupported, ne_eq, not_false_eq_true, if_true]
    refine ⟨_, rfl, ?_, ?_, ?_, ?_⟩
    · simp only [encode_get_data_apdu, hsize]
    · simp only [encode_get_data_apdu, hsize]
      simp only [sizeof_intu16, sizeof_OID_Type, sizeof_HANDLE]
      omega
    · simp only [encode_get_data_apdu, sizeof_intu16, sizeof_DATA_apdu_choice,
        sizeof_InvokeIDType]
    · simp only [sizeof_intu16]

/-- Witness of C27 (amended): the reply to the sample extended report and the sample
supported data request with a list of two handles. -/
theorem C27_apdu_lengths_witness :
    (∃ apdu : APDU,
      configuring_configuration_response_tx sample_env
          .fsm_evt_req_agent_supplied_known_configuration
          (some { received_apdu := some (sample_apdu ROIV_CMIP_CONFIRMED_EVENT_REPORT_CHOSEN
                    MDC_NOTI_CONFIG sample_info_extended)
                  choice := some .FSM_EVT_DATA_CONFIGURATION_RESULT
                  u := .configuration_result ACCEPTED_CONFIG }) =
        some [Call.communication_send_apdu apdu] ∧
      (encode_get_data_apdu apdu.u.prst).message.u.rors_cmipConfirmedEventReport.event_reply_info.length
        = 4 ∧
      (encode_get_data_apdu apdu.u.prst).message.length =
        10 + (encode_get_data_apdu apdu.u.prst).message.u.rors_cmipConfirmedEventReport.event_reply_info.length ∧
      apdu.u.prst.length = (encode_get_data_apdu apdu.u.prst).message.length + 6 ∧
      apdu.length = apdu.u.prst.length + 2 ∧
      apdu.length = 22) ∧
    (∃ apdu : APDU,
      (mds_service_action_data_request sample_service_env sample_ctx_single_all
          sample_mode_single_all none (some { count := 2, length := 4, value := [1, 2] }) 0
          true).2 =
        [MdsCall.service_send_remote_operation_request apdu NO_TIMEOUT 0] ∧
      (encode_get_data_apdu apdu.u.prst).message.u.roiv_cmipConfirmedAction.action_info_args.length =
        16 + 4 ∧
      (encode_get_data_apdu apdu.u.prst).message.length =
        6 + (encode_get_data_apdu apdu.u.prst).message.u.roiv_cmipConfirmedAction.action_info_args.length ∧
      apdu.u.prst.length = (encode_get_data_apdu apdu.u.prst).message.length + 6 ∧
      apdu.length = apdu.u.prst.length + 2) :=
  ⟨(C27_apdu_lengths sample_env .fsm_evt_req_agent_supplied_known_configuration
      { received_apdu := some (sample_apdu ROIV_CMIP_CONFIRMED_EVENT_REPORT_CHOSEN
          MDC_NOTI_CONFIG sample_info_extended)
        choice := some .FSM_EVT_DATA_CONFIGURATION_RESULT
        u := .configuration_result ACCEPTED_CONFIG }
      (sample_apdu ROIV_CMIP_CONFIRMED_EVENT_REPORT_CHOSEN MDC_NOTI_CONFIG sample_info_extended)
      ACCEPTED_CONFIG sample_service_env sample_ctx_single_all sample_mds_single_all
      sample_mode_single_all none (some { count := 2, length := 4, value := [1, 2] }) 0
      rfl rfl rfl (by decide) (fun _ _ => rfl)).1,
    (C27_apdu_lengths sample_env .fsm_evt_req_agent_supplied_known_configuration
      { received_apdu := some (sample_apdu ROIV_CMIP_CONFIRMED_EVENT_REPORT_CHOSEN
          MDC_NOTI_CONFIG sample_info_extended)
        choice := some .FSM_EVT_DATA_CONFIGURATION_RESULT
        u := .configuration_result ACCEPTED_CONFIG }
      (sample_apdu ROIV_CMIP_CONFIRMED_EVENT_REPORT_CHOSEN MDC_NOTI_CONFIG sample_info_extended)
      ACCEPTED_CONFIG sample_service_env sample_ctx_single_all sample_mds_single_all
      sample_mode_single_all none (some { count := 2, length := 4, value := [1, 2] }) 0
      rfl rfl rfl (by decide) (fun _ _ => rfl)).2.1 (by decide)⟩

/-- The observation loop, started at index `i` on a list whose first `i` entries are done and
whose remaining entries are still zeroed, applies the observations as `apply_observations`
does and writes the outputs to the entries `i`, `i+1`, ... -/
theorem observation_loop_eq {α : Type}
    (body : Option MDS → α → DataEntry → Option MDS × DataEntry)
    (calls : α → Nat → List MdsCall) (obs : List α) :
    ∀ (i : Nat) (mds : Option MDS) (done : List DataEntry) (k : Nat),
      done.length = i → obs.length ≤ k →
      observation_loop body calls obs i mds (done ++ List.replicate k DataEntry.zero) =
        ((apply_observations body mds obs).1,
          done ++ (apply_observations body mds obs).2 ++
            List.replicate (k - obs.length) DataEntry.zero,
          (obs.enumFrom i).flatMap (fun p => calls p.2 p.1)) := by
  induction obs with
  | nil =>
    intro i mds done k _ _
    simp [observation_loop, apply_observations]
  | cons o rest ih =>
    intro i mds done k hdone hlen
    obtain ⟨k', rfl⟩ : ∃ k', k = k' + 1 := ⟨k - 1, by simp at hlen; omega⟩
    have hget : (done ++ List.replicate (k' + 1) DataEntry.zero).getD i DataEntry.zero =
        DataEntry.zero := by
      rw [List.getD_append_right _ _ _ _ (by omega), hdone, Nat.sub_self]
      rfl
    have hset : ∀ e : DataEntry,
        (done ++ List.replicate (k' + 1) DataEntry.zero).set i e =
          (done ++ [e]) ++ List.replicate k' DataEntry.zero := by
      intro e
      rw [List.set_append_right _ _ (by omega), hdone, Nat.sub_self, List.replicate_succ,
        List.set_cons_zero, List.append_assoc]
      rfl
    have hrest : rest.length ≤ k' := by
      simp only [List.length_cons] at hlen
      omega
    unfold observation_loop
    simp only [hget, hset]
    rw [ih (i + 1) _ (done ++ [(body mds o DataEntry.zero).2]) k'
      (by simp [hdone]) hrest]
    simp [apply_observations, List.enumFrom_cons, List.flatMap_cons]

/-- The body of a scan report function is the effect the spec words. -/
theorem scan_report_body_eq {α : Type}
    (body : Option MDS → α → DataEntry → Option MDS × DataEntry)
    (calls : α → Nat → List MdsCall) (ctx : Context) (count : Nat) (value : List α) :
    (if count > 0 then
        ({ ctx with
            mds := (observation_loop body calls (value.take count) 0 ctx.mds
              (data_list_new count).values).1 },
          (observation_loop body calls (value.take count) 0 ctx.mds
              (data_list_new count).values).2.2 ++
            [MdsCall.manager_notify_evt_measurement_data_updated
              { values := (observation_loop body calls (value.take count) 0 ctx.mds
                  (data_list_new count).values).2.1 }])
      else (ctx, [])) =
      scan_report_effect body calls ctx count value := by
  unfold scan_report_effect
  by_cases h0 : count = 0
  · simp [h0]
  · have hpos : count > 0 := Nat.pos_of_ne_zero h0
    have hloop := observation_loop_eq body calls (value.take count) 0 ctx.mds [] count rfl
      (List.length_take_le _ _)
    simp only [List.nil_append] at hloop
    simp only [h0, hpos, if_true, if_false, data_list_new, hloop, List.enum]

/-- A record built from calls that are no notifications holds no notification. -/
theorem measurement_notifications_flatMap {γ : Type} (f : γ → List MdsCall) (l : List γ)
    (h : ∀ x, measurement_notifications (f x) = []) :
    measurement_notifications (l.flatMap f) = [] := by
  induction l with
  | nil => rfl
  | cons x rest ih =>
    unfold measurement_notifications at ih h ⊢
    rw [List.flatMap_cons, List.filter_append, ih, h x]
    rfl

/-- The effect of one scan report holds exactly one notification when the count is not 0,
and none otherwise, provided the calls of the loop body are no notifications. -/
theorem scan_report_effect_notifications {α : Type}
    (body : Option MDS → α → DataEntry → Option MDS × DataEntry)
    (calls : α → Nat → List MdsCall) (ctx : Context) (count : Nat) (value : List α)
    (h : ∀ obs i, measurement_notifications (calls obs i) = []) :
    (measurement_notifications (scan_report_effect body calls ctx count value).2).length =
      if count = 0 then 0 else 1 := by
  unfold scan_report_effect
  by_cases h0 : count = 0
  · simp [h0, measurement_notifications]
  · simp only [h0, if_false]
    have hflat := measurement_notifications_flatMap (fun p : Nat × α => calls p.2 p.1)
      (value.take count).enum (fun p => h p.2 p.1)
    unfold measurement_notifications at hflat ⊢
    rw [List.filter_append, hflat]
    rfl

/-- The person loop, with a body that is a given effect in every iteration, is the fold of
`multi_person_effect`, started on any state. -/
theorem person_loop_eq_fold {β : Type} (body : Nat → Context → β → Context × List MdsCall)
    (effect : Context → β → Context × List MdsCall)
    (h : ∀ i c person, body i c person = effect c person) (persons : List β) :
    ∀ (i : Nat) (ctx : Context) (done : List MdsCall),
      persons.foldl
          (fun state person => ((effect state.1 person).1, state.2 ++ (effect state.1 person).2))
          (ctx, done) =
        ((person_loop body persons i ctx).1, done ++ (person_loop body persons i ctx).2) := by
  induction persons with
  | nil =>
    intro i ctx done
    simp [person_loop]
  | cons person rest ih =>
    intro i ctx done
    rw [List.foldl_cons, ih (i + 1)]
    simp only [person_loop, h, List.append_assoc]

/-- The person loop with a body that is a given effect is `multi_person_effect`. -/
theorem person_loop_eq_effect {β : Type} (body : Nat → Context → β → Context × List MdsCall)
    (effect : Context → β → Context × List MdsCall)
    (h : ∀ i c person, body i c person = effect c person) (persons : List β) (ctx : Context) :
    person_loop body persons 0 ctx = multi_person_effect effect ctx persons := by
  unfold multi_person_effect
  rw [person_loop_eq_fold body effect h persons 0 ctx []]
  rfl

/-- The person loop with a body that does nothing does nothing. -/
theorem person_loop_skip {β : Type} (body : Nat → Context → β → Context × List MdsCall)
    (h : ∀ i c person, body i c person = (c, [])) (persons : List β) :
    ∀ (i : Nat) (ctx : Context), person_loop body persons i ctx = (ctx, []) := by
  induction persons with
  | nil =>
    intro i ctx
    rfl
  | cons person rest ih =>
    intro i ctx
    simp only [person_loop, h, ih, List.append_nil]

/-- The person loop holds one notification per person entry whose count is not 0, provided
the body, in every iteration and for every context and person, is the effect the spec words. -/
theorem person_loop_notifications {α β : Type}
    (loop_body : Nat → Context → β → Context × List MdsCall)
    (body : β → Option MDS → α → DataEntry → Option MDS × DataEntry)
    (calls : β → α → Nat → List MdsCall) (count : β → Nat) (value : β → List α)
    (hbody : ∀ i c person,
      loop_body i c person =
        scan_report_effect (body person) (calls person) c (count person) (value person))
    (h : ∀ person obs i, measurement_notifications (calls person obs i) = [])
    (persons : List β) :
    ∀ (i : Nat) (ctx : Context),
      (measurement_notifications (person_loop loop_body persons i ctx).2).length =
        (persons.filter (fun person => count person ≠ 0)).length := by
  induction persons with
  | nil =>
    intro i ctx
    rfl
  | cons person rest ih =>
    intro i ctx
    have hone := scan_report_effect_notifications (body person) (calls person) ctx
      (count person) (value person) (h person)
    have hrest := ih (i + 1) (scan_report_effect (body person) (calls person) ctx (count person)
      (value person)).1
    unfold person_loop
    unfold measurement_notifications at hone hrest ⊢
    simp only [hbody, List.filter_append, List.length_append, hone, hrest]
    by_cases h0 : count person = 0
    · simp [h0]
    · simp [h0]
      omega

/-- C22: when `data_list_new` returns a list: (1), (2) for every ScanReportInfoVar (resp.
ScanReportInfoFixed) with a count of n observations,
`mds_event_report_dynamic_data_update_var` (resp. `_fixed`) does nothing when n = 0 and
otherwise applies the observations once each, in order, through the update helper with the
i-th entry of the list as output, and then emits the list of n entries through one
measurement-data-updated notification; (3), (4) the multi-person variants do the same once
per person entry, in order, each on the context the previous entry left, after setting the
personal id of the entry; (5)-(8) the number of notifications is 1 or 0 for the single-person
functions and the number of person entries with a non-zero count for the multi-person
functions.  (9)-(12) When `data_list_new` returns NULL nothing is applied and nothing is
emitted. -/
theorem C22_event_report_updates (env : UpdateEnv) (ctx : Context) :
    (∀ info_var : ScanReportInfoVar,
      mds_event_report_dynamic_data_update_var env ctx true info_var =
        scan_report_effect env.dimutil_update_mds_from_obs_scan
          (fun obs i => [MdsCall.dimutil_update_mds_from_obs_scan obs i])
          ctx info_var.obs_scan_var.count info_var.obs_scan_var.value) ∧
    (∀ info_fixed : ScanReportInfoFixed,
      mds_event_report_dynamic_data_update_fixed env ctx true info_fixed =
        scan_report_effect env.dimutil_update_mds_from_obs_scan_fixed
          (fun obs i => [MdsCall.dimutil_update_mds_from_obs_scan_fixed obs i])
          ctx info_fixed.obs_scan_fixed.count info_fixed.obs_scan_fixed.value) ∧
    (∀ info_mp_var : ScanReportInfoMPVar,
      mds_event_report_dynamic_data_update_mp_var env ctx (fun _ => true) info_mp_var =
        multi_person_effect
          (fun c (person : ScanReportPerVar) =>
            scan_report_effect
              (fun mds obs entry =>
                env.dimutil_update_mds_from_obs_scan mds obs
                  (env.data_meta_set_personal_id entry person.person_id))
              (fun obs j =>
                [MdsCall.data_meta_set_personal_id j person.person_id,
                 MdsCall.dimutil_update_mds_from_obs_scan obs j])
              c person.obs_scan_var.count person.obs_scan_var.value)
          ctx (info_mp_var.scan_per_var.value.take info_mp_var.scan_per_var.count)) ∧
    (∀ info_mp_fixed : ScanReportInfoMPFixed,
      mds_event_report_dynamic_data_update_mp_fixed env ctx (fun _ => true) info_mp_fixed =
        multi_person_effect
          (fun c (person : ScanReportPerFixed) =>
            scan_report_effect
              (fun mds obs entry =>
                env.dimutil_update_mds_from_obs_scan_fixed mds obs
                  (env.data_meta_set_personal_id entry person.person_id))
              (fun obs j =>
                [MdsCall.data_meta_set_personal_id j person.person_id,
                 MdsCall.dimutil_update_mds_from_obs_scan_fixed obs j])
              c person.obs_scan_fix.count person.obs_scan_fix.value)
          ctx (info_mp_fixed.scan_per_fixed.value.take info_mp_fixed.scan_per_fixed.count)) ∧
    (∀ info_var : ScanReportInfoVar,
      (measurement_notifications
        (mds_event_report_dynamic_data_update_var env ctx true info_var).2).length =
        if info_var.obs_scan_var.count = 0 then 0 else 1) ∧
    (∀ info_fixed : ScanReportInfoFixed,
      (measurement_notifications
        (mds_event_report_dynamic_data_update_fixed env ctx true info_fixed).2).length =
        if info_fixed.obs_scan_fixed.count = 0 then 0 else 1) ∧
    (∀ info_mp_var : ScanReportInfoMPVar,
      (measurement_notifications
        (mds_event_report_dynamic_data_update_mp_var env ctx (fun _ => true)
          info_mp_var).2).length =
        ((info_mp_var.scan_per_var.value.take info_mp_var.scan_per_var.count).filter
          (fun person => person.obs_scan_var.count ≠ 0)).length) ∧
    (∀ info_mp_fixed : ScanReportInfoMPFixed,
      (measurement_notifications
        (mds_event_report_dynamic_data_update_mp_fixed env ctx (fun _ => true)
          info_mp_fixed).2).length =
        ((info_mp_fixed.scan_per_fixed.value.take info_mp_fixed.scan_per_fixed.count).filter
          (fun person => person.obs_scan_fix.count ≠ 0)).length) ∧
    (∀ info_var : ScanReportInfoVar,
      mds_event_report_dynamic_data_update_var env ctx false info_var = (ctx, [])) ∧
    (∀ info_fixed : ScanReportInfoFixed,
      mds_event_report_dynamic_data_update_fixed env ctx false info_fixed = (ctx, [])) ∧
    (∀ info_mp_var : ScanReportInfoMPVar,
      mds_event_report_dynamic_data_update_mp_var env ctx (fun _ => false) info_mp_var =
        (ctx, [])) ∧
    (∀ info_mp_fixed : ScanReportInfoMPFixed,
      mds_event_report_dynamic_data_update_mp_fixed env ctx (fun _ => false) info_mp_fixed =
        (ctx, [])) := by
  have hvar : ∀ (c : Context) (info_var : ScanReportInfoVar),
      mds_event_report_dynamic_data_update_var env c true info_var =
        scan_report_effect env.dimutil_update_mds_from_obs_scan
          (fun obs i => [MdsCall.dimutil_update_mds_from_obs_scan obs i])
          c info_var.obs_scan_var.count info_var.obs_scan_var.value := by
    intro c info_var
    unfold mds_event_report_dynamic_data_update_var
    exact scan_report_body_eq _ _ c _ _
  have hfixed : ∀ (c : Context) (info_fixed : ScanReportInfoFixed),
      mds_event_report_dynamic_data_update_fixed env c true info_fixed =
        scan_report_effect env.dimutil_update_mds_from_obs_scan_fixed
          (fun obs i => [MdsCall.dimutil_update_mds_from_obs_scan_fixed obs i])
          c info_fixed.obs_scan_fixed.count info_fixed.obs_scan_fixed.value := by
    intro c info_fixed
    unfold mds_event_report_dynamic_data_update_fixed
    exact scan_report_body_eq _ _ c _ _
  have hpvar : ∀ (i : Nat) (c : Context) (person : ScanReportPerVar),
      mds_event_report_dynamic_data_update_mp_var_person env c ((fun _ : Nat => true) i) person =
        scan_report_effect
          (fun mds obs entry =>
            env.dimutil_update_mds_from_obs_scan mds obs
              (env.data_meta_set_personal_id entry person.person_id))
          (fun obs j =>
            [MdsCall.data_meta_set_personal_id j person.person_id,
             MdsCall.dimutil_update_mds_from_obs_scan obs j])
          c person.obs_scan_var.count person.obs_scan_var.value := by
    intro i c person
    unfold mds_event_report_dynamic_data_update_mp_var_person
    exact scan_report_body_eq _ _ c _ _
  have hpfixed : ∀ (i : Nat) (c : Context) (person : ScanReportPerFixed),
      mds_event_report_dynamic_data_update_mp_fixed_person env c ((fun _ : Nat => true) i)
          person =
        scan_report_effect
          (fun mds obs entry =>
            env.dimutil_update_mds_from_obs_scan_fixed mds obs
              (env.data_meta_set_personal_id entry person.person_id))
          (fun obs j =>
            [MdsCall.data_meta_set_personal_id j person.person_id,
             MdsCall.dimutil_update_mds_from_obs_scan_fixed obs j])
          c person.obs_scan_fix.count person.obs_scan_fix.value := by
    intro i c person
    unfold mds_event_report_dynamic_data_update_mp_fixed_person
    exact scan_report_body_eq _ _ c _ _
  refine ⟨hvar ctx, hfixed ctx, ?_, ?_, ?_, ?_, ?_, ?_, fun _ => rfl, fun _ => rfl, ?_, ?_⟩
  · intro info_mp_var
    unfold mds_event_report_dynamic_data_update_mp_var
    exact person_loop_eq_effect _ _ hpvar _ ctx
  · intro info_mp_fixed
    unfold mds_event_report_dynamic_data_update_mp_fixed
    exact person_loop_eq_effect _ _ hpfixed _ ctx
  · intro info_var
    rw [hvar]
    exact scan_report_effect_notifications _ _ _ _ _ (fun _ _ => rfl)
  · intro info_fixed
    rw [hfixed]
    exact scan_report_effect_notifications _ _ _ _ _ (fun _ _ => rfl)
  · intro info_mp_var
    unfold mds_event_report_dynamic_data_update_mp_var
    exact person_loop_notifications _
      (fun (person : ScanReportPerVar) mds obs entry =>
        env.dimutil_update_mds_from_obs_scan mds obs
          (env.data_meta_set_personal_id entry person.person_id))
      (fun (person : ScanReportPerVar) obs j =>
        [MdsCall.data_meta_set_personal_id j person.person_id,
         MdsCall.dimutil_update_mds_from_obs_scan obs j])
      (fun person => person.obs_scan_var.count) (fun person => person.obs_scan_var.value)
      hpvar (fun _ _ _ => rfl) _ 0 ctx
  · intro info_mp_fixed
    unfold mds_event_report_dynamic_data_update_mp_fixed
    exact person_loop_notifications _
      (fun (person : ScanReportPerFixed) mds obs entry =>
        env.dimutil_update_mds_from_obs_scan_fixed mds obs
          (env.data_meta_set_personal_id entry person.person_id))
      (fun (person : ScanReportPerFixed) obs j =>
        [MdsCall.data_meta_set_personal_id j person.person_id,
         MdsCall.dimutil_update_mds_from_obs_scan_fixed obs j])
      (fun person => person.obs_scan_fix.count) (fun person => person.obs_scan_fix.value)
      hpfixed (fun _ _ _ => rfl) _ 0 ctx
  · intro info_mp_var
    unfold mds_event_report_dynamic_data_update_mp_var
    exact person_loop_skip _ (fun _ _ _ => rfl) _ 0 ctx
  · intro info_mp_fixed
    unfold mds_event_report_dynamic_data_update_mp_fixed
    exact person_loop_skip _ (fun _ _ _ => rfl) _ 0 ctx

/-- C31: (1) for every APDU that is not a PRST carrying a ROIV confirmed event report with
event type MDC_NOTI_CONFIG, `configuring_waiting_state_process_apdu` makes no call of
`communication_reset_timeout`; (2) for every APDU it fires at most one FSM event. -/
theorem C31_timeout_reset_only_by_config_report (env : Env) (apdu : APDU)
    (hnot : ¬ (apdu.choice = PRST_CHOSEN ∧
      (encode_get_data_apdu apdu.u.prst).message.choice =
        ROIV_CMIP_CONFIRMED_EVENT_REPORT_CHOSEN ∧
      (encode_get_data_apdu apdu.u.prst).message.u.roiv_cmipConfirmedEventReport.event_type =
        MDC_NOTI_CONFIG)) :
    Call.communication_reset_timeout ∉ configuring_waiting_state_process_apdu env apdu ∧
    ∀ any_apdu : APDU,
      (fired_events (configuring_waiting_state_process_apdu env any_apdu)).length ≤ 1 := by
  constructor
  · unfold configuring_waiting_state_process_apdu
    dsimp only
    split_ifs with h1 h2 h3
    · exact absurd ⟨h1, h2, h3⟩ hnot
    all_goals simp
  · intro any_apdu
    unfold configuring_waiting_state_process_apdu
    dsimp only
    split_ifs
    all_goals first
      | exact Nat.le_refl 1
      | exact Nat.zero_le 1

/-- Witness of C31: a confirmed event report that is no configuration report (a fixed scan
report) does not reset the timeout. -/
theorem C31_timeout_reset_only_by_config_report_witness :
    Call.communication_reset_timeout ∉
        configuring_waiting_state_process_apdu sample_env
          (sample_apdu ROIV_CMIP_CONFIRMED_EVENT_REPORT_CHOSEN MDC_NOTI_SCAN_REPORT_FIXED []) ∧
    ∀ any_apdu : APDU,
      (fired_events (configuring_waiting_state_process_apdu sample_env any_apdu)).length ≤ 1 :=
  C31_timeout_reset_only_by_config_report sample_env
    (sample_apdu ROIV_CMIP_CONFIRMED_EVENT_REPORT_CHOSEN MDC_NOTI_SCAN_REPORT_FIXED [])
    (by decide)

/-- C32: for event data that carries a received APDU (a ROIV confirmed event report),
`configuring_new_measurements_response_tx` makes exactly one call: (1) when the event type is
MDC_NOTI_CONFIG, `communication_abort_undefined_reason_tx` on the event data it was given, and
no ROER; (2) otherwise `communication_roer_tx` with an error result whose error value is
NO_SUCH_OBJECT_INSTANCE and whose parameter length is 0, and no abort. -/
theorem C32_new_measurements_response (evt : fsm_events) (event_data : FSMEventData)
    (apdu : APDU) (hapdu : event_data.received_apdu = some apdu) :
    ((encode_get_data_apdu apdu.u.prst).message.u.roiv_cmipConfirmedEventReport.event_type =
        MDC_NOTI_CONFIG →
      configuring_new_measurements_response_tx evt (some event_data) =
        some [Call.communication_abort_undefined_reason_tx evt (some event_data)]) ∧
    ((encode_get_data_apdu apdu.u.prst).message.u.roiv_cmipConfirmedEventReport.event_type ≠
        MDC_NOTI_CONFIG →
      ∃ error_result : ErrorResult,
        configuring_new_measurements_response_tx evt (some event_data) =
          some [Call.communication_roer_tx evt
            (some { received_apdu := some apdu
                    choice := some .FSM_EVT_DATA_ERROR_RESULT
                    u := .error_result error_result })] ∧
        error_result.error_value = NO_SUCH_OBJECT_INSTANCE ∧
        error_result.parameter.length = 0) := by
  constructor
  · intro htype
    unfold configuring_new_measurements_response_tx
    simp only [hapdu, htype, if_true]
  · intro htype
    refine ⟨{ error_value := NO_SUCH_OBJECT_INSTANCE, parameter := { length := 0, value := [] } },
      ?_, rfl, rfl⟩
    unfold configuring_new_measurements_response_tx
    simp only [hapdu, htype, if_false]

/-- Witness of C32: the sample configuration report is answered by an abort with undefined
reason. -/
theorem C32_new_measurements_response_witness :
    configuring_new_measurements_response_tx .fsm_evt_rx_roiv_confirmed_event_report
        (some (sample_event_data sample_info_extended)) =
      some [Call.communication_abort_undefined_reason_tx .fsm_evt_rx_roiv_confirmed_event_report
        (some (sample_event_data sample_info_extended))] :=
  (C32_new_measurements_response .fsm_evt_rx_roiv_confirmed_event_report
    (sample_event_data sample_info_extended)
    (sample_apdu ROIV_CMIP_CONFIRMED_EVENT_REPORT_CHOSEN MDC_NOTI_CONFIG sample_info_extended)
    rfl).1 rfl

/-- C33: for a PRST APDU whose DATA-apdu is of RORS type (and of no other type) handled by
`configuring_agent_waiting_approval_process_apdu`: (1) if `service_check_known_invoke_id` is
false, no call is made at all (no FSM event, no `service_request_retired`); (2) if it is true,
the record is at most one fired FSM event followed by exactly one `service_request_retired`
on the DATA-apdu, and no event is fired when the choice is none of the four recognised RORS
choices; (3) for a known RORS confirmed event report exactly one event is fired, and it is
`fsm_evt_rx_rors_confirmed_event_report_known` iff the object handle is MDS_HANDLE, the event
type is MDC_NOTI_CONFIG and the decoded `config_result` is ACCEPTED_CONFIG. -/
theorem C33_agent_rors (env : Env) (ctx : Context) (apdu : APDU)
    (hprst : apdu.choice = PRST_CHOSEN)
    (hroiv : env.communication_is_roiv_type (encode_get_data_apdu apdu.u.prst) = false)
    (hroer : env.communication_is_roer_type (encode_get_data_apdu apdu.u.prst) = false)
    (hrorj : env.communication_is_rorj_type (encode_get_data_apdu apdu.u.prst) = false)
    (hrors : env.communication_is_rors_type (encode_get_data_apdu apdu.u.prst) = true) :
    (env.service_check_known_invoke_id ctx (encode_get_data_apdu apdu.u.prst) = false →
      configuring_agent_waiting_approval_process_apdu env ctx apdu = []) ∧
    (env.service_check_known_invoke_id ctx (encode_get_data_apdu apdu.u.prst) = true →
      ∃ events : List Call,
        configuring_agent_waiting_approval_process_apdu env ctx apdu =
          events ++ [Call.service_request_retired (encode_get_data_apdu apdu.u.prst)] ∧
        events.length ≤ 1 ∧
        fired_events events = events ∧
        ((encode_get_data_apdu apdu.u.prst).message.choice ≠
            RORS_CMIP_CONFIRMED_EVENT_REPORT_CHOSEN →
          (encode_get_data_apdu apdu.u.prst).message.choice ≠ RORS_CMIP_GET_CHOSEN →
          (encode_get_data_apdu apdu.u.prst).message.choice ≠
            RORS_CMIP_CONFIRMED_ACTION_CHOSEN →
          (encode_get_data_apdu apdu.u.prst).message.choice ≠ RORS_CMIP_CONFIRMED_SET_CHOSEN →
          events = [])) ∧
    (env.service_check_known_invoke_id ctx (encode_get_data_apdu apdu.u.prst) = true →
      (encode_get_data_apdu apdu.u.prst).message.choice =
        RORS_CMIP_CONFIRMED_EVENT_REPORT_CHOSEN →
      ∃ evt : fsm_events,
        configuring_agent_waiting_approval_process_apdu env ctx apdu =
          [Call.communication_fire_evt evt
            (some { received_apdu := some apdu, choice := none, u := .unset }),
           Call.service_request_retired (encode_get_data_apdu apdu.u.prst)] ∧
        (evt = .fsm_evt_rx_rors_confirmed_event_report_known ↔
          (encode_get_data_apdu apdu.u.prst).message.u.rors_cmipConfirmedEventReport.obj_handle =
            MDS_HANDLE ∧
          (encode_get_data_apdu apdu.u.prst).message.u.rors_cmipConfirmedEventReport.event_type =
            MDC_NOTI_CONFIG ∧
          (env.decode_configreportrsp
            (encode_get_data_apdu
              apdu.u.prst).message.u.rors_cmipConfirmedEventReport.event_reply_info).config_result =
            ACCEPTED_CONFIG)) := by
  have hrun : configuring_agent_waiting_approval_process_apdu env ctx apdu =
      communication_agent_process_rors env ctx apdu := by
    unfold configuring_agent_waiting_approval_process_apdu
    simp [hprst, hroiv, hroer, hrorj, hrors]
  rw [hrun]
  refine ⟨?_, ?_, ?_⟩
  · intro hknown
    unfold communication_agent_process_rors
    simp [hknown]
  · intro hknown
    unfold communication_agent_process_rors
    simp only [hknown, if_true]
    refine ⟨_, rfl, ?_, ?_, ?_⟩
    · unfold comm_agent_process_confirmed_event_report
      dsimp only
      split_ifs
      all_goals first
        | exact Nat.le_refl 1
        | exact Nat.zero_le 1
    · unfold comm_agent_process_confirmed_event_report
      dsimp only
      split_ifs
      all_goals rfl
    · intro h1 h2 h3 h4
      simp only [h1, h2, h3, h4, if_false]
  · intro hknown hchoice
    unfold communication_agent_process_rors comm_agent_process_confirmed_event_report
    simp only [hknown, hchoice, if_true]
    by_cases hhandle :
        (encode_get_data_apdu apdu.u.prst).message.u.rors_cmipConfirmedEventReport.obj_handle =
          MDS_HANDLE
    · by_cases htype :
          (encode_get_data_apdu apdu.u.prst).message.u.rors_cmipConfirmedEventReport.event_type =
            MDC_NOTI_CONFIG
      · by_cases hresult :
            (env.decode_configreportrsp
              (encode_get_data_apdu
                apdu.u.prst).message.u.rors_cmipConfirmedEventReport.event_reply_info).config_result =
              ACCEPTED_CONFIG
        · refine ⟨.fsm_evt_rx_rors_confirmed_event_report_known, ?_, ?_⟩
          · simp [hhandle, htype, hresult]
          · simp [hhandle, htype, hresult]
        · refine ⟨.fsm_evt_rx_rors_confirmed_event_report_unknown, ?_, ?_⟩
          · simp [hhandle, htype, hresult]
          · simp [hhandle, htype, hresult]
      · refine ⟨.fsm_evt_rx_rors, ?_, ?_⟩
        · simp [hhandle, htype]
        · simp [hhandle, htype]
    · refine ⟨.fsm_evt_rx_rors, ?_, ?_⟩
      · simp [hhandle]
      · simp [hhandle]

/-- Witness of C33: the sample RORS confirmed event report, whose invoke-id is known, fires
`fsm_evt_rx_rors_confirmed_event_report_known` and retires the request. -/
theorem C33_agent_rors_witness :
    ∃ evt : fsm_events,
      configuring_agent_waiting_approval_process_apdu sample_env sample_ctx sample_rors_apdu =
        [Call.communication_fire_evt evt
          (some { received_apdu := some sample_rors_apdu, choice := none, u := .unset }),
         Call.service_request_retired (encode_get_data_apdu sample_rors_apdu.u.prst)] ∧
      (evt = .fsm_evt_rx_rors_confirmed_event_report_known ↔
        (encode_get_data_apdu
          sample_rors_apdu.u.prst).message.u.rors_cmipConfirmedEventReport.obj_handle =
          MDS_HANDLE ∧
        (encode_get_data_apdu
          sample_rors_apdu.u.prst).message.u.rors_cmipConfirmedEventReport.event_type =
          MDC_NOTI_CONFIG ∧
        (sample_env.decode_configreportrsp
          (encode_get_data_apdu
            sample_rors_apdu.u.prst).message.u.rors_cmipConfirmedEventReport.event_reply_info).config_result =
          ACCEPTED_CONFIG) :=
  (C33_agent_rors sample_env sample_ctx sample_rors_apdu rfl rfl rfl rfl rfl).2.2 rfl rfl

/-- Case analysis of `mds_set_attribute`: a property holds of the result when it holds of the
MDS as it was (the case MDC_ATTR_ID_HANDLE and the ids without a case) and, for each of the
seventeen other cases of the switch, of the MDS with the field of that case replaced. -/
theorem mds_set_attribute_cases (env : DecodeEnv) (mds : MDS) (ava : AVA_Type) (P : MDS → Prop)
    (hsame : P mds)
    (h1 : ava.attribute_id = MDC_ATTR_SYS_TYPE →
      P { mds with
        system_type :=
          env.decode_type ava.attribute_value (env.del_type mds.system_type) })
    (h2 : ava.attribute_id = MDC_ATTR_ID_MODEL →
      P { mds with
        system_model :=
          env.decode_systemmodel ava.attribute_value (env.del_systemmodel mds.system_model) })
    (h3 : ava.attribute_id = MDC_ATTR_SYS_ID →
      P { mds with
        system_id :=
          env.decode_octet_string ava.attribute_value (env.del_octet_string mds.system_id) })
    (h4 : ava.attribute_id = MDC_ATTR_DEV_CONFIG_ID →
      P { mds with
        dev_configuration_id :=
          env.decode_configid ava.attribute_value (env.del_configid mds.dev_configuration_id) })
    (h5 : ava.attribute_id = MDC_ATTR_ATTRIBUTE_VAL_MAP →
      P { mds with
        attribute_value_map :=
          env.decode_attrvalmap ava.attribute_value (env.del_attrvalmap mds.attribute_value_map) })
    (h6 : ava.attribute_id = MDC_ATTR_ID_PROD_SPECN →
      P { mds with
        production_specification :=
          env.decode_productionspec ava.attribute_value
          (env.del_productionspec mds.production_specification) })
    (h7 : ava.attribute_id = MDC_ATTR_MDS_TIME_INFO →
      P { mds with
        mds_time_info :=
          env.decode_mdstimeinfo ava.attribute_value (env.del_mdstimeinfo mds.mds_time_info) })
    (h8 : ava.attribute_id = MDC_ATTR_TIME_ABS →
      P { mds with
        date_and_time :=
          env.decode_absolutetime ava.attribute_value (env.del_absolutetime mds.date_and_time) })
    (h9 : ava.attribute_id = MDC_ATTR_TIME_REL →
      P { mds with
        relative_time :=
          env.read_intu32 ava.attribute_value })
    (h10 : ava.attribute_id = MDC_ATTR_TIME_REL_HI_RES →
      P { mds with
        hires_relative_time :=
          env.decode_highresrelativetime ava.attribute_value
          (env.del_highresrelativetime mds.hires_relative_time) })
    (h11 : ava.attribute_id = MDC_ATTR_TIME_ABS_ADJUST →
      P { mds with
        date_and_time_adjustment :=
          env.decode_absolutetimeadjust ava.attribute_value
          (env.del_absolutetimeadjust mds.date_and_time_adjustment) })
    (h12 : ava.attribute_id = MDC_ATTR_POWER_STAT →
      P { mds with
        power_status :=
          env.read_intu16 ava.attribute_value })
    (h13 : ava.attribute_id = MDC_ATTR_VAL_BATT_CHARGE →
      P { mds with
        battery_level :=
          env.read_intu16 ava.attribute_value })
    (h14 : ava.attribute_id = MDC_ATTR_TIME_BATT_REMAIN →
      P { mds with
        remaining_battery_time :=
          env.decode_batmeasure ava.attribute_value (env.del_batmeasure mds.remaining_battery_time) })
    (h15 : ava.attribute_id = MDC_ATTR_REG_CERT_DATA_LIST →
      P { mds with
        reg_cert_data_list :=
          env.decode_regcertdatalist ava.attribute_value
          (env.del_regcertdatalist mds.reg_cert_data_list) })
    (h16 : ava.attribute_id = MDC_ATTR_SYS_TYPE_SPEC_LIST →
      P { mds with
        system_type_spec_list :=
          env.decode_typeverlist ava.attribute_value
          (env.del_typeverlist mds.system_type_spec_list) })
    (h17 : ava.attribute_id = MDC_ATTR_CONFIRM_TIMEOUT →
      P { mds with
        confirm_timeout :=
          env.read_intu32 ava.attribute_value }) :
    P (mds_set_attribute env mds ava) := by
  unfold mds_set_attribute
  dsimp only
  by_cases c0 : ava.attribute_id = MDC_ATTR_ID_HANDLE
  · rw [if_pos c0]
    exact hsame
  rw [if_neg c0]
  by_cases c1 : ava.attribute_id = MDC_ATTR_SYS_TYPE
  · rw [if_pos c1]
    exact h1 c1
  rw [if_neg c1]
  by_cases c2 : ava.attribute_id = MDC_ATTR_ID_MODEL
  · rw [if_pos c2]
    exact h2 c2
  rw [if_neg c2]
  by_cases c3 : ava.attribute_id = MDC_ATTR_SYS_ID
  · rw [if_pos c3]
    exact h3 c3
  rw [if_neg c3]
  by_cases c4 : ava.attribute_id = MDC_ATTR_DEV_CONFIG_ID
  · rw [if_pos c4]
    exact h4 c4
  rw [if_neg c4]
  by_cases c5 : ava.attribute_id = MDC_ATTR_ATTRIBUTE_VAL_MAP
  · rw [if_pos c5]
    exact h5 c5
  rw [if_neg c5]
  by_cases c6 : ava.attribute_id = MDC_ATTR_ID_PROD_SPECN
  · rw [if_pos c6]
    exact h6 c6
  rw [if_neg c6]
  by_cases c7 : ava.attribute_id = MDC_ATTR_MDS_TIME_INFO
  · rw [if_pos c7]
    exact h7 c7
  rw [if_neg c7]
  by_cases c8 : ava.attribute_id = MDC_ATTR_TIME_ABS
  · rw [if_pos c8]
    exact h8 c8
  rw [if_neg c8]
  by_cases c9 : ava.attribute_id = MDC_ATTR_TIME_REL
  · rw [if_pos c9]
    exact h9 c9
  rw [if_neg c9]
  by_cases c10 : ava.attribute_id = MDC_ATTR_TIME_REL_HI_RES
  · rw [if_pos c10]
    exact h10 c10
  rw [if_neg c10]
  by_cases c11 : ava.attribute_id = MDC_ATTR_TIME_ABS_ADJUST
  · rw [if_pos c11]
    exact h11 c11
  rw [if_neg c11]
  by_cases c12 : ava.attribute_id = MDC_ATTR_POWER_STAT
  · rw [if_pos c12]
    exact h12 c12
  rw [if_neg c12]
  by_cases c13 : ava.attribute_id = MDC_ATTR_VAL_BATT_CHARGE
  · rw [if_pos c13]
    exact h13 c13
  rw [if_neg c13]
  by_cases c14 : ava.attribute_id = MDC_ATTR_TIME_BATT_REMAIN
  · rw [if_pos c14]
    exact h14 c14
  rw [if_neg c14]
  by_cases c15 : ava.attribute_id = MDC_ATTR_REG_CERT_DATA_LIST
  · rw [if_pos c15]
    exact h15 c15
  rw [if_neg c15]
  by_cases c16 : ava.attribute_id = MDC_ATTR_SYS_TYPE_SPEC_LIST
  · rw [if_pos c16]
    exact h16 c16
  rw [if_neg c16]
  by_cases c17 : ava.attribute_id = MDC_ATTR_CONFIRM_TIMEOUT
  · rw [if_pos c17]
    exact h17 c17
  rw [if_neg c17]
  exact hsame

/-- C34: for every MDS and every AVA_Type, recognised or not, `mds_set_attribute` leaves the
handle of the MDS, its sub-object list and its sub-object count unchanged (and the class id
and the data-request capability, which are no attributes of the switch); for
MDC_ATTR_ID_HANDLE it returns the MDS as it was; and every scalar field other than the one
that corresponds to the attribute id is unchanged: a field can differ only when the attribute
id is the id of that field. -/
theorem C34_set_attribute_frame (env : DecodeEnv) (mds : MDS) (ava : AVA_Type) :
    (mds_set_attribute env mds ava).handle = mds.handle ∧
    (mds_set_attribute env mds ava).objects_list = mds.objects_list ∧
    (mds_set_attribute env mds ava).objects_list_count = mds.objects_list_count ∧
    (mds_set_attribute env mds ava).dim = mds.dim ∧
    (mds_set_attribute env mds ava).data_req_mode_capab = mds.data_req_mode_capab ∧
    (ava.attribute_id = MDC_ATTR_ID_HANDLE → mds_set_attribute env mds ava = mds) ∧
    (ava.attribute_id ≠ MDC_ATTR_SYS_TYPE →
      (mds_set_attribute env mds ava).system_type = mds.system_type) ∧
    (ava.attribute_id ≠ MDC_ATTR_ID_MODEL →
      (mds_set_attribute env mds ava).system_model = mds.system_model) ∧
    (ava.attribute_id ≠ MDC_ATTR_SYS_ID →
      (mds_set_attribute env mds ava).system_id = mds.system_id) ∧
    (ava.attribute_id ≠ MDC_ATTR_DEV_CONFIG_ID →
      (mds_set_attribute env mds ava).dev_configuration_id = mds.dev_configuration_id) ∧
    (ava.attribute_id ≠ MDC_ATTR_ATTRIBUTE_VAL_MAP →
      (mds_set_attribute env mds ava).attribute_value_map = mds.attribute_value_map) ∧
    (ava.attribute_id ≠ MDC_ATTR_ID_PROD_SPECN →
      (mds_set_attribute env mds ava).production_specification = mds.production_specification) ∧
    (ava.attribute_id ≠ MDC_ATTR_MDS_TIME_INFO →
      (mds_set_attribute env mds ava).mds_time_info = mds.mds_time_info) ∧
    (ava.attribute_id ≠ MDC_ATTR_TIME_ABS →
      (mds_set_attribute env mds ava).date_and_time = mds.date_and_time) ∧
    (ava.attribute_id ≠ MDC_ATTR_TIME_REL →
      (mds_set_attribute env mds ava).relative_time = mds.relative_time) ∧
    (ava.attribute_id ≠ MDC_ATTR_TIME_REL_HI_RES →
      (mds_set_attribute env mds ava).hires_relative_time = mds.hires_relative_time) ∧
    (ava.attribute_id ≠ MDC_ATTR_TIME_ABS_ADJUST →
      (mds_set_attribute env mds ava).date_and_time_adjustment = mds.date_and_time_adjustment) ∧
    (ava.attribute_id ≠ MDC_ATTR_POWER_STAT →
      (mds_set_attribute env mds ava).power_status = mds.power_status) ∧
    (ava.attribute_id ≠ MDC_ATTR_VAL_BATT_CHARGE →
      (mds_set_attribute env mds ava).battery_level = mds.battery_level) ∧
    (ava.attribute_id ≠ MDC_ATTR_TIME_BATT_REMAIN →
      (mds_set_attribute env mds ava).remaining_battery_time = mds.remaining_battery_time) ∧
    (ava.attribute_id ≠ MDC_ATTR_REG_CERT_DATA_LIST →
      (mds_set_attribute env mds ava).reg_cert_data_list = mds.reg_cert_data_list) ∧
    (ava.attribute_id ≠ MDC_ATTR_SYS_TYPE_SPEC_LIST →
      (mds_set_attribute env mds ava).system_type_spec_list = mds.system_type_spec_list) ∧
    (ava.attribute_id ≠ MDC_ATTR_CONFIRM_TIMEOUT →
      (mds_set_attribute env mds ava).confirm_timeout = mds.confirm_timeout) := by
  refine mds_set_attribute_cases env mds ava
    (fun r =>
      r.handle = mds.handle ∧
      r.objects_list = mds.objects_list ∧
      r.objects_list_count = mds.objects_list_count ∧
      r.dim = mds.dim ∧
      r.data_req_mode_capab = mds.data_req_mode_capab ∧
      (ava.attribute_id = MDC_ATTR_ID_HANDLE → r = mds) ∧
      (ava.attribute_id ≠ MDC_ATTR_SYS_TYPE →
        r.system_type = mds.system_type) ∧
      (ava.attribute_id ≠ MDC_ATTR_ID_MODEL →
        r.system_model = mds.system_model) ∧
      (ava.attribute_id ≠ MDC_ATTR_SYS_ID →
        r.system_id = mds.system_id) ∧
      (ava.attribute_id ≠ MDC_ATTR_DEV_CONFIG_ID →
        r.dev_configuration_id = mds.dev_configuration_id) ∧
      (ava.attribute_id ≠ MDC_ATTR_ATTRIBUTE_VAL_MAP →
        r.attribute_value_map = mds.attribute_value_map) ∧
      (ava.attribute_id ≠ MDC_ATTR_ID_PROD_SPECN →
        r.production_specification = mds.production_specification) ∧
      (ava.attribute_id ≠ MDC_ATTR_MDS_TIME_INFO →
        r.mds_time_info = mds.mds_time_info) ∧
      (ava.attribute_id ≠ MDC_ATTR_TIME_ABS →
        r.date_and_time = mds.date_and_time) ∧
      (ava.attribute_id ≠ MDC_ATTR_TIME_REL →
        r.relative_time = mds.relative_time) ∧
      (ava.attribute_id ≠ MDC_ATTR_TIME_REL_HI_RES →
        r.hires_relative_time = mds.hires_relative_time) ∧
      (ava.attribute_id ≠ MDC_ATTR_TIME_ABS_ADJUST →
        r.date_and_time_adjustment = mds.date_and_time_adjustment) ∧
      (ava.attribute_id ≠ MDC_ATTR_POWER_STAT →
        r.power_status = mds.power_status) ∧
      (ava.attribute_id ≠ MDC_ATTR_VAL_BATT_CHARGE →
        r.battery_level = mds.battery_level) ∧
      (ava.attribute_id ≠ MDC_ATTR_TIME_BATT_REMAIN →
        r.remaining_battery_time = mds.remaining_battery_time) ∧
      (ava.attribute_id ≠ MDC_ATTR_REG_CERT_DATA_LIST →
        r.reg_cert_data_list = mds.reg_cert_data_list) ∧
      (ava.attribute_id ≠ MDC_ATTR_SYS_TYPE_SPEC_LIST →
        r.system_type_spec_list = mds.system_type_spec_list) ∧
      (ava.attribute_id ≠ MDC_ATTR_CONFIRM_TIMEOUT →
        r.confirm_timeout = mds.confirm_timeout))
    ?_ ?_ ?_ ?_ ?_ ?_ ?_ ?_ ?_ ?_ ?_ ?_ ?_ ?_ ?_ ?_ ?_ ?_
  · refine ⟨?_, ?_, ?_, ?_, ?_, ?_, ?_, ?_, ?_, ?_, ?_, ?_, ?_, ?_, ?_, ?_, ?_, ?_, ?_, ?_, ?_,
      ?_, ?_⟩
    all_goals first
      | rfl
      | (intro _; rfl)
  all_goals
    intro c
    refine ⟨?_, ?_, ?_, ?_, ?_, ?_, ?_, ?_, ?_, ?_, ?_, ?_, ?_, ?_, ?_, ?_, ?_, ?_, ?_, ?_, ?_,
      ?_, ?_⟩
    all_goals first
      | rfl
      | (intro _; rfl)
      | (intro h; exact absurd c h)
      | (intro h; exact absurd (h.symm.trans c) (by decide))

/-- Witness of C34: setting MDC_ATTR_DEV_CONFIG_ID to 0x4001 on the sample MDS with two
sub-objects changes `dev_configuration_id` and leaves the handle, the sub-object list and its
count as they were. -/
theorem C34_set_attribute_frame_witness :
    (mds_set_attribute sample_decode_env sample_mds_two_objects
        { attribute_id := MDC_ATTR_DEV_CONFIG_ID
          attribute_value := { length := 2, value := [0x40, 0x01] } }).dev_configuration_id =
      0x4001 ∧
    (mds_set_attribute sample_decode_env sample_mds_two_objects
        { attribute_id := MDC_ATTR_DEV_CONFIG_ID
          attribute_value := { length := 2, value := [0x40, 0x01] } }).handle =
      sample_mds_two_objects.handle ∧
    (mds_set_attribute sample_decode_env sample_mds_two_objects
        { attribute_id := MDC_ATTR_DEV_CONFIG_ID
          attribute_value := { length := 2, value := [0x40, 0x01] } }).objects_list =
      sample_mds_two_objects.objects_list ∧
    (mds_set_attribute sample_decode_env sample_mds_two_objects
        { attribute_id := MDC_ATTR_DEV_CONFIG_ID
          attribute_value := { length := 2, value := [0x40, 0x01] } }).objects_list_count =
      sample_mds_two_objects.objects_list_count :=
  ⟨by decide,
    (C34_set_attribute_frame sample_decode_env sample_mds_two_objects
      { attribute_id := MDC_ATTR_DEV_CONFIG_ID
        attribute_value := { length := 2, value := [0x40, 0x01] } }).1,
    (C34_set_attribute_frame sample_decode_env sample_mds_two_objects
      { attribute_id := MDC_ATTR_DEV_CONFIG_ID
        attribute_value := { length := 2, value := [0x40, 0x01] } }).2.1,
    (C34_set_attribute_frame sample_decode_env sample_mds_two_objects
      { attribute_id := MDC_ATTR_DEV_CONFIG_ID
        attribute_value := { length := 2, value := [0x40, 0x01] } }).2.2.1⟩

end Antidote
